import Mathlib

/-!
# Bytedesk MQTT core

A shallow embedding of `src/core/mqtt/mqttclient.cpp`, `src/core/mqtt/mqttmessagehandler.cpp`
and the parts of `src/models/message.{h,cpp}` they use, followed by theorems about it.

Conventions of the embedding:

* a `QByteArray` is the list of its bytes, each byte a natural number below 256;
  `static_cast<char>(n)` keeps `n % 256`;
* a `QHash` is an association list without repeated keys; its iteration order (unspecified in
  Qt) is the order of first insertion;
* functions of the Qt library whose code is not part of the repository (UTF-8 conversion, the
  JSON parser and printer, ISO dates) are fields of `QtLib` and passed as a parameter;
* values the code draws from the outside world (`QUuid::createUuid()`,
  `QDateTime::currentDateTime()`, the bytes returned by `readAll()`, the socket's error
  string) are explicit arguments;
* `m_socket->write(p)` appends `p` to `QTcpSocket.written`; an emitted Qt signal is appended to
  the `emitted` list of the emitting object, and a slot connected to it runs at that point
  (all connections of the two classes are direct);
* `qDebug()` / `qWarning()` output and `QMutexLocker` are not modelled.
-/

namespace Bytedesk

/-! ## Qt value types -/

abbrev QString := String

abbrev QByteArray := List Nat

/-- A `QDateTime` as milliseconds since the epoch; `none` is the invalid date. -/
abbrev QDateTime := Option Int

/-- The conversion `static_cast<char>(n)` of a non-negative integer: the low eight bits. -/
def toChar (n : Nat) : Nat := n % 256

/-- The conversion `static_cast<char>(x)` of a signed integer, read back as an unsigned byte. -/
def intToChar (x : Int) : Nat := (x % 256).toNat

/-- The call `QByteArray::mid(pos, len)`, clamped to the bytes that exist. -/
def QByteArray.mid (b : QByteArray) (pos len : Nat) : QByteArray := (b.drop pos).take len

/-- The call `QByteArray::mid(pos)`: everything from `pos` on. -/
def QByteArray.midFrom (b : QByteArray) (pos : Nat) : QByteArray := b.drop pos

/-! ### QHash and QSet -/

abbrev QHash (κ ν : Type) := List (κ × ν)

namespace QHash

variable {κ ν : Type} [DecidableEq κ]

def contains (h : QHash κ ν) (k : κ) : Bool := h.any (fun p => decide (p.1 = k))

/-- The lookup `h.value(k)` as an option (`none` when the key is absent). -/
def find (h : QHash κ ν) (k : κ) : Option ν := (List.find? (fun p => decide (p.1 = k)) h).map Prod.snd

/-- The lookup `h.value(k, dflt)`. -/
def value (h : QHash κ ν) (k : κ) (dflt : ν) : ν := (find h k).getD dflt

/-- The assignment `h[k] = v`: overwrite the entry of `k`, or add one. -/
def insert (h : QHash κ ν) (k : κ) (v : ν) : QHash κ ν :=
  if contains h k then h.map (fun p => if p.1 = k then (k, v) else p) else h ++ [(k, v)]

def remove (h : QHash κ ν) (k : κ) : QHash κ ν := h.filter (fun p => !decide (p.1 = k))

def keys (h : QHash κ ν) : List κ := h.map Prod.fst

def values (h : QHash κ ν) : List ν := h.map Prod.snd

end QHash

abbrev QSet (α : Type) := List α

namespace QSet

variable {α : Type} [DecidableEq α]

def contains (s : QSet α) (a : α) : Bool := decide (a ∈ s)

def insert (s : QSet α) (a : α) : QSet α := if a ∈ s then s else s ++ [a]

def size (s : QSet α) : Nat := s.length

def clear (_s : QSet α) : QSet α := []

end QSet

/-! ### JSON values -/

inductive QJsonValue where
  | null
  | bool (b : Bool)
  | double (n : Int)
  | string (s : QString)
  | array (xs : List QJsonValue)
  | object (kvs : List (QString × QJsonValue))
  | undefined

abbrev QJsonObject := List (QString × QJsonValue)

namespace QJsonValue

/-- The accessor `toString()`: the string, or the empty string for any other kind. -/
def toQString : QJsonValue → QString
  | string s => s
  | _ => ""

/-- The accessor `toObject()`: the object, or the empty object for any other kind. -/
def toObject : QJsonValue → QJsonObject
  | object kvs => kvs
  | _ => []

/-- The accessor `toInt()`: the number when it fits an `int`, else 0. -/
def toInt : QJsonValue → Int
  | double n => if -2147483648 ≤ n ∧ n ≤ 2147483647 then n else 0
  | _ => 0

/-- The accessor `toVariant().toLongLong()`: the number when it fits a `qint64`, else 0. -/
def toLongLong : QJsonValue → Int
  | double n => if -9223372036854775808 ≤ n ∧ n ≤ 9223372036854775807 then n else 0
  | _ => 0

end QJsonValue

namespace QJsonObject

/-- The read access `json[key]`: the member, or `undefined`. -/
def get (o : QJsonObject) (key : QString) : QJsonValue := QHash.value o key QJsonValue.undefined

def contains (o : QJsonObject) (key : QString) : Bool := QHash.contains o key

/-- The write access `obj[key] = v`. -/
def set (o : QJsonObject) (key : QString) (v : QJsonValue) : QJsonObject := QHash.insert o key v

end QJsonObject

/-- The Qt library functions the code calls and the repository does not contain. -/
structure QtLib where
  /-- The conversion `QString::toUtf8`. -/
  toUtf8 : QString → QByteArray
  /-- The conversion `QString::fromUtf8`. -/
  fromUtf8 : QByteArray → QString
  /-- The parser `QJsonDocument::fromJson`: an object or an array, `none` on a parse error. -/
  jsonParse : QByteArray → Option QJsonValue
  /-- The printer `QJsonDocument(obj).toJson(QJsonDocument::Compact)`. -/
  jsonCompact : QJsonObject → QByteArray
  /-- The printer `QDateTime::toString(Qt::ISODate)`. -/
  dateToString : QDateTime → QString
  /-- The parser `QDateTime::fromString(s, Qt::ISODate)`. -/
  dateFromString : QString → QDateTime

/-! ## The MQTT client (`mqttclient.h`, `mqttclient.cpp`) -/

inductive MqttConnectionState where
  | DISCONNECTED
  | CONNECTING
  | CONNECTED
  | RECONNECTING
  | ERROR
  deriving DecidableEq, Repr

namespace MqttProtocol

def CONNECT : Nat := 0x10
def CONNACK : Nat := 0x20
def PUBLISH : Nat := 0x30
def PUBACK : Nat := 0x40
def SUBSCRIBE : Nat := 0x82
def SUBACK : Nat := 0x90
def UNSUBSCRIBE : Nat := 0xA2
def UNSUBACK : Nat := 0xB0
def PINGREQ : Nat := 0xC0
def PINGRESP : Nat := 0xD0
def DISCONNECT : Nat := 0xE0

end MqttProtocol

/-- The states of `QAbstractSocket` the client can observe. -/
inductive SocketState where
  | UnconnectedState
  | HostLookupState
  | ConnectingState
  | ConnectedState
  | ClosingState
  deriving DecidableEq, Repr

/-- The socket as the client sees it: its state and the calls made on it, oldest first. The
client's calls change the state as below; the changes Qt makes on its own (to `ConnectedState`
when the connection is up, to `UnconnectedState` when it is closed) come with the socket's
signals, see `MqttClient.socketConnected` and `MqttClient.socketDisconnected`. -/
structure QTcpSocket where
  state : SocketState
  written : List QByteArray
  connectCalls : List (QString × Int)
  disconnectCalls : Nat
  deriving DecidableEq, Repr

namespace QTcpSocket

def write (s : QTcpSocket) (packet : QByteArray) : QTcpSocket :=
  { s with written := s.written ++ [packet] }

def connectToHost (s : QTcpSocket) (host : QString) (port : Int) : QTcpSocket :=
  { s with state := SocketState.HostLookupState, connectCalls := s.connectCalls ++ [(host, port)] }

def disconnectFromHost (s : QTcpSocket) : QTcpSocket :=
  { s with state := SocketState.ClosingState, disconnectCalls := s.disconnectCalls + 1 }

end QTcpSocket

structure QTimer where
  active : Bool
  interval : Int
  deriving DecidableEq, Repr

namespace QTimer

def start (_t : QTimer) (msec : Int) : QTimer := { active := true, interval := msec }

def stop (t : QTimer) : QTimer := { t with active := false }

end QTimer

/-- The signals of `MqttClient`. -/
inductive ClientSignal where
  | connected
  | disconnected
  | errorOccurred (error : QString)
  | messageReceived (topic : QString) (payload : QByteArray)
  | connectionStateChanged (state : MqttConnectionState)
  deriving DecidableEq, Repr

/-- The calls of the four `std::function` callbacks, when one is set. -/
inductive CallbackCall where
  | message (topic : QString) (payload : QByteArray)
  | connected
  | disconnected
  | error (error : QString)
  deriving DecidableEq, Repr

structure MqttClient where
  m_socket : QTcpSocket
  m_state : MqttConnectionState
  m_clientId : QString
  m_host : QString
  m_port : Int
  m_username : QString
  m_password : QString
  m_cleanSession : Bool
  m_subscriptions : QHash QString Nat
  /-- Whether `m_messageCallback` holds a function. -/
  m_messageCallback : Bool
  m_connectedCallback : Bool
  m_disconnectedCallback : Bool
  m_errorCallback : Bool
  m_keepAliveTimer : QTimer
  m_reconnectTimer : QTimer
  m_connectTimeoutTimer : QTimer
  m_lastMessageTime : QDateTime
  m_keepAliveInterval : Int
  m_reconnectInterval : Int
  m_connectTimeout : Int
  m_maxReconnectAttempts : Int
  m_currentReconnectAttempt : Int
  m_manualDisconnect : Bool
  m_messageId : Nat
  m_willTopic : QString
  m_willMessage : QByteArray
  m_willQos : Nat
  m_readBuffer : QByteArray
  /-- The delays of the `QTimer::singleShot` calls of `reconnect()` not yet fired. -/
  singleShots : List Int
  /-- The signals emitted so far, oldest first. -/
  emitted : List ClientSignal
  /-- The callback calls made so far, oldest first. -/
  callbackCalls : List CallbackCall
  deriving DecidableEq, Repr

namespace MqttClient

/-- The constructor `MqttClient::MqttClient`. -/
def new : MqttClient where
  m_socket := { state := SocketState.UnconnectedState, written := [], connectCalls := [],
                disconnectCalls := 0 }
  m_state := MqttConnectionState.DISCONNECTED
  m_clientId := ""
  m_host := ""
  m_port := 1883
  m_username := ""
  m_password := ""
  m_cleanSession := true
  m_subscriptions := []
  m_messageCallback := false
  m_connectedCallback := false
  m_disconnectedCallback := false
  m_errorCallback := false
  m_keepAliveTimer := { active := false, interval := 0 }
  m_reconnectTimer := { active := false, interval := 0 }
  m_connectTimeoutTimer := { active := false, interval := 0 }
  m_lastMessageTime := none
  m_keepAliveInterval := 30000
  m_reconnectInterval := 3000
  m_connectTimeout := 30000
  m_maxReconnectAttempts := 5
  m_currentReconnectAttempt := 0
  m_manualDisconnect := false
  m_messageId := 1
  m_willTopic := ""
  m_willMessage := []
  m_willQos := 0
  m_readBuffer := []
  singleShots := []
  emitted := []
  callbackCalls := []

def emit (c : MqttClient) (s : ClientSignal) : MqttClient :=
  { c with emitted := c.emitted ++ [s] }

def setState (c : MqttClient) (state : MqttConnectionState) : MqttClient :=
  if c.m_state ≠ state then
    emit { c with m_state := state } (ClientSignal.connectionStateChanged state)
  else c

def isConnected (c : MqttClient) : Bool :=
  decide (c.m_state = MqttConnectionState.CONNECTED)

def encodeString (qt : QtLib) (str : QString) : QByteArray :=
  let utf8 := qt.toUtf8 str
  [toChar (utf8.length >>> 8), toChar (utf8.length &&& 0xFF)] ++ utf8

/-- The post-increment `m_messageId++` on a `quint16`: the old value, and the counter moved on. -/
def calculateMessageId (c : MqttClient) : Nat × MqttClient :=
  (c.m_messageId, { c with m_messageId := (c.m_messageId + 1) % 65536 })

/-- The bytes after the header byte of the CONNECT packet, before the length byte is added. -/
def connectPayload (qt : QtLib) (c : MqttClient) : QByteArray :=
  let flags : Nat := 0x00
  let flags := if c.m_cleanSession then flags ||| 0x02 else flags
  let flags := if c.m_username ≠ "" then flags ||| 0x80 else flags
  let flags := if c.m_password ≠ "" then flags ||| 0x40 else flags
  [toChar 0x00, toChar 0x04, 'M'.toNat, 'Q'.toNat, 'T'.toNat, 'T'.toNat, toChar 0x04, toChar flags,
    intToChar ((c.m_keepAliveInterval.tdiv 1000) / 256),
    intToChar ((c.m_keepAliveInterval.tdiv 1000) % 256)]
  ++ encodeString qt c.m_clientId
  ++ (if c.m_username ≠ "" then encodeString qt c.m_username else [])
  ++ (if c.m_password ≠ "" then encodeString qt c.m_password else [])

/-- The packet `sendMqttConnect` hands to the socket. -/
def connectPacket (qt : QtLib) (c : MqttClient) : QByteArray :=
  let payload := connectPayload qt c
  [toChar MqttProtocol.CONNECT] ++ [toChar payload.length] ++ payload

def sendMqttConnect (qt : QtLib) (c : MqttClient) : MqttClient :=
  { c with m_socket := c.m_socket.write (connectPacket qt c) }

/-- The bytes after the length byte of a SUBSCRIBE packet. -/
def subscribePayload (qt : QtLib) (msgId : Nat) (topic : QString) (qos : Nat) : QByteArray :=
  [toChar (msgId >>> 8), toChar (msgId &&& 0xFF)] ++ encodeString qt topic ++ [toChar qos]

/-- The packet `sendMqttSubscribe` hands to the socket, given the message id it drew. -/
def subscribePacket (qt : QtLib) (msgId : Nat) (topic : QString) (qos : Nat) : QByteArray :=
  let payload := subscribePayload qt msgId topic qos
  [toChar MqttProtocol.SUBSCRIBE] ++ [toChar payload.length] ++ payload

def sendMqttSubscribe (qt : QtLib) (c : MqttClient) (topic : QString) (qos : Nat) : MqttClient :=
  let (msgId, c) := calculateMessageId c
  { c with m_socket := c.m_socket.write (subscribePacket qt msgId topic qos) }

/-- The header byte of a PUBLISH packet. -/
def publishHeader (qos : Nat) (retain : Bool) : Nat :=
  let header := MqttProtocol.PUBLISH
  let header := if retain then header ||| 0x01 else header
  let header := if qos > 0 then (header ||| (qos <<< 1)) % 256 else header
  header

/-- The bytes after the length byte of a PUBLISH packet; `msgId` is used when `qos > 0`. -/
def publishData (qt : QtLib) (msgId : Nat) (topic : QString) (payload : QByteArray) (qos : Nat) :
    QByteArray :=
  encodeString qt topic
  ++ (if qos > 0 then [toChar (msgId >>> 8), toChar (msgId &&& 0xFF)] else [])
  ++ payload

/-- The packet `sendMqttPublish` hands to the socket. -/
def publishPacket (qt : QtLib) (msgId : Nat) (topic : QString) (payload : QByteArray) (qos : Nat)
    (retain : Bool) : QByteArray :=
  let data := publishData qt msgId topic payload qos
  [toChar (publishHeader qos retain)] ++ [toChar (data.length &&& 0xFF)] ++ data

def sendMqttPublish (qt : QtLib) (c : MqttClient) (topic : QString) (payload : QByteArray)
    (qos : Nat) (retain : Bool) : MqttClient :=
  let (msgId, c) := if qos > 0 then calculateMessageId c else (0, c)
  { c with m_socket := c.m_socket.write (publishPacket qt msgId topic payload qos retain) }

def subscribe (qt : QtLib) (c : MqttClient) (topic : QString) (qos : Nat) : MqttClient :=
  if !c.isConnected then c
  else sendMqttSubscribe qt { c with m_subscriptions := QHash.insert c.m_subscriptions topic qos }
    topic qos

def unsubscribe (c : MqttClient) (topic : QString) : MqttClient :=
  if QHash.contains c.m_subscriptions topic then
    { c with m_subscriptions := QHash.remove c.m_subscriptions topic }
  else c

def unsubscribeAll (c : MqttClient) : MqttClient :=
  (QHash.keys c.m_subscriptions).foldl unsubscribe c

def publish (qt : QtLib) (c : MqttClient) (topic : QString) (payload : QByteArray) (qos : Nat)
    (retain : Bool) : MqttClient :=
  if !c.isConnected then c
  else sendMqttPublish qt c topic payload qos retain

def startKeepAlive (c : MqttClient) (intervalMs : Int) : MqttClient :=
  { c with m_keepAliveInterval := intervalMs, m_keepAliveTimer := c.m_keepAliveTimer.start intervalMs }

def stopKeepAlive (c : MqttClient) : MqttClient :=
  { c with m_keepAliveTimer := c.m_keepAliveTimer.stop }

def setKeepAlive (c : MqttClient) (seconds : Int) : MqttClient :=
  { c with m_keepAliveInterval := seconds * 1000 }

def scheduleReconnect (c : MqttClient) : MqttClient :=
  if !c.m_manualDisconnect && decide (c.m_maxReconnectAttempts > 0) then
    { c with m_reconnectTimer := c.m_reconnectTimer.start c.m_reconnectInterval }
  else c

def updateLastMessageTime (c : MqttClient) (now : QDateTime) : MqttClient :=
  { c with m_lastMessageTime := now }

def connectToHost (c : MqttClient) (host : QString) (port : Int) (username password clientId : QString) :
    MqttClient :=
  let c := { c with m_host := host, m_port := port, m_username := username, m_password := password,
                    m_clientId := clientId, m_manualDisconnect := false,
                    m_currentReconnectAttempt := 0 }
  let c := c.setState MqttConnectionState.CONNECTING
  let c := { c with m_connectTimeoutTimer := c.m_connectTimeoutTimer.start c.m_connectTimeout }
  { c with m_socket := c.m_socket.connectToHost host port }

def disconnectFromHost (c : MqttClient) : MqttClient :=
  let c := { c with m_manualDisconnect := true,
                    m_reconnectTimer := c.m_reconnectTimer.stop,
                    m_connectTimeoutTimer := c.m_connectTimeoutTimer.stop,
                    m_keepAliveTimer := c.m_keepAliveTimer.stop }
  let c := if c.m_socket.state = SocketState.ConnectedState then
      { c with m_socket := (c.m_socket.write [toChar MqttProtocol.DISCONNECT, toChar 0x00]).disconnectFromHost }
    else c
  c.setState MqttConnectionState.DISCONNECTED

/-- The slot `reconnect()`; the lambda it hands to `QTimer::singleShot` is `reconnectShot`. -/
def reconnect (c : MqttClient) : MqttClient :=
  if c.m_manualDisconnect then c
  else if c.m_currentReconnectAttempt ≥ c.m_maxReconnectAttempts then
    let error := "Max reconnect attempts (" ++ toString c.m_maxReconnectAttempts ++ ") reached"
    let c := c.setState MqttConnectionState.ERROR
    let c := { c with m_reconnectTimer := c.m_reconnectTimer.stop }
    c.emit (ClientSignal.errorOccurred error)
  else
    let c := { c with m_currentReconnectAttempt := c.m_currentReconnectAttempt + 1 }
    let c := c.disconnectFromHost
    let c := { c with m_manualDisconnect := false }
    { c with singleShots := c.singleShots ++ [c.m_reconnectInterval] }

/-- The lambda of `reconnect()`, run when its single-shot timer fires. -/
def reconnectShot (c : MqttClient) : MqttClient :=
  let c := { c with singleShots := c.singleShots.drop 1 }
  let c := c.setState MqttConnectionState.RECONNECTING
  { c with m_socket := c.m_socket.connectToHost c.m_host c.m_port }

def onConnected (qt : QtLib) (c : MqttClient) : MqttClient := sendMqttConnect qt c

def onDisconnected (c : MqttClient) : MqttClient :=
  let c := { c with m_keepAliveTimer := c.m_keepAliveTimer.stop }
  let c := if !c.m_manualDisconnect then
      (c.setState MqttConnectionState.DISCONNECTED).scheduleReconnect
    else c
  let c := c.emit ClientSignal.disconnected
  if c.m_disconnectedCallback then
    { c with callbackCalls := c.callbackCalls ++ [CallbackCall.disconnected] }
  else c

def onError (c : MqttClient) (errorString : QString) : MqttClient :=
  let c := { c with m_connectTimeoutTimer := c.m_connectTimeoutTimer.stop }
  let c := if !c.m_manualDisconnect then
      (c.setState MqttConnectionState.ERROR).scheduleReconnect
    else c
  let c := c.emit (ClientSignal.errorOccurred errorString)
  if c.m_errorCallback then
    { c with callbackCalls := c.callbackCalls ++ [CallbackCall.error errorString] }
  else c

def onKeepAliveTimeout (c : MqttClient) : MqttClient :=
  if !c.isConnected then { c with m_keepAliveTimer := c.m_keepAliveTimer.stop }
  else { c with m_socket := c.m_socket.write [toChar MqttProtocol.PINGREQ, toChar 0x00] }

def onConnectTimeout (c : MqttClient) : MqttClient :=
  if c.m_state = MqttConnectionState.CONNECTING then
    ((c.setState MqttConnectionState.ERROR).disconnectFromHost).scheduleReconnect
  else c

end MqttClient

/-! ## The models (`models/message.h`, `models/message.cpp`, `models/thread.h`, `models/user.h`) -/

inductive MessageType where
  | TEXT
  | IMAGE
  | FILE
  | VIDEO
  | VOICE
  | TYPING
  | NOTICE
  | RECALL
  | DELIVERED
  | READ
  | CUSTOM
  deriving DecidableEq, Repr

inductive MessageStatus where
  | SENDING
  | SENT
  | DELIVERED
  | READ
  | FAILED
  | RECALLED
  deriving DecidableEq, Repr

structure MessageContent where
  text : QString := ""
  imageUrl : QString := ""
  fileUrl : QString := ""
  fileName : QString := ""
  fileSize : Int := 0
  duration : Int := 0
  width : Int := 0
  height : Int := 0
  deriving DecidableEq, Repr

namespace MessageContent

def toJson (m : MessageContent) : QJsonObject :=
  let obj : QJsonObject := []
  let obj := if m.text ≠ "" then obj.set "text" (QJsonValue.string m.text) else obj
  let obj := if m.imageUrl ≠ "" then obj.set "imageUrl" (QJsonValue.string m.imageUrl) else obj
  let obj := if m.fileUrl ≠ "" then obj.set "fileUrl" (QJsonValue.string m.fileUrl) else obj
  let obj := if m.fileName ≠ "" then obj.set "fileName" (QJsonValue.string m.fileName) else obj
  let obj := if m.fileSize > 0 then obj.set "fileSize" (QJsonValue.double m.fileSize) else obj
  let obj := if m.duration > 0 then obj.set "duration" (QJsonValue.double m.duration) else obj
  let obj := if m.width > 0 then obj.set "width" (QJsonValue.double m.width) else obj
  let obj := if m.height > 0 then obj.set "height" (QJsonValue.double m.height) else obj
  obj

def fromJson (json : QJsonObject) : MessageContent where
  text := (json.get "text").toQString
  imageUrl := (json.get "imageUrl").toQString
  fileUrl := (json.get "fileUrl").toQString
  fileName := (json.get "fileName").toQString
  fileSize := (json.get "fileSize").toLongLong
  duration := (json.get "duration").toInt
  width := (json.get "width").toInt
  height := (json.get "height").toInt

/-- The method `MessageContent::toString`: the compact JSON text of `toJson()`. -/
def toQString (qt : QtLib) (m : MessageContent) : QString :=
  qt.fromUtf8 (qt.jsonCompact m.toJson)

end MessageContent

structure Message where
  m_uid : QString
  m_type : MessageType
  m_status : MessageStatus
  m_content : MessageContent
  m_createdAt : QDateTime
  m_threadUid : QString
  m_userUid : QString
  m_userName : QString
  m_userAvatar : QString
  m_extra : QString
  deriving DecidableEq, Repr

namespace Message

/-- The constructor `Message::Message()`; `now` is `QDateTime::currentDateTime()`. -/
def new (now : QDateTime) : Message where
  m_uid := ""
  m_type := MessageType.TEXT
  m_status := MessageStatus.SENDING
  m_content := {}
  m_createdAt := now
  m_threadUid := ""
  m_userUid := ""
  m_userName := ""
  m_userAvatar := ""
  m_extra := ""

def stringToType (typeStr : QString) : MessageType :=
  let typeMap : QHash QString MessageType :=
    [("TEXT", MessageType.TEXT), ("IMAGE", MessageType.IMAGE), ("FILE", MessageType.FILE),
     ("VIDEO", MessageType.VIDEO), ("VOICE", MessageType.VOICE), ("TYPING", MessageType.TYPING),
     ("NOTICE", MessageType.NOTICE), ("RECALL", MessageType.RECALL),
     ("DELIVERED", MessageType.DELIVERED), ("READ", MessageType.READ),
     ("CUSTOM", MessageType.CUSTOM)]
  QHash.value typeMap typeStr MessageType.TEXT

def typeToString : MessageType → QString
  | MessageType.TEXT => "TEXT"
  | MessageType.IMAGE => "IMAGE"
  | MessageType.FILE => "FILE"
  | MessageType.VIDEO => "VIDEO"
  | MessageType.VOICE => "VOICE"
  | MessageType.TYPING => "TYPING"
  | MessageType.NOTICE => "NOTICE"
  | MessageType.RECALL => "RECALL"
  | MessageType.DELIVERED => "DELIVERED"
  | MessageType.READ => "READ"
  | MessageType.CUSTOM => "CUSTOM"

def stringToStatus (statusStr : QString) : MessageStatus :=
  let statusMap : QHash QString MessageStatus :=
    [("SENDING", MessageStatus.SENDING), ("SENT", MessageStatus.SENT),
     ("DELIVERED", MessageStatus.DELIVERED), ("READ", MessageStatus.READ),
     ("FAILED", MessageStatus.FAILED), ("RECALLED", MessageStatus.RECALLED)]
  QHash.value statusMap statusStr MessageStatus.SENDING

def statusToString : MessageStatus → QString
  | MessageStatus.SENDING => "SENDING"
  | MessageStatus.SENT => "SENT"
  | MessageStatus.DELIVERED => "DELIVERED"
  | MessageStatus.READ => "READ"
  | MessageStatus.FAILED => "FAILED"
  | MessageStatus.RECALLED => "RECALLED"

def getTypeString (m : Message) : QString := typeToString m.m_type

def getStatusString (m : Message) : QString := statusToString m.m_status

def getContentString (qt : QtLib) (m : Message) : QString := m.m_content.toQString qt

def isNull (m : Message) : Bool := decide (m.m_uid = "")

/-- The overload `setContent(const QString&)`. -/
def setContentString (qt : QtLib) (m : Message) (contentStr : QString) : Message :=
  match qt.jsonParse (qt.toUtf8 contentStr) with
  | some (QJsonValue.object kvs) => { m with m_content := MessageContent.fromJson kvs }
  | _ => { m with m_content := { m.m_content with text := contentStr } }

/-- The overload `setContent(const QJsonObject&)`. -/
def setContentJson (m : Message) (contentJson : QJsonObject) : Message :=
  { m with m_content := MessageContent.fromJson contentJson }

def toJson (qt : QtLib) (m : Message) : QJsonObject :=
  let obj : QJsonObject := []
  let obj := obj.set "uid" (QJsonValue.string m.m_uid)
  let obj := obj.set "type" (QJsonValue.string m.getTypeString)
  let obj := obj.set "status" (QJsonValue.string m.getStatusString)
  let obj := obj.set "content" (QJsonValue.object m.m_content.toJson)
  let obj := obj.set "createdAt" (QJsonValue.string (qt.dateToString m.m_createdAt))
  let obj := obj.set "threadUid" (QJsonValue.string m.m_threadUid)
  let obj := obj.set "userUid" (QJsonValue.string m.m_userUid)
  let obj := obj.set "userName" (QJsonValue.string m.m_userName)
  let obj := obj.set "userAvatar" (QJsonValue.string m.m_userAvatar)
  if m.m_extra ≠ "" then
    obj.set "extra" (QJsonValue.object ((qt.jsonParse (qt.toUtf8 m.m_extra)).getD QJsonValue.null).toObject)
  else obj

def fromJson (qt : QtLib) (now : QDateTime) (json : QJsonObject) : Message :=
  let msg := Message.new now
  let msg := { msg with m_uid := (json.get "uid").toQString }
  let msg := { msg with m_type := stringToType (json.get "type").toQString }
  let msg := { msg with m_status := stringToStatus (json.get "status").toQString }
  let msg := if json.contains "content" then msg.setContentJson (json.get "content").toObject else msg
  let msg := { msg with m_createdAt := qt.dateFromString (json.get "createdAt").toQString }
  let msg := { msg with m_threadUid := (json.get "threadUid").toQString }
  let msg := { msg with m_userUid := (json.get "userUid").toQString }
  let msg := { msg with m_userName := (json.get "userName").toQString }
  let msg := { msg with m_userAvatar := (json.get "userAvatar").toQString }
  if json.contains "extra" then
    { msg with m_extra := qt.fromUtf8 (qt.jsonCompact (json.get "extra").toObject) }
  else msg

end Message

/-- The fields of `Thread` the MQTT core reads. -/
structure Thread where
  m_uid : QString
  m_topic : QString
  deriving DecidableEq, Repr

/-- The fields of `User` the MQTT core reads. -/
structure User where
  m_uid : QString
  m_nickname : QString
  m_avatar : QString
  deriving DecidableEq, Repr

/-- A `ThreadPtr`: `none` is the null pointer. -/
abbrev ThreadPtr := Option Thread

/-- A `UserPtr`: `none` is the null pointer. -/
abbrev UserPtr := Option User

/-! ## The message handler (`mqttmessagehandler.h`, `mqttmessagehandler.cpp`) -/

/-- The signals of `MqttMessageHandler`. -/
inductive HandlerSignal where
  | messageReceived (message : Message)
  | typingReceived (threadUid userUid : QString)
  | readReceiptReceived (threadUid messageUid : QString)
  | deliveredReceiptReceived (threadUid messageUid : QString)
  | noticeReceived (threadUid content : QString)
  deriving DecidableEq, Repr

/-- The handler together with the client `m_mqttClient` points to. -/
structure MqttMessageHandler where
  m_mqttClient : MqttClient
  m_threadTopics : QHash QString QString
  m_topicThreads : QHash QString QString
  m_sentReadUids : QSet QString
  m_sentDeliveredUids : QSet QString
  /-- The signals emitted so far, oldest first. -/
  emitted : List HandlerSignal
  deriving DecidableEq, Repr

namespace MqttMessageHandler

/-- The constructor `MqttMessageHandler::MqttMessageHandler(mqttClient)`. -/
def new (mqttClient : MqttClient) : MqttMessageHandler where
  m_mqttClient := mqttClient
  m_threadTopics := []
  m_topicThreads := []
  m_sentReadUids := []
  m_sentDeliveredUids := []
  emitted := []

def emit (h : MqttMessageHandler) (s : HandlerSignal) : MqttMessageHandler :=
  { h with emitted := h.emitted ++ [s] }

def subscribeToThread (qt : QtLib) (h : MqttMessageHandler) (threadUid topic : QString) :
    MqttMessageHandler :=
  let h := { h with m_threadTopics := QHash.insert h.m_threadTopics threadUid topic }
  let h := { h with m_topicThreads := QHash.insert h.m_topicThreads topic threadUid }
  if h.m_mqttClient.isConnected then
    { h with m_mqttClient := h.m_mqttClient.subscribe qt topic 0 }
  else h

def unsubscribeFromThread (h : MqttMessageHandler) (threadUid : QString) : MqttMessageHandler :=
  if QHash.contains h.m_threadTopics threadUid then
    let topic := QHash.value h.m_threadTopics threadUid ""
    let h := { h with m_threadTopics := QHash.remove h.m_threadTopics threadUid }
    let h := { h with m_topicThreads := QHash.remove h.m_topicThreads topic }
    if h.m_mqttClient.isConnected then
      { h with m_mqttClient := h.m_mqttClient.unsubscribe topic }
    else h
  else h

def TOPIC_QUEUE_PREFIX : QString := "org/queue/"

def subscribeToQueue (qt : QtLib) (h : MqttMessageHandler) (agentUid : QString) : MqttMessageHandler :=
  let topic := TOPIC_QUEUE_PREFIX ++ agentUid
  if h.m_mqttClient.isConnected then
    { h with m_mqttClient := h.m_mqttClient.subscribe qt topic 0 }
  else h

def serializeMessage (qt : QtLib) (message : Message) : QByteArray :=
  qt.jsonCompact (message.toJson qt)

def deserializeMessage (qt : QtLib) (now : QDateTime) (data : QByteArray) : Message :=
  match qt.jsonParse data with
  | none => Message.new now
  | some doc => Message.fromJson qt now doc.toObject

def addToSentMessages (h : MqttMessageHandler) (uid : QString) : MqttMessageHandler :=
  let h := if QSet.size h.m_sentReadUids > 1000 then
      { h with m_sentReadUids := QSet.clear h.m_sentReadUids } else h
  let h := if QSet.size h.m_sentDeliveredUids > 1000 then
      { h with m_sentDeliveredUids := QSet.clear h.m_sentDeliveredUids } else h
  let h := { h with m_sentReadUids := QSet.insert h.m_sentReadUids uid }
  { h with m_sentDeliveredUids := QSet.insert h.m_sentDeliveredUids uid }

/-- The method `sendTextMessage`; `uid` is the value of `generateMessageUid()` and `now` the
current time. -/
def sendTextMessage (qt : QtLib) (h : MqttMessageHandler) (thread : ThreadPtr) (text : QString)
    (user : UserPtr) (uid : QString) (now : QDateTime) : MqttMessageHandler :=
  match thread, user with
  | some thread, some user =>
    let message := Message.new now
    let message := { message with m_uid := uid }
    let message := { message with m_type := MessageType.TEXT }
    let message := message.setContentString qt text
    let message := { message with m_threadUid := thread.m_uid }
    let message := { message with m_userUid := user.m_uid }
    let message := { message with m_userName := user.m_nickname }
    let message := { message with m_userAvatar := user.m_avatar }
    let message := { message with m_status := MessageStatus.SENDING }
    let data := serializeMessage qt message
    if h.m_mqttClient.isConnected && decide (thread.m_topic ≠ "") then
      let h := { h with m_mqttClient := h.m_mqttClient.publish qt thread.m_topic data 0 false }
      let message := { message with m_status := MessageStatus.SENT }
      h.emit (HandlerSignal.messageReceived message)
    else
      let message := { message with m_status := MessageStatus.FAILED }
      h.emit (HandlerSignal.messageReceived message)
  | _, _ => h

def sendImageMessage (qt : QtLib) (h : MqttMessageHandler) (thread : ThreadPtr) (imageUrl : QString)
    (user : UserPtr) (uid : QString) (now : QDateTime) : MqttMessageHandler :=
  match thread, user with
  | some thread, some user =>
    let message := Message.new now
    let message := { message with m_uid := uid }
    let message := { message with m_type := MessageType.IMAGE }
    let content : MessageContent := { imageUrl := imageUrl }
    let message := { message with m_content := content }
    let message := { message with m_threadUid := thread.m_uid }
    let message := { message with m_userUid := user.m_uid }
    let message := { message with m_userName := user.m_nickname }
    let message := { message with m_userAvatar := user.m_avatar }
    let message := { message with m_status := MessageStatus.SENDING }
    let data := serializeMessage qt message
    if h.m_mqttClient.isConnected && decide (thread.m_topic ≠ "") then
      let h := { h with m_mqttClient := h.m_mqttClient.publish qt thread.m_topic data 0 false }
      let message := { message with m_status := MessageStatus.SENT }
      h.emit (HandlerSignal.messageReceived message)
    else
      h.emit (HandlerSignal.messageReceived message)
  | _, _ => h

def sendFileMessage (qt : QtLib) (h : MqttMessageHandler) (thread : ThreadPtr) (fileUrl : QString)
    (fileName : QString) (fileSize : Int) (user : UserPtr) (uid : QString) (now : QDateTime) :
    MqttMessageHandler :=
  match thread, user with
  | some thread, some user =>
    let message := Message.new now
    let message := { message with m_uid := uid }
    let message := { message with m_type := MessageType.FILE }
    let content : MessageContent := { fileUrl := fileUrl, fileName := fileName, fileSize := fileSize }
    let message := { message with m_content := content }
    let message := { message with m_threadUid := thread.m_uid }
    let message := { message with m_userUid := user.m_uid }
    let message := { message with m_userName := user.m_nickname }
    let message := { message with m_userAvatar := user.m_avatar }
    let message := { message with m_status := MessageStatus.SENDING }
    let data := serializeMessage qt message
    if h.m_mqttClient.isConnected && decide (thread.m_topic ≠ "") then
      let h := { h with m_mqttClient := h.m_mqttClient.publish qt thread.m_topic data 0 false }
      let message := { message with m_status := MessageStatus.SENT }
      h.emit (HandlerSignal.messageReceived message)
    else
      h.emit (HandlerSignal.messageReceived message)
  | _, _ => h

def sendTypingMessage (qt : QtLib) (h : MqttMessageHandler) (thread : ThreadPtr) (user : UserPtr)
    (uid : QString) (now : QDateTime) : MqttMessageHandler :=
  match thread, user with
  | some thread, some user =>
    let message := Message.new now
    let message := { message with m_uid := uid }
    let message := { message with m_type := MessageType.TYPING }
    let message := { message with m_threadUid := thread.m_uid }
    let message := { message with m_userUid := user.m_uid }
    let data := serializeMessage qt message
    if h.m_mqttClient.isConnected && decide (thread.m_topic ≠ "") then
      { h with m_mqttClient := h.m_mqttClient.publish qt thread.m_topic data 0 false }
    else h
  | _, _ => h

def sendReadReceipt (qt : QtLib) (h : MqttMessageHandler) (thread : ThreadPtr) (messageUid : QString)
    (user : UserPtr) (uid : QString) (now : QDateTime) : MqttMessageHandler :=
  match thread, user with
  | some thread, some user =>
    if QSet.contains h.m_sentReadUids messageUid then h
    else
      let h := h.addToSentMessages messageUid
      let message := Message.new now
      let message := { message with m_uid := uid }
      let message := { message with m_type := MessageType.READ }
      let message := message.setContentString qt messageUid
      let message := { message with m_threadUid := thread.m_uid }
      let message := { message with m_userUid := user.m_uid }
      let data := serializeMessage qt message
      if h.m_mqttClient.isConnected && decide (thread.m_topic ≠ "") then
        { h with m_mqttClient := h.m_mqttClient.publish qt thread.m_topic data 0 false }
      else h
  | _, _ => h

def sendDeliveredReceipt (qt : QtLib) (h : MqttMessageHandler) (thread : ThreadPtr)
    (messageUid : QString) (user : UserPtr) (uid : QString) (now : QDateTime) :
    MqttMessageHandler :=
  match thread, user with
  | some thread, some user =>
    if QSet.contains h.m_sentDeliveredUids messageUid then h
    else
      let h := h.addToSentMessages messageUid
      let message := Message.new now
      let message := { message with m_uid := uid }
      let message := { message with m_type := MessageType.DELIVERED }
      let message := message.setContentString qt messageUid
      let message := { message with m_threadUid := thread.m_uid }
      let message := { message with m_userUid := user.m_uid }
      let data := serializeMessage qt message
      if h.m_mqttClient.isConnected && decide (thread.m_topic ≠ "") then
        { h with m_mqttClient := h.m_mqttClient.publish qt thread.m_topic data 0 false }
      else h
  | _, _ => h

def handleMessage (h : MqttMessageHandler) (message : Message) : MqttMessageHandler :=
  h.emit (HandlerSignal.messageReceived message)

def handleTypingMessage (h : MqttMessageHandler) (message : Message) : MqttMessageHandler :=
  h.emit (HandlerSignal.typingReceived message.m_threadUid message.m_userUid)

def handleReceiptMessage (qt : QtLib) (h : MqttMessageHandler) (message : Message) :
    MqttMessageHandler :=
  let threadUid := message.m_threadUid
  let messageUid := message.getContentString qt
  if message.m_type = MessageType.READ then
    h.emit (HandlerSignal.readReceiptReceived threadUid messageUid)
  else if message.m_type = MessageType.DELIVERED then
    h.emit (HandlerSignal.deliveredReceiptReceived threadUid messageUid)
  else h

def handleNoticeMessage (qt : QtLib) (h : MqttMessageHandler) (message : Message) :
    MqttMessageHandler :=
  h.emit (HandlerSignal.noticeReceived message.m_threadUid (message.getContentString qt))

/-- The slot connected to `MqttClient::messageReceived`. -/
def onMqttMessageReceived (qt : QtLib) (now : QDateTime) (h : MqttMessageHandler) (_topic : QString)
    (payload : QByteArray) : MqttMessageHandler :=
  let message := deserializeMessage qt now payload
  if message.isNull then h
  else
    match message.m_type with
    | MessageType.TYPING => h.handleTypingMessage message
    | MessageType.READ => h.handleReceiptMessage qt message
    | MessageType.DELIVERED => h.handleReceiptMessage qt message
    | MessageType.NOTICE => h.handleNoticeMessage qt message
    | _ => h.handleMessage message

/-- The slot connected to `MqttClient::connected`: subscribe every value of `m_threadTopics`. -/
def onMqttConnected (qt : QtLib) (h : MqttMessageHandler) : MqttMessageHandler :=
  { h with m_mqttClient :=
      (QHash.values h.m_threadTopics).foldl (fun c topic => c.subscribe qt topic 0) h.m_mqttClient }

/-- The slot connected to `MqttClient::disconnected`; it only logs. -/
def onMqttDisconnected (h : MqttMessageHandler) : MqttMessageHandler := h

/-- The slot connected to `MqttClient::errorOccurred`; it only logs. -/
def onMqttError (h : MqttMessageHandler) (_error : QString) : MqttMessageHandler := h

end MqttMessageHandler

/-! ## Reading from the socket (`MqttClient::onReadyRead`)

The slot emits `connected()` and `messageReceived()` in the middle of its loop, and the handler's
slots run at that point, so it is stated on the handler that owns the client. -/

/-- The result of running a loop of the code with a bound on its iterations. -/
inductive Outcome (σ : Type) where
  | ok (s : σ)
  /-- An index beyond the end of a `QByteArray` was read (`payload[0]`, `payload[1]`). -/
  | outOfRange
  /-- The iteration bound was reached with the loop condition still true. -/
  | outOfFuel
  deriving DecidableEq, Repr

namespace MqttClient

/-- The CONNACK case of `onReadyRead`. -/
def onConnack (qt : QtLib) (now : QDateTime) (h : MqttMessageHandler) : MqttMessageHandler :=
  let c := h.m_mqttClient
  let c := { c with m_connectTimeoutTimer := c.m_connectTimeoutTimer.stop }
  let c := { c with m_reconnectTimer := c.m_reconnectTimer.stop }
  let c := { c with m_currentReconnectAttempt := 0 }
  let c := c.setState MqttConnectionState.CONNECTED
  let c := c.updateLastMessageTime now
  let c := c.startKeepAlive 30000
  let c := c.m_subscriptions.foldl (fun c it => c.sendMqttSubscribe qt it.1 it.2) c
  let c := c.emit ClientSignal.connected
  let h := MqttMessageHandler.onMqttConnected qt { h with m_mqttClient := c }
  let c := h.m_mqttClient
  let c := if c.m_connectedCallback then
      { c with callbackCalls := c.callbackCalls ++ [CallbackCall.connected] } else c
  { h with m_mqttClient := c }

/-- The end of the PUBLISH case: emit `messageReceived(topic, messagePayload)`, which runs the
handler's slot, then call `m_messageCallback` when it is set. -/
def deliverPublish (qt : QtLib) (now : QDateTime) (h : MqttMessageHandler) (topic : QString)
    (messagePayload : QByteArray) : MqttMessageHandler :=
  let c := h.m_mqttClient.emit (ClientSignal.messageReceived topic messagePayload)
  let h := MqttMessageHandler.onMqttMessageReceived qt now { h with m_mqttClient := c } topic
    messagePayload
  let c := h.m_mqttClient
  let c := if c.m_messageCallback then
      { c with callbackCalls := c.callbackCalls ++ [CallbackCall.message topic messagePayload] }
    else c
  { h with m_mqttClient := c }

/-- The PUBLISH case of `onReadyRead`; `payload` is the body of the frame. -/
def onPublish (qt : QtLib) (now : QDateTime) (h : MqttMessageHandler) (payload : QByteArray) :
    Outcome MqttMessageHandler :=
  match payload[0]?, payload[1]? with
  | some b0, some b1 =>
    let topicLen := ((toChar b0) <<< 8) ||| (toChar b1)
    let topic := qt.fromUtf8 (payload.mid 2 topicLen)
    let messagePayload := payload.midFrom (2 + topicLen)
    Outcome.ok (deliverPublish qt now h topic messagePayload)
  | _, _ => Outcome.outOfRange

/-- The switch of `onReadyRead` on the command nibble of a complete frame. -/
def dispatchFrame (qt : QtLib) (now : QDateTime) (h : MqttMessageHandler) (messageType : Nat)
    (payload : QByteArray) : Outcome MqttMessageHandler :=
  let cmd := messageType &&& 0xF0
  if cmd = MqttProtocol.CONNACK then Outcome.ok (onConnack qt now h)
  else if cmd = MqttProtocol.PUBLISH then onPublish qt now h payload
  else if cmd = MqttProtocol.PINGRESP then
    Outcome.ok { h with m_mqttClient := h.m_mqttClient.updateLastMessageTime now }
  else Outcome.ok h

/-- The assignment `m_readBuffer = m_readBuffer.mid(2 + remainingLength)` of the loop body. -/
def consumeFrame (h : MqttMessageHandler) (remainingLength : Nat) : MqttMessageHandler :=
  { h with m_mqttClient :=
      { h.m_mqttClient with
        m_readBuffer := QByteArray.midFrom h.m_mqttClient.m_readBuffer (2 + remainingLength) } }

/-- The while loop of `onReadyRead`, run for at most `fuel` iterations. -/
def readLoop (qt : QtLib) (now : QDateTime) : Nat → MqttMessageHandler → Outcome MqttMessageHandler
  | 0, h => if h.m_mqttClient.m_readBuffer.length ≥ 2 then Outcome.outOfFuel else Outcome.ok h
  | fuel + 1, h =>
    if h.m_mqttClient.m_readBuffer.length ≥ 2 then
      let messageType := toChar (h.m_mqttClient.m_readBuffer.getD 0 0)
      let remainingLength := toChar (h.m_mqttClient.m_readBuffer.getD 1 0)
      if h.m_mqttClient.m_readBuffer.length < 2 + remainingLength then Outcome.ok h
      else
        let payload := QByteArray.mid h.m_mqttClient.m_readBuffer 2 remainingLength
        match dispatchFrame qt now (consumeFrame h remainingLength) messageType payload with
        | Outcome.ok h => readLoop qt now fuel h
        | o => o
    else Outcome.ok h

/-- The slot `onReadyRead`; `bytes` is what `m_socket->readAll()` returns. Every iteration of the
loop removes at least two bytes, so the length of the buffer bounds the iterations. -/
def onReadyRead (qt : QtLib) (now : QDateTime) (h : MqttMessageHandler) (bytes : QByteArray) :
    Outcome MqttMessageHandler :=
  let c := { h.m_mqttClient with m_readBuffer := h.m_mqttClient.m_readBuffer ++ bytes }
  readLoop qt now c.m_readBuffer.length { h with m_mqttClient := c }

end MqttClient

/-! ## A concrete Qt library

The general theorems are stated for every `QtLib`. To evaluate the code on concrete inputs,
`stdQt` implements the library functions: UTF-8 as standardised, and JSON for documents whose numbers are
integers (a number with a fraction or an exponent is reported as a parse error). -/

namespace StdQt

def utf8EncodeChar (c : Char) : List Nat :=
  let v := c.toNat
  if v < 0x80 then [v]
  else if v < 0x800 then [0xC0 + v / 64, 0x80 + v % 64]
  else if v < 0x10000 then [0xE0 + v / 4096, 0x80 + (v / 64) % 64, 0x80 + v % 64]
  else [0xF0 + v / 262144, 0x80 + (v / 4096) % 64, 0x80 + (v / 64) % 64, 0x80 + v % 64]

def toUtf8 (s : QString) : QByteArray := s.toList.flatMap utf8EncodeChar

def isCont (b : Nat) : Bool := 0x80 ≤ b && b < 0xC0

/-- Decode the character that starts with byte `b0`: the character and the number of bytes it
takes; an ill-formed sequence gives U+FFFD for its first byte. -/
def utf8DecodeStep (b0 : Nat) (rest : List Nat) : Char × Nat :=
  let b1 := rest.getD 0 0
  let b2 := rest.getD 1 0
  let b3 := rest.getD 2 0
  let v2 := (b0 - 0xC0) * 64 + (b1 - 0x80)
  let v3 := (b0 - 0xE0) * 4096 + (b1 - 0x80) * 64 + (b2 - 0x80)
  let v4 := (b0 - 0xF0) * 262144 + (b1 - 0x80) * 4096 + (b2 - 0x80) * 64 + (b3 - 0x80)
  if b0 < 0x80 then (Char.ofNat b0, 1)
  else if 0xC2 ≤ b0 && b0 < 0xE0 && isCont b1 then (Char.ofNat v2, 2)
  else if 0xE0 ≤ b0 && b0 < 0xF0 && isCont b1 && isCont b2 && 0x800 ≤ v3
      && !(0xD800 ≤ v3 && v3 < 0xE000) then (Char.ofNat v3, 3)
  else if 0xF0 ≤ b0 && b0 < 0xF5 && isCont b1 && isCont b2 && isCont b3 && 0x10000 ≤ v4
      && v4 < 0x110000 then (Char.ofNat v4, 4)
  else (Char.ofNat 0xFFFD, 1)

def utf8DecodeChars : Nat → List Nat → List Char
  | 0, _ => []
  | _ + 1, [] => []
  | fuel + 1, b0 :: rest =>
    let r := utf8DecodeStep b0 rest
    r.1 :: utf8DecodeChars fuel (rest.drop (r.2 - 1))

def fromUtf8 (b : QByteArray) : QString := String.mk (utf8DecodeChars b.length b)

def hexDigit (n : Nat) : Char := Char.ofNat (if n < 10 then 48 + n else 87 + n)

def escapeChar (c : Char) : List Char :=
  if c = '"' then ['\\', '"']
  else if c = '\\' then ['\\', '\\']
  else if c = '\n' then ['\\', 'n']
  else if c = '\r' then ['\\', 'r']
  else if c = '\t' then ['\\', 't']
  else if c.toNat < 0x20 then ['\\', 'u', '0', '0', hexDigit (c.toNat / 16), hexDigit (c.toNat % 16)]
  else [c]

def printString (s : QString) : List Char := ['"'] ++ s.toList.flatMap escapeChar ++ ['"']

/-- The lexicographic order on lists of character codes. -/
def codesLt : List Nat → List Nat → Bool
  | _, [] => false
  | [], _ :: _ => true
  | a :: as, b :: bs => if a < b then true else if b < a then false else codesLt as bs

/-- The order in which a `QJsonObject` keeps its keys. -/
def keyLt (a b : QString) : Bool := codesLt (a.toList.map Char.toNat) (b.toList.map Char.toNat)

/-- Insert a member into a list of members sorted by key (a `QJsonObject` keeps its keys sorted). -/
def insertByKey (kv : QString × QJsonValue) : List (QString × QJsonValue) → List (QString × QJsonValue)
  | [] => [kv]
  | x :: xs => if keyLt kv.1 x.1 then kv :: x :: xs else x :: insertByKey kv xs

def sortByKey (kvs : List (QString × QJsonValue)) : List (QString × QJsonValue) :=
  kvs.foldl (fun acc kv => insertByKey kv acc) []

mutual

def printValue : QJsonValue → List Char
  | QJsonValue.null => "null".toList
  | QJsonValue.undefined => "null".toList
  | QJsonValue.bool b => if b then "true".toList else "false".toList
  | QJsonValue.double n => (toString n).toList
  | QJsonValue.string s => printString s
  | QJsonValue.array xs => ['['] ++ printElements xs ++ [']']
  | QJsonValue.object kvs => ['\x7b'] ++ printMembers kvs ++ ['\x7d']

def printElements : List QJsonValue → List Char
  | [] => []
  | [x] => printValue x
  | x :: y :: xs => printValue x ++ [','] ++ printElements (y :: xs)

def printMembers : List (QString × QJsonValue) → List Char
  | [] => []
  | [(k, v)] => printString k ++ [':'] ++ printValue v
  | (k, v) :: kv :: kvs => printString k ++ [':'] ++ printValue v ++ [','] ++ printMembers (kv :: kvs)

end

def jsonCompact (obj : QJsonObject) : QByteArray :=
  toUtf8 (String.mk (printValue (QJsonValue.object (sortByKey obj))))

def isWs (c : Char) : Bool := c = ' ' || c = '\n' || c = '\r' || c = '\t'

def skipWs : List Char → List Char
  | [] => []
  | c :: cs => if isWs c then skipWs cs else c :: cs

def hexValue (c : Char) : Option Nat :=
  if '0' ≤ c ∧ c ≤ '9' then some (c.toNat - 48)
  else if 'a' ≤ c ∧ c ≤ 'f' then some (c.toNat - 87)
  else if 'A' ≤ c ∧ c ≤ 'F' then some (c.toNat - 55)
  else none

/-- The rest of a string literal after its opening quote; `acc` holds the characters read so
far, newest first. -/
def parseStringBody : List Char → List Char → Option (QString × List Char)
  | [], _ => none
  | '"' :: rest, acc => some (String.mk acc.reverse, rest)
  | '\\' :: 'u' :: a :: b :: c :: d :: rest, acc =>
    match hexValue a, hexValue b, hexValue c, hexValue d with
    | some a, some b, some c, some d =>
      parseStringBody rest (Char.ofNat (a * 4096 + b * 256 + c * 16 + d) :: acc)
    | _, _, _, _ => none
  | '\\' :: e :: rest, acc =>
    if e = '"' then parseStringBody rest ('"' :: acc)
    else if e = '\\' then parseStringBody rest ('\\' :: acc)
    else if e = '/' then parseStringBody rest ('/' :: acc)
    else if e = 'b' then parseStringBody rest (Char.ofNat 8 :: acc)
    else if e = 'f' then parseStringBody rest (Char.ofNat 12 :: acc)
    else if e = 'n' then parseStringBody rest ('\n' :: acc)
    else if e = 'r' then parseStringBody rest ('\r' :: acc)
    else if e = 't' then parseStringBody rest ('\t' :: acc)
    else none
  | c :: rest, acc => if c.toNat < 0x20 then none else parseStringBody rest (c :: acc)

def parseDigits : List Char → Nat → Nat × List Char
  | [], n => (n, [])
  | c :: cs, n => if c.isDigit then parseDigits cs (n * 10 + (c.toNat - 48)) else (n, c :: cs)

/-- An integer literal; a fraction or an exponent after it is a parse error. -/
def parseNumber (cs : List Char) : Option (QJsonValue × List Char) :=
  let neg := cs.head? = some '-'
  let ds := if neg then cs.drop 1 else cs
  match ds with
  | d :: _ =>
    if d.isDigit then
      let r := parseDigits ds 0
      match r.2 with
      | '.' :: _ => none
      | 'e' :: _ => none
      | 'E' :: _ => none
      | _ => some (QJsonValue.double (if neg then -(r.1 : Int) else (r.1 : Int)), r.2)
    else none
  | [] => none

mutual

def parseValue : Nat → List Char → Option (QJsonValue × List Char)
  | 0, _ => none
  | fuel + 1, cs =>
    match skipWs cs with
    | 'n' :: 'u' :: 'l' :: 'l' :: rest => some (QJsonValue.null, rest)
    | 't' :: 'r' :: 'u' :: 'e' :: rest => some (QJsonValue.bool true, rest)
    | 'f' :: 'a' :: 'l' :: 's' :: 'e' :: rest => some (QJsonValue.bool false, rest)
    | '"' :: rest => (parseStringBody rest []).map (fun r => (QJsonValue.string r.1, r.2))
    | '[' :: rest =>
      match skipWs rest with
      | ']' :: rest => some (QJsonValue.array [], rest)
      | rest => (parseElements fuel rest []).map (fun r => (QJsonValue.array r.1, r.2))
    | '\x7b' :: rest =>
      match skipWs rest with
      | '\x7d' :: rest => some (QJsonValue.object [], rest)
      | rest => (parseMembers fuel rest []).map (fun r => (QJsonValue.object r.1, r.2))
    | rest => parseNumber rest

def parseElements : Nat → List Char → List QJsonValue → Option (List QJsonValue × List Char)
  | 0, _, _ => none
  | fuel + 1, cs, acc =>
    match parseValue fuel cs with
    | none => none
    | some (v, rest) =>
      match skipWs rest with
      | ',' :: rest => parseElements fuel rest (acc ++ [v])
      | ']' :: rest => some (acc ++ [v], rest)
      | _ => none

def parseMembers : Nat → List Char → QJsonObject → Option (QJsonObject × List Char)
  | 0, _, _ => none
  | fuel + 1, cs, acc =>
    match skipWs cs with
    | '"' :: rest =>
      match parseStringBody rest [] with
      | none => none
      | some (k, rest) =>
        match skipWs rest with
        | ':' :: rest =>
          match parseValue fuel rest with
          | none => none
          | some (v, rest) =>
            match skipWs rest with
            | ',' :: rest => parseMembers fuel rest (QJsonObject.set acc k v)
            | '\x7d' :: rest => some (QJsonObject.set acc k v, rest)
            | _ => none
        | _ => none
    | _ => none

end

/-- The parser: one object or array, surrounded by white space only. -/
def jsonParse (data : QByteArray) : Option QJsonValue :=
  let cs := (fromUtf8 data).toList
  match parseValue (cs.length + 1) cs with
  | some (QJsonValue.object kvs, rest) => if skipWs rest = [] then some (QJsonValue.object kvs) else none
  | some (QJsonValue.array xs, rest) => if skipWs rest = [] then some (QJsonValue.array xs) else none
  | _ => none

/-- A date prints as its number of milliseconds; the invalid date prints as the empty string. -/
def dateToString : QDateTime → QString
  | none => ""
  | some t => toString t

def dateFromString (s : QString) : QDateTime := s.toInt?

end StdQt

def stdQt : QtLib where
  toUtf8 := StdQt.toUtf8
  fromUtf8 := StdQt.fromUtf8
  jsonParse := StdQt.jsonParse
  jsonCompact := StdQt.jsonCompact
  dateToString := StdQt.dateToString
  dateFromString := StdQt.dateFromString

/-! ## The remaining-length field as the specification words it

"A sequence of 7-bit groups with a continuation bit (standard variable-byte integer, up to 4
bytes, max value 268,435,455)." -/

/-- The variable-byte integer of at most `n` bytes that encodes `x`, low group first. -/
def specEncodeGroups : Nat → Nat → List Nat
  | 0, _ => []
  | n + 1, x => if x / 128 > 0 then (x % 128 + 128) :: specEncodeGroups n (x / 128) else [x % 128]

def specEncodeRemainingLength (x : Nat) : List Nat := specEncodeGroups 4 x

/-- Read a variable-byte integer of at most `n` bytes from the front of `bytes`: its value and
the bytes after it. -/
def specDecodeGroups : Nat → List Nat → Option (Nat × List Nat)
  | 0, _ => none
  | _ + 1, [] => none
  | n + 1, b :: rest =>
    if b < 128 then some (b, rest)
    else (specDecodeGroups n rest).map (fun r => (b % 128 + 128 * r.1, r.2))

def specDecodeRemainingLength (bytes : List Nat) : Option (Nat × List Nat) :=
  specDecodeGroups 4 bytes

/-! ## The frames the client builds -/

/-- The three kinds of frame with a body that the client writes, with the arguments of the
function that builds each. -/
inductive ClientFrame where
  | connect
  | subscribe (topic : QString) (qos : Nat)
  | publish (topic : QString) (payload : QByteArray) (qos : Nat) (retain : Bool)

namespace ClientFrame

/-- The function of `MqttClient` that builds and writes the frame. -/
def send (qt : QtLib) (c : MqttClient) : ClientFrame → MqttClient
  | connect => c.sendMqttConnect qt
  | subscribe topic qos => c.sendMqttSubscribe qt topic qos
  | publish topic payload qos retain => c.sendMqttPublish qt topic payload qos retain

/-- The header byte of the frame. -/
def header : ClientFrame → Nat
  | connect => MqttProtocol.CONNECT
  | subscribe _ _ => MqttProtocol.SUBSCRIBE
  | publish _ _ qos retain => MqttClient.publishHeader qos retain

/-- The body of the frame (`payload` in `sendMqttConnect` and `sendMqttSubscribe`, `data` in
`sendMqttPublish`): the bytes whose count is the remaining length. -/
def body (qt : QtLib) (c : MqttClient) : ClientFrame → QByteArray
  | connect => MqttClient.connectPayload qt c
  | subscribe topic qos => MqttClient.subscribePayload qt c.m_messageId topic qos
  | publish topic payload qos _ => MqttClient.publishData qt c.m_messageId topic payload qos

end ClientFrame

/-! ## The registry invariant of the specification -/

/-- The maps `m_threadTopics` and `m_topicThreads` are mutual inverses: a conversation is bound to
a topic in the first exactly when the topic is bound to the conversation in the second. -/
def MqttMessageHandler.RegistryInverse (h : MqttMessageHandler) : Prop :=
  ∀ threadUid topic : QString,
    QHash.find h.m_threadTopics threadUid = some topic
      ↔ QHash.find h.m_topicThreads topic = some threadUid

/-- The status of the message a `messageReceived` signal carries. -/
def HandlerSignal.messageStatus : HandlerSignal → Option MessageStatus
  | HandlerSignal.messageReceived message => some message.m_status
  | _ => none

/-! ## Events of the socket

Qt changes the state of the socket before it emits the signal that runs the client's slot. -/

/-- The socket reports that the connection is up: its state becomes `ConnectedState` and
`connected()` runs `onConnected`. -/
def MqttClient.socketConnected (qt : QtLib) (c : MqttClient) : MqttClient :=
  MqttClient.onConnected qt
    { c with m_socket := { c.m_socket with state := SocketState.ConnectedState } }

/-- The socket reports that the connection is closed: its state becomes `UnconnectedState` and
`disconnected()` runs `onDisconnected`. -/
def MqttClient.socketDisconnected (c : MqttClient) : MqttClient :=
  MqttClient.onDisconnected
    { c with m_socket := { c.m_socket with state := SocketState.UnconnectedState } }

/-- Run an operation of the client on the client the handler points to. -/
def MqttMessageHandler.onClient (h : MqttMessageHandler) (f : MqttClient → MqttClient) :
    MqttMessageHandler :=
  { h with m_mqttClient := f h.m_mqttClient }

/-! ## The remaining setters of the client (`mqttclient.cpp`) -/

namespace MqttClient

/-- The setter `setMessageCallback`; `callback` tells whether the function handed over is set. -/
def setMessageCallback (c : MqttClient) (callback : Bool) : MqttClient :=
  { c with m_messageCallback := callback }

def setConnectedCallback (c : MqttClient) (callback : Bool) : MqttClient :=
  { c with m_connectedCallback := callback }

def setDisconnectedCallback (c : MqttClient) (callback : Bool) : MqttClient :=
  { c with m_disconnectedCallback := callback }

def setErrorCallback (c : MqttClient) (callback : Bool) : MqttClient :=
  { c with m_errorCallback := callback }

def setReconnectInterval (c : MqttClient) (milliseconds : Int) : MqttClient :=
  { c with m_reconnectInterval := milliseconds }

def setConnectTimeout (c : MqttClient) (milliseconds : Int) : MqttClient :=
  { c with m_connectTimeout := milliseconds }

def setCleanSession (c : MqttClient) (clean : Bool) : MqttClient :=
  { c with m_cleanSession := clean }

def setWillMessage (c : MqttClient) (topic : QString) (message : QByteArray) (qos : Nat) :
    MqttClient :=
  { c with m_willTopic := topic, m_willMessage := message, m_willQos := qos }

/-- The `n + 1`-th value `calculateMessageId` returns when it is called over and over, starting
from client `c`. -/
def nthMessageId : Nat → MqttClient → Nat
  | 0, c => c.calculateMessageId.1
  | n + 1, c => nthMessageId n c.calculateMessageId.2

end MqttClient

/-- A socket-closed or socket-error event, as the client's slots handle it. -/
inductive SocketFault where
  | closed
  | error (errorString : QString)
  deriving DecidableEq, Repr

def SocketFault.handle (c : MqttClient) : SocketFault → MqttClient
  | SocketFault.closed => c.onDisconnected
  | SocketFault.error errorString => c.onError errorString

/-! ## The client and its handler as a transition system

Everything that can happen to a handler and its client: a call of a public operation, a timer
that fires, an event of the socket. Timers and socket events are allowed at any time, so the
states reached here include every state the program can reach. -/

inductive Event where
  | connectToHost (host : QString) (port : Int) (username password clientId : QString)
  | disconnectFromHost
  /-- The public slot `reconnect()`, which is also the timeout of `m_reconnectTimer`. -/
  | reconnect
  /-- The single-shot timer of `reconnect()` fires and runs its lambda. -/
  | reconnectShot
  | keepAliveTimeout
  | connectTimeout
  | socketConnected
  | socketDisconnected
  /-- The socket reports an error; `state` is the state Qt has put the socket in. -/
  | socketError (errorString : QString) (state : SocketState)
  | readyRead (bytes : QByteArray) (now : QDateTime)
  | subscribe (topic : QString) (qos : Nat)
  | unsubscribe (topic : QString)
  | unsubscribeAll
  | publish (topic : QString) (payload : QByteArray) (qos : Nat) (retain : Bool)
  | setMessageCallback (callback : Bool)
  | setConnectedCallback (callback : Bool)
  | setDisconnectedCallback (callback : Bool)
  | setErrorCallback (callback : Bool)
  | startKeepAlive (intervalMs : Int)
  | stopKeepAlive
  | setKeepAlive (seconds : Int)
  | setReconnectInterval (milliseconds : Int)
  | setConnectTimeout (milliseconds : Int)
  | setCleanSession (clean : Bool)
  | setWillMessage (topic : QString) (message : QByteArray) (qos : Nat)
  | subscribeToThread (threadUid topic : QString)
  | unsubscribeFromThread (threadUid : QString)
  | subscribeToQueue (agentUid : QString)
  | sendTextMessage (thread : ThreadPtr) (text : QString) (user : UserPtr) (uid : QString)
      (now : QDateTime)
  | sendImageMessage (thread : ThreadPtr) (imageUrl : QString) (user : UserPtr) (uid : QString)
      (now : QDateTime)
  | sendFileMessage (thread : ThreadPtr) (fileUrl fileName : QString) (fileSize : Int)
      (user : UserPtr) (uid : QString) (now : QDateTime)
  | sendTypingMessage (thread : ThreadPtr) (user : UserPtr) (uid : QString) (now : QDateTime)
  | sendReadReceipt (thread : ThreadPtr) (messageUid : QString) (user : UserPtr) (uid : QString)
      (now : QDateTime)
  | sendDeliveredReceipt (thread : ThreadPtr) (messageUid : QString) (user : UserPtr)
      (uid : QString) (now : QDateTime)
  deriving DecidableEq, Repr

/-- The effect of an event on the handler and its client. -/
def step (qt : QtLib) (h : MqttMessageHandler) : Event → Outcome MqttMessageHandler
  | Event.connectToHost host port username password clientId =>
    Outcome.ok (h.onClient (fun c => c.connectToHost host port username password clientId))
  | Event.disconnectFromHost => Outcome.ok (h.onClient MqttClient.disconnectFromHost)
  | Event.reconnect => Outcome.ok (h.onClient MqttClient.reconnect)
  | Event.reconnectShot => Outcome.ok (h.onClient MqttClient.reconnectShot)
  | Event.keepAliveTimeout => Outcome.ok (h.onClient MqttClient.onKeepAliveTimeout)
  | Event.connectTimeout => Outcome.ok (h.onClient MqttClient.onConnectTimeout)
  | Event.socketConnected => Outcome.ok (h.onClient (MqttClient.socketConnected qt))
  | Event.socketDisconnected => Outcome.ok (h.onClient MqttClient.socketDisconnected)
  | Event.socketError errorString state =>
    Outcome.ok (h.onClient (fun c =>
      MqttClient.onError { c with m_socket := { c.m_socket with state := state } } errorString))
  | Event.readyRead bytes now => MqttClient.onReadyRead qt now h bytes
  | Event.subscribe topic qos => Outcome.ok (h.onClient (fun c => c.subscribe qt topic qos))
  | Event.unsubscribe topic => Outcome.ok (h.onClient (fun c => c.unsubscribe topic))
  | Event.unsubscribeAll => Outcome.ok (h.onClient MqttClient.unsubscribeAll)
  | Event.publish topic payload qos retain =>
    Outcome.ok (h.onClient (fun c => c.publish qt topic payload qos retain))
  | Event.setMessageCallback callback =>
    Outcome.ok (h.onClient (fun c => c.setMessageCallback callback))
  | Event.setConnectedCallback callback =>
    Outcome.ok (h.onClient (fun c => c.setConnectedCallback callback))
  | Event.setDisconnectedCallback callback =>
    Outcome.ok (h.onClient (fun c => c.setDisconnectedCallback callback))
  | Event.setErrorCallback callback =>
    Outcome.ok (h.onClient (fun c => c.setErrorCallback callback))
  | Event.startKeepAlive intervalMs => Outcome.ok (h.onClient (fun c => c.startKeepAlive intervalMs))
  | Event.stopKeepAlive => Outcome.ok (h.onClient MqttClient.stopKeepAlive)
  | Event.setKeepAlive seconds => Outcome.ok (h.onClient (fun c => c.setKeepAlive seconds))
  | Event.setReconnectInterval milliseconds =>
    Outcome.ok (h.onClient (fun c => c.setReconnectInterval milliseconds))
  | Event.setConnectTimeout milliseconds =>
    Outcome.ok (h.onClient (fun c => c.setConnectTimeout milliseconds))
  | Event.setCleanSession clean => Outcome.ok (h.onClient (fun c => c.setCleanSession clean))
  | Event.setWillMessage topic message qos =>
    Outcome.ok (h.onClient (fun c => c.setWillMessage topic message qos))
  | Event.subscribeToThread threadUid topic => Outcome.ok (h.subscribeToThread qt threadUid topic)
  | Event.unsubscribeFromThread threadUid => Outcome.ok (h.unsubscribeFromThread threadUid)
  | Event.subscribeToQueue agentUid => Outcome.ok (h.subscribeToQueue qt agentUid)
  | Event.sendTextMessage thread text user uid now =>
    Outcome.ok (h.sendTextMessage qt thread text user uid now)
  | Event.sendImageMessage thread imageUrl user uid now =>
    Outcome.ok (h.sendImageMessage qt thread imageUrl user uid now)
  | Event.sendFileMessage thread fileUrl fileName fileSize user uid now =>
    Outcome.ok (h.sendFileMessage qt thread fileUrl fileName fileSize user uid now)
  | Event.sendTypingMessage thread user uid now =>
    Outcome.ok (h.sendTypingMessage qt thread user uid now)
  | Event.sendReadReceipt thread messageUid user uid now =>
    Outcome.ok (h.sendReadReceipt qt thread messageUid user uid now)
  | Event.sendDeliveredReceipt thread messageUid user uid now =>
    Outcome.ok (h.sendDeliveredReceipt qt thread messageUid user uid now)

/-- Run a list of events, oldest first; the run stops at the first event that does not return. -/
def run (qt : QtLib) : List Event → MqttMessageHandler → Outcome MqttMessageHandler
  | [], h => Outcome.ok h
  | e :: es, h =>
    match step qt h e with
    | Outcome.ok h => run qt es h
    | o => o

/-- The states reached from a new client and handler. -/
inductive Reachable (qt : QtLib) : MqttMessageHandler → Prop where
  | init : Reachable qt (MqttMessageHandler.new MqttClient.new)
  | step (h h' : MqttMessageHandler) (e : Event) :
      Reachable qt h → step qt h e = Outcome.ok h' → Reachable qt h'

/-- The conversation id a signal of the handler carries. -/
def HandlerSignal.threadUid : HandlerSignal → QString
  | HandlerSignal.messageReceived message => message.m_threadUid
  | HandlerSignal.typingReceived threadUid _ => threadUid
  | HandlerSignal.readReceiptReceived threadUid _ => threadUid
  | HandlerSignal.deliveredReceiptReceived threadUid _ => threadUid
  | HandlerSignal.noticeReceived threadUid _ => threadUid

/-- The type strings `Message::stringToType` knows. -/
def Message.knownTypeStrings : List QString :=
  ["TEXT", "IMAGE", "FILE", "VIDEO", "VOICE", "TYPING", "NOTICE", "RECALL", "DELIVERED", "READ",
   "CUSTOM"]

/-! ## Reconnection: the notions the theorems use -/

/-- The bound on the attempt counter: between 0 and `m_maxReconnectAttempts`, which is 5. -/
def MqttClient.AttemptBound (c : MqttClient) : Prop :=
  0 ≤ c.m_currentReconnectAttempt
    ∧ c.m_currentReconnectAttempt ≤ c.m_maxReconnectAttempts
    ∧ c.m_maxReconnectAttempts = 5

/-- The clients `c` and `c'` agree on the attempt counter, its maximum, the connect attempts made
on the socket and the pending single-shot timers. -/
def MqttClient.SameReconnect (c c' : MqttClient) : Prop :=
  c'.m_currentReconnectAttempt = c.m_currentReconnectAttempt
    ∧ c'.m_maxReconnectAttempts = c.m_maxReconnectAttempts
    ∧ c'.m_socket.connectCalls = c.m_socket.connectCalls
    ∧ c'.singleShots = c.singleShots

/-- The events that neither ask for a connection (`connectToHost`), nor deliver bytes from the
broker, nor are the firing of a pending single-shot timer. -/
def Event.quiet : Event → Bool
  | Event.connectToHost _ _ _ _ _ => false
  | Event.reconnectShot => false
  | Event.readyRead _ _ => false
  | _ => true

/-- One failed connection attempt after another: the socket reports an error, the reconnect timer
fires and runs `reconnect()`, and the single-shot timer of `reconnect()` fires and asks the socket
to connect again. -/
def failedAttempts (errors : List (QString × SocketState)) : List Event :=
  errors.flatMap (fun e => [Event.socketError e.1 e.2, Event.reconnect, Event.reconnectShot])

/-- The client has counted `k` reconnect attempts of at most 5, is not manually disconnected, has
no single-shot timer pending and has asked the socket to connect `n` times. -/
def MqttClient.AtAttempt (k : Int) (n : Nat) (c : MqttClient) : Prop :=
  c.m_currentReconnectAttempt = k
    ∧ c.m_maxReconnectAttempts = 5
    ∧ c.m_manualDisconnect = false
    ∧ c.singleShots = []
    ∧ c.m_socket.connectCalls.length = n

/-! ## The CONNACK case: the notions the theorems use -/

/-- The Subscribe frames the replay loop of the CONNACK case writes for the entries of the
subscription table, in the order of the table: `sendMqttSubscribe` draws one message id per
entry, counting up from `msgId`. -/
def MqttClient.replayPackets (qt : QtLib) : Nat → List (QString × Nat) → List QByteArray
  | _, [] => []
  | msgId, it :: rest =>
    MqttClient.subscribePacket qt msgId it.1 it.2
      :: MqttClient.replayPackets qt ((msgId + 1) % 65536) rest

/-- The clients `c` and `c'` agree on the connection state, the three timers, the keep-alive
interval, the attempt counter and the manual flag. -/
def MqttClient.SameControl (c c' : MqttClient) : Prop :=
  c'.m_state = c.m_state
    ∧ c'.m_keepAliveTimer = c.m_keepAliveTimer
    ∧ c'.m_reconnectTimer = c.m_reconnectTimer
    ∧ c'.m_connectTimeoutTimer = c.m_connectTimeoutTimer
    ∧ c'.m_keepAliveInterval = c.m_keepAliveInterval
    ∧ c'.m_currentReconnectAttempt = c.m_currentReconnectAttempt
    ∧ c'.m_manualDisconnect = c.m_manualDisconnect

/-! ## The dedup sets: the notions the theorems use -/

/-- Neither dedup set holds more than 1001 uids. -/
def MqttMessageHandler.DedupBound (h : MqttMessageHandler) : Prop :=
  QSet.size h.m_sentReadUids ≤ 1001 ∧ QSet.size h.m_sentDeliveredUids ≤ 1001

/-- The handlers `h` and `h'` hold the same two dedup sets. -/
def MqttMessageHandler.SameDedup (h h' : MqttMessageHandler) : Prop :=
  h'.m_sentReadUids = h.m_sentReadUids ∧ h'.m_sentDeliveredUids = h.m_sentDeliveredUids

/-! ## Reassembly of frames: the notions the theorems use -/

/-- The assignment of `buf` to `m_readBuffer`. -/
def MqttClient.setReadBuffer (c : MqttClient) (buf : QByteArray) : MqttClient :=
  { c with m_readBuffer := buf }

/-- The assignment of `buf` to the `m_readBuffer` of the handler's client. -/
def MqttMessageHandler.setReadBuffer (h : MqttMessageHandler) (buf : QByteArray) :
    MqttMessageHandler :=
  { h with m_mqttClient := h.m_mqttClient.setReadBuffer buf }

/-- The loop of `onReadyRead` stops on `buf`: it holds fewer than two bytes, or fewer bytes than
the frame at its front declares. -/
def MqttClient.Incomplete (buf : QByteArray) : Prop :=
  buf.length < 2 ∨ buf.length < 2 + toChar (buf.getD 1 0)

/-- The while loop of `onReadyRead` with the switch left out, run for at most `fuel` iterations:
the frames (type byte and body) it takes from the front of `buf`, oldest first, and the bytes it
leaves in the buffer. -/
def MqttClient.splitFrames : Nat → QByteArray → List (Nat × QByteArray) × QByteArray
  | 0, buf => ([], buf)
  | fuel + 1, buf =>
    if buf.length ≥ 2 then
      let messageType := toChar (buf.getD 0 0)
      let remainingLength := toChar (buf.getD 1 0)
      if buf.length < 2 + remainingLength then ([], buf)
      else
        let payload := QByteArray.mid buf 2 remainingLength
        let r := MqttClient.splitFrames fuel (QByteArray.midFrom buf (2 + remainingLength))
        ((messageType, payload) :: r.1, r.2)
    else ([], buf)

/-- The body of the loop of `onReadyRead` run on a list of frames, oldest first: the bytes of the
frame are removed from the front of the buffer, then the switch runs on its type byte and body. -/
def MqttClient.dispatchFrames (qt : QtLib) (now : QDateTime) :
    List (Nat × QByteArray) → MqttMessageHandler → Outcome MqttMessageHandler
  | [], h => Outcome.ok h
  | f :: fs, h =>
    match MqttClient.dispatchFrame qt now (MqttClient.consumeFrame h f.2.length) f.1 f.2 with
    | Outcome.ok h => MqttClient.dispatchFrames qt now fs h
    | o => o

/-- The slot `onReadyRead` run once for every chunk of bytes the socket delivers, oldest first. -/
def MqttClient.feedChunks (qt : QtLib) (now : QDateTime) :
    List QByteArray → MqttMessageHandler → Outcome MqttMessageHandler
  | [], h => Outcome.ok h
  | chunk :: chunks, h =>
    match MqttClient.onReadyRead qt now h chunk with
    | Outcome.ok h => MqttClient.feedChunks qt now chunks h
    | o => o

/-- The operation `f` on the client neither reads nor writes the read buffer. -/
def MqttClient.IgnoresReadBuffer (f : MqttClient → MqttClient) : Prop :=
  ∀ (c : MqttClient) (buf : QByteArray), f (c.setReadBuffer buf) = (f c).setReadBuffer buf

/-- The CONNACK case of `onReadyRead` as an operation on the client, given the topics the
handler's slot `onMqttConnected` subscribes when `connected()` is emitted. -/
def MqttClient.onConnackClient (qt : QtLib) (now : QDateTime) (topics : List QString)
    (c : MqttClient) : MqttClient :=
  let c := { c with m_connectTimeoutTimer := c.m_connectTimeoutTimer.stop }
  let c := { c with m_reconnectTimer := c.m_reconnectTimer.stop }
  let c := { c with m_currentReconnectAttempt := 0 }
  let c := c.setState MqttConnectionState.CONNECTED
  let c := c.updateLastMessageTime now
  let c := c.startKeepAlive 30000
  let c := c.m_subscriptions.foldl (fun c it => c.sendMqttSubscribe qt it.1 it.2) c
  let c := c.emit ClientSignal.connected
  let c := topics.foldl (fun c topic => c.subscribe qt topic 0) c
  if c.m_connectedCallback then
    { c with callbackCalls := c.callbackCalls ++ [CallbackCall.connected] }
  else c

/-- The frames taken from the buffer when the chunks arrive one by one, oldest first: after each
chunk the loop of `onReadyRead` runs on what the chunks before it left, followed by the chunk. -/
def MqttClient.splitChunks : List QByteArray → QByteArray → List (Nat × QByteArray) × QByteArray
  | [], buf => ([], buf)
  | chunk :: chunks, buf =>
    let r := MqttClient.splitFrames (buf ++ chunk).length (buf ++ chunk)
    let r' := MqttClient.splitChunks chunks r.2
    (r.1 ++ r'.1, r'.2)

/-! # Theorems -/

set_option maxRecDepth 100000

section Examples

example : StdQt.toUtf8 "t1" = [0x74, 0x31] := by decide
example : StdQt.fromUtf8 (StdQt.toUtf8 "org/workgroup/55") = "org/workgroup/55" := by decide
example : specEncodeRemainingLength 0 = [0x00] := by decide
example : specEncodeRemainingLength 127 = [0x7F] := by decide
example : specEncodeRemainingLength 128 = [0x80, 0x01] := by decide
example : specEncodeRemainingLength 16383 = [0xFF, 0x7F] := by decide
example : specEncodeRemainingLength 16384 = [0x80, 0x80, 0x01] := by decide
example : specEncodeRemainingLength 2097151 = [0xFF, 0xFF, 0x7F] := by decide
example : specEncodeRemainingLength 268435455 = [0xFF, 0xFF, 0xFF, 0x7F] := by decide
example : specDecodeRemainingLength [0x80, 0x80, 0x01, 7] = some (16384, [7]) := by decide

end Examples

/-! ## Arithmetic of bytes -/

theorem toChar_of_lt {n : Nat} (h : n < 256) : toChar n = n := Nat.mod_eq_of_lt h

theorem and_0xFF (n : Nat) : n &&& 0xFF = n % 256 :=
  Nat.and_pow_two_sub_one_eq_mod n 8

theorem and_0xFF_mod (n : Nat) : (n &&& 255) % 256 = n % 256 := by
  have h := and_0xFF n
  norm_num at h
  rw [h, Nat.mod_mod]

theorem specEncodeRemainingLength_small {n : Nat} (h : n ≤ 127) :
    specEncodeRemainingLength n = [n] := by
  have h1 : n / 128 = 0 := Nat.div_eq_of_lt (by omega)
  have h2 : n % 128 = n := Nat.mod_eq_of_lt (by omega)
  simp [specEncodeRemainingLength, specEncodeGroups, h1, h2]

theorem specDecodeRemainingLength_small {n : Nat} (h : n ≤ 127) (rest : List Nat) :
    specDecodeRemainingLength (n :: rest) = some (n, rest) := by
  have h1 : n < 128 := by omega
  simp [specDecodeRemainingLength, specDecodeGroups, h1]

/-! ## C1: the remaining-length field -/

theorem ClientFrame.send_written (qt : QtLib) (c : MqttClient) (f : ClientFrame) :
    (f.send qt c).m_socket.written =
      c.m_socket.written ++ [[f.header, (f.body qt c).length % 256] ++ f.body qt c] := by
  cases f with
  | connect =>
    simp [ClientFrame.send, ClientFrame.header, ClientFrame.body, MqttClient.sendMqttConnect,
      MqttClient.connectPacket, QTcpSocket.write, toChar, MqttProtocol.CONNECT]
  | subscribe topic qos =>
    simp [ClientFrame.send, ClientFrame.header, ClientFrame.body, MqttClient.sendMqttSubscribe,
      MqttClient.subscribePacket, MqttClient.calculateMessageId, QTcpSocket.write, toChar,
      MqttProtocol.SUBSCRIBE]
  | publish topic payload qos retain =>
    have hh : MqttClient.publishHeader qos retain % 256 = MqttClient.publishHeader qos retain := by
      unfold MqttClient.publishHeader MqttProtocol.PUBLISH
      by_cases hq : qos > 0 <;> cases retain <;> simp [hq]
    by_cases hq : qos > 0
    · simp [ClientFrame.send, ClientFrame.header, ClientFrame.body, MqttClient.sendMqttPublish,
        MqttClient.publishPacket, MqttClient.calculateMessageId, QTcpSocket.write, hq,
        and_0xFF_mod, toChar, hh, MqttClient.publishData]
    · have hq0 : qos = 0 := by omega
      subst hq0
      simp [ClientFrame.send, ClientFrame.header, ClientFrame.body, MqttClient.sendMqttPublish,
        MqttClient.publishPacket, QTcpSocket.write, and_0xFF_mod, toChar, hh,
        MqttClient.publishData]


/-- C1, as stated, fails: a Publish frame for topic "t" with a payload of 125 bytes has remaining
length 128; the client writes the single length byte 0x80 after the header, whereas the
variable-byte-integer encoding of 128 is the two bytes 0x80 0x01. -/
theorem C1_counterexample :
    (ClientFrame.body stdQt MqttClient.new
      (ClientFrame.publish "t" (List.replicate 125 97) 0 false)).length = 128
    ∧ (ClientFrame.send stdQt MqttClient.new
        (ClientFrame.publish "t" (List.replicate 125 97) 0 false)).m_socket.written
      = [[0x30, 0x80] ++ [0x00, 0x01, 0x74] ++ List.replicate 125 97]
    ∧ (ClientFrame.send stdQt MqttClient.new
        (ClientFrame.publish "t" (List.replicate 125 97) 0 false)).m_socket.written
      ≠ [[0x30] ++ specEncodeRemainingLength 128 ++ [0x00, 0x01, 0x74] ++ List.replicate 125 97] := by
  decide

/-- C1 (amended): for every frame the client builds (Connect, Subscribe, Publish) whose remaining
length L is at most 127, the frame written to the socket is the header byte, then the
variable-byte-integer encoding of L (one byte), then the body; decoding that field as a
variable-byte integer recovers L and leaves the body, and the length byte as `onReadyRead`
reads it (the second byte of the frame) is L. -/
theorem C1_remaining_length_up_to_127 (qt : QtLib) (c : MqttClient) (f : ClientFrame)
    (hL : (f.body qt c).length ≤ 127) :
    (f.send qt c).m_socket.written =
        c.m_socket.written ++
          [[f.header] ++ specEncodeRemainingLength (f.body qt c).length ++ f.body qt c]
    ∧ specDecodeRemainingLength (specEncodeRemainingLength (f.body qt c).length ++ f.body qt c)
        = some ((f.body qt c).length, f.body qt c)
    ∧ toChar (([f.header] ++ specEncodeRemainingLength (f.body qt c).length ++ f.body qt c).getD 1 0)
        = (f.body qt c).length := by
  have hmod : (f.body qt c).length % 256 = (f.body qt c).length := Nat.mod_eq_of_lt (by omega)
  refine ⟨?_, ?_, ?_⟩
  · rw [ClientFrame.send_written, specEncodeRemainingLength_small hL, hmod]
    simp
  · rw [specEncodeRemainingLength_small hL]
    exact specDecodeRemainingLength_small hL _
  · rw [specEncodeRemainingLength_small hL]
    simp [toChar, hmod]

theorem C1_remaining_length_up_to_127_witness :
    (ClientFrame.send stdQt MqttClient.new
        (ClientFrame.publish "t1" [104, 101, 108, 108, 111] 0 false)).m_socket.written =
        MqttClient.new.m_socket.written ++
          [[(ClientFrame.publish "t1" [104, 101, 108, 108, 111] 0 false).header]
            ++ specEncodeRemainingLength (ClientFrame.body stdQt MqttClient.new
                (ClientFrame.publish "t1" [104, 101, 108, 108, 111] 0 false)).length
            ++ ClientFrame.body stdQt MqttClient.new
                (ClientFrame.publish "t1" [104, 101, 108, 108, 111] 0 false)]
    ∧ specDecodeRemainingLength (specEncodeRemainingLength (ClientFrame.body stdQt MqttClient.new
          (ClientFrame.publish "t1" [104, 101, 108, 108, 111] 0 false)).length
        ++ ClientFrame.body stdQt MqttClient.new
          (ClientFrame.publish "t1" [104, 101, 108, 108, 111] 0 false))
        = some ((ClientFrame.body stdQt MqttClient.new
            (ClientFrame.publish "t1" [104, 101, 108, 108, 111] 0 false)).length,
          ClientFrame.body stdQt MqttClient.new
            (ClientFrame.publish "t1" [104, 101, 108, 108, 111] 0 false))
    ∧ toChar (([(ClientFrame.publish "t1" [104, 101, 108, 108, 111] 0 false).header]
          ++ specEncodeRemainingLength (ClientFrame.body stdQt MqttClient.new
              (ClientFrame.publish "t1" [104, 101, 108, 108, 111] 0 false)).length
          ++ ClientFrame.body stdQt MqttClient.new
              (ClientFrame.publish "t1" [104, 101, 108, 108, 111] 0 false)).getD 1 0)
        = (ClientFrame.body stdQt MqttClient.new
            (ClientFrame.publish "t1" [104, 101, 108, 108, 111] 0 false)).length :=
  C1_remaining_length_up_to_127 stdQt MqttClient.new
    (ClientFrame.publish "t1" [104, 101, 108, 108, 111] 0 false) (by decide)


/-! ## C2: a Publish frame read back by `onReadyRead` -/

theorem MqttMessageHandler.onMqttMessageReceived_client (qt : QtLib) (now : QDateTime)
    (h : MqttMessageHandler) (topic : QString) (payload : QByteArray) :
    (MqttMessageHandler.onMqttMessageReceived qt now h topic payload).m_mqttClient
      = h.m_mqttClient := by
  unfold MqttMessageHandler.onMqttMessageReceived
  simp only []
  split
  · rfl
  · split <;>
      simp [MqttMessageHandler.handleTypingMessage, MqttMessageHandler.handleReceiptMessage,
        MqttMessageHandler.handleNoticeMessage, MqttMessageHandler.handleMessage,
        MqttMessageHandler.emit] <;>
      (repeat' split) <;> rfl

theorem MqttClient.readLoop_short (qt : QtLib) (now : QDateTime) (fuel : Nat)
    (h : MqttMessageHandler) (hb : h.m_mqttClient.m_readBuffer.length < 2) :
    MqttClient.readLoop qt now fuel h = Outcome.ok h := by
  have hb2 : ¬ h.m_mqttClient.m_readBuffer.length ≥ 2 := by omega
  cases fuel with
  | zero => simp only [MqttClient.readLoop, hb2, if_false]
  | succ n => simp only [MqttClient.readLoop, hb2, if_false]

/-- One iteration of the loop on a buffer that starts with a complete frame. -/
theorem MqttClient.readLoop_frame (qt : QtLib) (now : QDateTime) (fuel : Nat)
    (h : MqttMessageHandler) (b0 b1 : Nat) (rest : QByteArray)
    (hbuf : h.m_mqttClient.m_readBuffer = b0 :: b1 :: rest) (hlen : toChar b1 ≤ rest.length) :
    MqttClient.readLoop qt now (fuel + 1) h =
      match MqttClient.dispatchFrame qt now (MqttClient.consumeFrame h (toChar b1)) (toChar b0)
          (rest.take (toChar b1)) with
      | Outcome.ok h => MqttClient.readLoop qt now fuel h
      | o => o := by
  have h2 : h.m_mqttClient.m_readBuffer.length ≥ 2 := by rw [hbuf]; simp
  have h3 : ¬ h.m_mqttClient.m_readBuffer.length < 2 + toChar b1 := by
    rw [hbuf]; simp only [List.length_cons]; omega
  have h4 : h.m_mqttClient.m_readBuffer.getD 1 0 = b1 := by rw [hbuf]; rfl
  have h5 : h.m_mqttClient.m_readBuffer.getD 0 0 = b0 := by rw [hbuf]; rfl
  have h6 : QByteArray.mid h.m_mqttClient.m_readBuffer 2 (toChar b1) = rest.take (toChar b1) := by
    rw [hbuf]; rfl
  simp only [MqttClient.readLoop, h2, if_true, h4, h5, h3, if_false, h6]

theorem MqttClient.consumeFrame_buffer (h : MqttMessageHandler) (n : Nat) :
    (MqttClient.consumeFrame h n).m_mqttClient.m_readBuffer
      = h.m_mqttClient.m_readBuffer.drop (2 + n) := rfl

theorem MqttClient.consumeFrame_emitted (h : MqttMessageHandler) (n : Nat) :
    (MqttClient.consumeFrame h n).m_mqttClient.emitted = h.m_mqttClient.emitted := rfl

theorem MqttClient.dispatchFrame_publish (qt : QtLib) (now : QDateTime) (h : MqttMessageHandler)
    (messageType : Nat) (payload : QByteArray)
    (hcmd : messageType &&& 0xF0 = MqttProtocol.PUBLISH) :
    MqttClient.dispatchFrame qt now h messageType payload = MqttClient.onPublish qt now h payload := by
  have h1 : ¬ (messageType &&& 0xF0 = MqttProtocol.CONNACK) := by rw [hcmd]; decide
  unfold MqttClient.dispatchFrame
  simp only []
  rw [if_neg h1, if_pos hcmd]

theorem MqttClient.deliverPublish_buffer (qt : QtLib) (now : QDateTime) (h : MqttMessageHandler)
    (topic : QString) (messagePayload : QByteArray) :
    (MqttClient.deliverPublish qt now h topic messagePayload).m_mqttClient.m_readBuffer
      = h.m_mqttClient.m_readBuffer := by
  simp only [MqttClient.deliverPublish, MqttMessageHandler.onMqttMessageReceived_client]
  split <;> rfl

theorem MqttClient.deliverPublish_emitted (qt : QtLib) (now : QDateTime) (h : MqttMessageHandler)
    (topic : QString) (messagePayload : QByteArray) :
    (MqttClient.deliverPublish qt now h topic messagePayload).m_mqttClient.emitted
      = h.m_mqttClient.emitted ++ [ClientSignal.messageReceived topic messagePayload] := by
  simp only [MqttClient.deliverPublish, MqttMessageHandler.onMqttMessageReceived_client]
  split <;> rfl

/-- The PUBLISH case on a body of at least two bytes: the topic is cut out by the length prefix
and the rest is the payload. -/
theorem MqttClient.onPublish_cons (qt : QtLib) (now : QDateTime) (h : MqttMessageHandler)
    (b0 b1 : Nat) (rest : QByteArray) :
    MqttClient.onPublish qt now h (b0 :: b1 :: rest) =
      Outcome.ok (MqttClient.deliverPublish qt now h
        (qt.fromUtf8 (rest.take ((toChar b0 <<< 8) ||| toChar b1)))
        (rest.drop ((toChar b0 <<< 8) ||| toChar b1))) := by
  have hd : ∀ n : Nat, List.drop (2 + n) (b0 :: b1 :: rest) = List.drop n rest := by
    intro n
    rw [Nat.add_comm 2 n]
    rfl
  simp [MqttClient.onPublish, QByteArray.mid, QByteArray.midFrom, hd]

theorem MqttClient.encodeString_small (qt : QtLib) (s : QString)
    (hs : (qt.toUtf8 s).length ≤ 255) :
    MqttClient.encodeString qt s = [0, (qt.toUtf8 s).length] ++ qt.toUtf8 s := by
  have h1 : (qt.toUtf8 s).length >>> 8 = 0 := by
    rw [Nat.shiftRight_eq_div_pow]
    exact Nat.div_eq_of_lt (by norm_num; omega)
  have h2 : (qt.toUtf8 s).length % 256 = (qt.toUtf8 s).length := Nat.mod_eq_of_lt (by omega)
  simp [MqttClient.encodeString, h1, toChar, and_0xFF_mod, h2]

theorem MqttClient.publishHeader_qos0 (retain : Bool) :
    toChar (MqttClient.publishHeader 0 retain) &&& 0xF0 = MqttProtocol.PUBLISH := by
  cases retain <;> decide


/-- C2, as stated, fails in two ways. With qos = 1 the parser hands the two message-id bytes over
as the start of the payload: the frame for topic "t", payload "hi" is read back as payload
00 01 68 69. With a body of 256 bytes (topic "t", 253 payload bytes) the single length byte is 0,
the parser takes an empty Publish body and indexes it out of range, and no message is delivered. -/
theorem C2_counterexample :
    (∃ h', MqttClient.onReadyRead stdQt none (MqttMessageHandler.new MqttClient.new)
          (MqttClient.publishPacket stdQt 1 "t" [0x68, 0x69] 1 false) = Outcome.ok h'
        ∧ h'.m_mqttClient.emitted = [ClientSignal.messageReceived "t" [0x00, 0x01, 0x68, 0x69]]
        ∧ h'.m_mqttClient.emitted ≠ [ClientSignal.messageReceived "t" [0x68, 0x69]])
    ∧ MqttClient.onReadyRead stdQt none (MqttMessageHandler.new MqttClient.new)
          (MqttClient.publishPacket stdQt 1 "t" (List.replicate 253 97) 0 false)
        = Outcome.outOfRange := by
  refine ⟨⟨_, rfl, ?_, ?_⟩, ?_⟩ <;> decide

/-- C2 (amended): for every topic whose UTF-8 bytes decode back to it and every payload with
qos = 0, any retain flag and a frame body of at most 255 bytes (2 + topic bytes + payload bytes),
feeding the frame written by `sendMqttPublish` to `onReadyRead` on an empty read buffer returns,
leaves the buffer empty (the whole frame is consumed) and emits `messageReceived` exactly once,
with the original topic and payload. -/
theorem C2_publish_roundtrip_qos0 (qt : QtLib) (now : QDateTime) (sender : MqttClient)
    (h : MqttMessageHandler) (topic : QString) (payload : QByteArray) (retain : Bool)
    (hbuf : h.m_mqttClient.m_readBuffer = [])
    (hlen : 2 + (qt.toUtf8 topic).length + payload.length ≤ 255)
    (hutf : qt.fromUtf8 (qt.toUtf8 topic) = topic) :
    (sender.sendMqttPublish qt topic payload 0 retain).m_socket.written
        = sender.m_socket.written
          ++ [MqttClient.publishPacket qt sender.m_messageId topic payload 0 retain]
    ∧ ∃ h', MqttClient.onReadyRead qt now h
              (MqttClient.publishPacket qt sender.m_messageId topic payload 0 retain)
            = Outcome.ok h'
        ∧ h'.m_mqttClient.m_readBuffer = []
        ∧ h'.m_mqttClient.emitted
            = h.m_mqttClient.emitted ++ [ClientSignal.messageReceived topic payload] := by
  constructor
  · have := ClientFrame.send_written qt sender (ClientFrame.publish topic payload 0 retain)
    simp only [ClientFrame.send] at this
    rw [this]
    simp [ClientFrame.header, ClientFrame.body, MqttClient.publishPacket, toChar, and_0xFF_mod]
    cases retain <;> decide
  · have hn : (qt.toUtf8 topic).length ≤ 255 := by omega
    have hL : ((qt.toUtf8 topic).length + 1 + 1 + payload.length) % 256
        = (qt.toUtf8 topic).length + 1 + 1 + payload.length := Nat.mod_eq_of_lt (by omega)
    have hpk : MqttClient.publishPacket qt sender.m_messageId topic payload 0 retain
        = toChar (MqttClient.publishHeader 0 retain)
          :: ((qt.toUtf8 topic).length + 1 + 1 + payload.length)
          :: (0 :: (qt.toUtf8 topic).length :: (qt.toUtf8 topic ++ payload)) := by
      simp [MqttClient.publishPacket, MqttClient.publishData,
        MqttClient.encodeString_small qt topic hn, and_0xFF_mod, toChar]
      omega
    have hlenb : toChar ((qt.toUtf8 topic).length + 1 + 1 + payload.length)
        = (qt.toUtf8 topic).length + 1 + 1 + payload.length := hL
    have htl : (toChar 0 <<< 8) ||| toChar (qt.toUtf8 topic).length = (qt.toUtf8 topic).length := by
      have : toChar (qt.toUtf8 topic).length = (qt.toUtf8 topic).length :=
        Nat.mod_eq_of_lt (by omega)
      rw [this]
      simp [toChar]
    unfold MqttClient.onReadyRead
    simp only [hbuf, List.nil_append, hpk, List.length_cons]
    rw [MqttClient.readLoop_frame qt now _ _ _ _ _ rfl
      (by rw [hlenb]; simp only [List.length_cons, List.length_append]; omega)]
    rw [MqttClient.dispatchFrame_publish _ _ _ _ _
      (by cases retain <;> decide)]
    rw [hlenb]
    have htake : List.take ((qt.toUtf8 topic).length + 1 + 1 + payload.length)
        (0 :: (qt.toUtf8 topic).length :: (qt.toUtf8 topic ++ payload))
        = 0 :: (qt.toUtf8 topic).length :: (qt.toUtf8 topic ++ payload) := by
      apply List.take_of_length_le
      simp only [List.length_cons, List.length_append]
      omega
    rw [htake, MqttClient.onPublish_cons, htl]
    simp only [List.take_left', List.drop_left', hutf]
    refine ⟨_, MqttClient.readLoop_short _ _ _ _ ?_, ?_, ?_⟩
    · rw [MqttClient.deliverPublish_buffer, MqttClient.consumeFrame_buffer]
      simp only [List.length_drop, List.length_cons, List.length_append]
      omega
    · rw [MqttClient.deliverPublish_buffer, MqttClient.consumeFrame_buffer]
      apply List.drop_eq_nil_of_le
      simp only [List.length_cons, List.length_append]
      omega
    · rw [MqttClient.deliverPublish_emitted, MqttClient.consumeFrame_emitted]

theorem C2_publish_roundtrip_qos0_witness :
    (MqttClient.new.sendMqttPublish stdQt "t1" [104, 101, 108, 108, 111] 0 false).m_socket.written
        = MqttClient.new.m_socket.written
          ++ [MqttClient.publishPacket stdQt MqttClient.new.m_messageId "t1"
                [104, 101, 108, 108, 111] 0 false]
    ∧ ∃ h', MqttClient.onReadyRead stdQt none (MqttMessageHandler.new MqttClient.new)
              (MqttClient.publishPacket stdQt MqttClient.new.m_messageId "t1"
                [104, 101, 108, 108, 111] 0 false)
            = Outcome.ok h'
        ∧ h'.m_mqttClient.m_readBuffer = []
        ∧ h'.m_mqttClient.emitted
            = (MqttMessageHandler.new MqttClient.new).m_mqttClient.emitted
              ++ [ClientSignal.messageReceived "t1" [104, 101, 108, 108, 111]] :=
  C2_publish_roundtrip_qos0 stdQt none MqttClient.new (MqttMessageHandler.new MqttClient.new)
    "t1" [104, 101, 108, 108, 111] false rfl (by decide) (by decide)


/-! ## C3: replay of the thread topics on the first ConnectAck -/

theorem MqttClient.subscribe_readBuffer (qt : QtLib) (c : MqttClient) (topic : QString) (qos : Nat) :
    (c.subscribe qt topic qos).m_readBuffer = c.m_readBuffer := by
  unfold MqttClient.subscribe
  split <;> rfl

theorem MqttClient.foldl_subscribe_readBuffer (qt : QtLib) (topics : List QString) (c : MqttClient) :
    (topics.foldl (fun c topic => c.subscribe qt topic 0) c).m_readBuffer = c.m_readBuffer := by
  induction topics generalizing c with
  | nil => rfl
  | cons t ts ih => rw [List.foldl_cons, ih, MqttClient.subscribe_readBuffer]

theorem MqttClient.foldl_sendMqttSubscribe_readBuffer (qt : QtLib) (subs : QHash QString Nat)
    (c : MqttClient) :
    (subs.foldl (fun c it => c.sendMqttSubscribe qt it.1 it.2) c).m_readBuffer = c.m_readBuffer := by
  induction subs generalizing c with
  | nil => rfl
  | cons t ts ih => rw [List.foldl_cons, ih]; rfl

theorem MqttClient.setState_readBuffer (c : MqttClient) (s : MqttConnectionState) :
    (c.setState s).m_readBuffer = c.m_readBuffer := by
  unfold MqttClient.setState
  split <;> rfl

theorem MqttClient.onConnack_readBuffer (qt : QtLib) (now : QDateTime) (h : MqttMessageHandler) :
    (MqttClient.onConnack qt now h).m_mqttClient.m_readBuffer = h.m_mqttClient.m_readBuffer := by
  simp only [MqttClient.onConnack, MqttMessageHandler.onMqttConnected]
  split <;>
    simp only [MqttClient.foldl_subscribe_readBuffer, MqttClient.emit,
      MqttClient.foldl_sendMqttSubscribe_readBuffer, MqttClient.startKeepAlive,
      MqttClient.updateLastMessageTime, MqttClient.setState_readBuffer]

/-- Reading the four bytes of a ConnectAck frame (type 0x20, remaining length 2, flags 0, return
code 0) into an empty buffer runs the CONNACK case once and returns. -/
theorem MqttClient.onReadyRead_connack (qt : QtLib) (now : QDateTime) (h : MqttMessageHandler)
    (hbuf : h.m_mqttClient.m_readBuffer = []) :
    MqttClient.onReadyRead qt now h [0x20, 0x02, 0x00, 0x00]
      = Outcome.ok (MqttClient.onConnack qt now h) := by
  have hcons : MqttClient.consumeFrame
      { h with m_mqttClient := { h.m_mqttClient with m_readBuffer := [0x20, 0x02, 0x00, 0x00] } }
      (toChar 2) = h := by
    obtain ⟨c, a1, a2, a3, a4, a5⟩ := h
    cases c
    simp only at hbuf
    subst hbuf
    rfl
  unfold MqttClient.onReadyRead
  simp only [hbuf, List.nil_append, List.length_cons, List.length_nil]
  rw [MqttClient.readLoop_frame qt now _ _ 0x20 0x02 [0x00, 0x00] rfl (by decide), hcons]
  have hd : MqttClient.dispatchFrame qt now h (toChar 0x20) (List.take (toChar 2) [0x00, 0x00])
      = Outcome.ok (MqttClient.onConnack qt now h) := by
    unfold MqttClient.dispatchFrame
    simp only []
    rw [if_pos (by decide)]
  rw [hd]
  exact MqttClient.readLoop_short qt now _ _
    (by rw [MqttClient.onConnack_readBuffer, hbuf]; decide)

theorem QHash.insert_of_not_contains {κ ν : Type} [DecidableEq κ] (h : QHash κ ν) (k : κ) (v : ν)
    (hk : QHash.contains h k = false) : QHash.insert h k v = h ++ [(k, v)] := by
  simp [QHash.insert, hk]

theorem QHash.contains_eq_false_iff {κ ν : Type} [DecidableEq κ] (h : QHash κ ν) (k : κ) :
    QHash.contains h k = false ↔ k ∉ h.map Prod.fst := by
  simp only [QHash.contains, List.any_eq_false, decide_eq_true_eq, List.mem_map, not_exists, not_and]

/-- While the client is not connected, `subscribeToThread` only records the binding. -/
theorem MqttMessageHandler.subscribeToThread_disconnected (qt : QtLib) (h : MqttMessageHandler)
    (threadUid topic : QString) (hc : h.m_mqttClient.isConnected = false) :
    MqttMessageHandler.subscribeToThread qt h threadUid topic =
      { h with m_threadTopics := QHash.insert h.m_threadTopics threadUid topic,
               m_topicThreads := QHash.insert h.m_topicThreads topic threadUid } := by
  simp [MqttMessageHandler.subscribeToThread, hc]

/-- Binding pairwise distinct, not yet bound conversations while the client is not connected
appends the bindings to `m_threadTopics` and leaves the client alone. -/
theorem MqttMessageHandler.foldl_subscribeToThread_disconnected (qt : QtLib)
    (bindings : List (QString × QString)) (h : MqttMessageHandler)
    (hc : h.m_mqttClient.isConnected = false)
    (hnew : ∀ b ∈ bindings, b.1 ∉ h.m_threadTopics.map Prod.fst)
    (hnd : (bindings.map Prod.fst).Nodup) :
    (bindings.foldl (fun h b => MqttMessageHandler.subscribeToThread qt h b.1 b.2) h).m_threadTopics
        = h.m_threadTopics ++ bindings
    ∧ (bindings.foldl (fun h b => MqttMessageHandler.subscribeToThread qt h b.1 b.2) h).m_mqttClient
        = h.m_mqttClient := by
  induction bindings generalizing h with
  | nil => simp
  | cons b bs ih =>
    rw [List.foldl_cons, MqttMessageHandler.subscribeToThread_disconnected qt h b.1 b.2 hc]
    have hb : QHash.contains h.m_threadTopics b.1 = false :=
      (QHash.contains_eq_false_iff _ _).2 (hnew b (List.mem_cons_self _ _))
    simp only [List.map_cons, List.nodup_cons] at hnd
    have := ih { h with m_threadTopics := QHash.insert h.m_threadTopics b.1 b.2,
                        m_topicThreads := QHash.insert h.m_topicThreads b.2 b.1 } hc
      (by
        intro b' hb'
        simp only [QHash.insert_of_not_contains _ _ _ hb, List.map_append, List.map_cons,
          List.map_nil, List.mem_append, List.mem_singleton, not_or]
        refine ⟨hnew b' (List.mem_cons_of_mem _ hb'), ?_⟩
        intro heq
        exact hnd.1 (heq ▸ List.mem_map_of_mem Prod.fst hb'))
      hnd.2
    rw [this.1, this.2]
    simp [QHash.insert_of_not_contains _ _ _ hb]

theorem MqttClient.subscribe_connected (qt : QtLib) (c : MqttClient) (topic : QString) (qos : Nat)
    (hc : c.m_state = MqttConnectionState.CONNECTED) :
    (c.subscribe qt topic qos).m_state = MqttConnectionState.CONNECTED
    ∧ (c.subscribe qt topic qos).m_socket.written
        = c.m_socket.written ++ [MqttClient.subscribePacket qt c.m_messageId topic qos] := by
  simp [MqttClient.subscribe, MqttClient.isConnected, hc, MqttClient.sendMqttSubscribe,
    MqttClient.calculateMessageId, QTcpSocket.write]

/-- Subscribing a list of topics on a connected client writes one Subscribe frame per topic, in
the order of the list, each with the message id drawn for it. -/
theorem MqttClient.foldl_subscribe_written (qt : QtLib) (topics : List QString) (c : MqttClient)
    (hc : c.m_state = MqttConnectionState.CONNECTED) :
    ∃ ids : List Nat, ids.length = topics.length
      ∧ (topics.foldl (fun c topic => c.subscribe qt topic 0) c).m_socket.written
          = c.m_socket.written
            ++ List.zipWith (fun id topic => MqttClient.subscribePacket qt id topic 0) ids topics := by
  induction topics generalizing c with
  | nil => exact ⟨[], rfl, by simp⟩
  | cons t ts ih =>
    obtain ⟨hs, hw⟩ := MqttClient.subscribe_connected qt c t 0 hc
    obtain ⟨ids, hlen, hids⟩ := ih (c.subscribe qt t 0) hs
    refine ⟨c.m_messageId :: ids, by simp [hlen], ?_⟩
    rw [List.foldl_cons, hids, hw]
    simp

theorem MqttClient.setState_state (c : MqttClient) (s : MqttConnectionState) :
    (c.setState s).m_state = s := by
  unfold MqttClient.setState
  split
  · rfl
  · rename_i hne
    simpa using hne

theorem MqttClient.setState_written (c : MqttClient) (s : MqttConnectionState) :
    (c.setState s).m_socket = c.m_socket := by
  unfold MqttClient.setState
  split <;> rfl

/-- The CONNACK case when the client's own subscription table is empty: the frames written are
those of the handler's replay of `m_threadTopics`. -/
theorem MqttClient.onConnack_written_first (qt : QtLib) (now : QDateTime) (h : MqttMessageHandler)
    (hsubs : h.m_mqttClient.m_subscriptions = []) :
    ∃ ids : List Nat, ids.length = h.m_threadTopics.length
      ∧ (MqttClient.onConnack qt now h).m_mqttClient.m_socket.written
          = h.m_mqttClient.m_socket.written
            ++ List.zipWith (fun id topic => MqttClient.subscribePacket qt id topic 0) ids
                (QHash.values h.m_threadTopics) := by
  have key := MqttClient.foldl_subscribe_written qt (QHash.values h.m_threadTopics)
    ((((({ { { h.m_mqttClient with
              m_connectTimeoutTimer := h.m_mqttClient.m_connectTimeoutTimer.stop } with
              m_reconnectTimer := h.m_mqttClient.m_reconnectTimer.stop } with
              m_currentReconnectAttempt := 0 } : MqttClient).setState
        MqttConnectionState.CONNECTED).updateLastMessageTime now).startKeepAlive 30000).emit
      ClientSignal.connected)
    (by simp [MqttClient.emit, MqttClient.startKeepAlive, MqttClient.updateLastMessageTime,
          MqttClient.setState_state])
  obtain ⟨ids, hlen, hw⟩ := key
  refine ⟨ids, by simpa [QHash.values] using hlen, ?_⟩
  simp only [MqttClient.onConnack, MqttMessageHandler.onMqttConnected]
  have hfold : ∀ c : MqttClient, c.m_subscriptions = [] →
      List.foldl (fun c it => c.sendMqttSubscribe qt it.1 it.2) c c.m_subscriptions = c := by
    intro c hc
    rw [hc]
    rfl
  rw [hfold _ (by simp [MqttClient.startKeepAlive, MqttClient.updateLastMessageTime,
        MqttClient.setState, hsubs]; split <;> simp [MqttClient.emit, hsubs])]
  split
  · simp only [hw]
    simp [MqttClient.emit, MqttClient.startKeepAlive, MqttClient.updateLastMessageTime,
      MqttClient.setState_written]
  · simp only [hw]
    simp [MqttClient.emit, MqttClient.startKeepAlive, MqttClient.updateLastMessageTime,
      MqttClient.setState_written]

/-- C3: bind pairwise distinct conversations to pairwise distinct topics with `subscribeToThread`,
in any order, on a handler with an empty registry whose client is not connected and has an empty
subscription table. Nothing is written by the bindings, and reading the first ConnectAck returns
and writes exactly one Subscribe frame (qos 0) per bound topic and nothing else. -/
theorem C3_resubscription_on_first_connect (qt : QtLib) (now : QDateTime)
    (h0 : MqttMessageHandler) (bindings : List (QString × QString))
    (hstate : h0.m_mqttClient.m_state ≠ MqttConnectionState.CONNECTED)
    (hreg : h0.m_threadTopics = [])
    (hsubs : h0.m_mqttClient.m_subscriptions = [])
    (hbuf : h0.m_mqttClient.m_readBuffer = [])
    (hconv : (bindings.map Prod.fst).Nodup)
    (htopics : (bindings.map Prod.snd).Nodup) :
    (bindings.foldl (fun h b => MqttMessageHandler.subscribeToThread qt h b.1 b.2)
        h0).m_mqttClient.m_socket.written = h0.m_mqttClient.m_socket.written
    ∧ ∃ (h2 : MqttMessageHandler) (ids : List Nat),
        MqttClient.onReadyRead qt now
            (bindings.foldl (fun h b => MqttMessageHandler.subscribeToThread qt h b.1 b.2) h0)
            [0x20, 0x02, 0x00, 0x00] = Outcome.ok h2
        ∧ ids.length = bindings.length
        ∧ h2.m_mqttClient.m_socket.written
            = h0.m_mqttClient.m_socket.written
              ++ List.zipWith (fun id topic => MqttClient.subscribePacket qt id topic 0) ids
                  (bindings.map Prod.snd)
        ∧ ∀ topic ∈ bindings.map Prod.snd, (bindings.map Prod.snd).count topic = 1 := by
  have hc : h0.m_mqttClient.isConnected = false := by
    simp [MqttClient.isConnected, hstate]
  obtain ⟨hreg1, hcl1⟩ := MqttMessageHandler.foldl_subscribeToThread_disconnected qt bindings h0 hc
    (by intro b _; simp [hreg]) hconv
  rw [hreg, List.nil_append] at hreg1
  refine ⟨by rw [hcl1], ?_⟩
  obtain ⟨ids, hlen, hw⟩ := MqttClient.onConnack_written_first qt now
    (bindings.foldl (fun h b => MqttMessageHandler.subscribeToThread qt h b.1 b.2) h0)
    (by rw [hcl1]; exact hsubs)
  refine ⟨_, ids, MqttClient.onReadyRead_connack qt now _ (by rw [hcl1]; exact hbuf), ?_, ?_, ?_⟩
  · rw [hlen, hreg1]
  · rw [hw, hcl1, hreg1]
    rfl
  · intro topic ht
    exact List.count_eq_one_of_mem htopics ht

theorem C3_resubscription_on_first_connect_witness :
    (([("c1", "A"), ("c2", "B"), ("c3", "C")] : List (QString × QString)).foldl
        (fun h b => MqttMessageHandler.subscribeToThread stdQt h b.1 b.2)
        (MqttMessageHandler.new MqttClient.new)).m_mqttClient.m_socket.written
      = (MqttMessageHandler.new MqttClient.new).m_mqttClient.m_socket.written
    ∧ ∃ (h2 : MqttMessageHandler) (ids : List Nat),
        MqttClient.onReadyRead stdQt none
            (([("c1", "A"), ("c2", "B"), ("c3", "C")] : List (QString × QString)).foldl
              (fun h b => MqttMessageHandler.subscribeToThread stdQt h b.1 b.2)
              (MqttMessageHandler.new MqttClient.new))
            [0x20, 0x02, 0x00, 0x00] = Outcome.ok h2
        ∧ ids.length = ([("c1", "A"), ("c2", "B"), ("c3", "C")] : List (QString × QString)).length
        ∧ h2.m_mqttClient.m_socket.written
            = (MqttMessageHandler.new MqttClient.new).m_mqttClient.m_socket.written
              ++ List.zipWith (fun id topic => MqttClient.subscribePacket stdQt id topic 0) ids
                  (([("c1", "A"), ("c2", "B"), ("c3", "C")] : List (QString × QString)).map Prod.snd)
        ∧ ∀ topic ∈ ([("c1", "A"), ("c2", "B"), ("c3", "C")] : List (QString × QString)).map Prod.snd,
            (([("c1", "A"), ("c2", "B"), ("c3", "C")] : List (QString × QString)).map
              Prod.snd).count topic = 1 :=
  C3_resubscription_on_first_connect stdQt none (MqttMessageHandler.new MqttClient.new)
    [("c1", "A"), ("c2", "B"), ("c3", "C")] (by decide) rfl rfl rfl (by decide) (by decide)

example :
    ∃ h2, MqttClient.onReadyRead stdQt none
        (([("c2", "B"), ("c3", "C"), ("c1", "A")] : List (QString × QString)).foldl
          (fun h b => MqttMessageHandler.subscribeToThread stdQt h b.1 b.2)
          (MqttMessageHandler.new MqttClient.new))
        [0x20, 0x02, 0x00, 0x00] = Outcome.ok h2
      ∧ h2.m_mqttClient.m_socket.written
        = [[0x82, 6, 0, 1, 0, 1, 0x42, 0], [0x82, 6, 0, 2, 0, 1, 0x43, 0],
           [0x82, 6, 0, 3, 0, 1, 0x41, 0]] :=
  ⟨_, rfl, by decide⟩


/-! ## C4: replay on a reconnect -/

/-- C4 fails on the code. The client connects to the broker, conversation "c1" is bound to topic
"A" before the ConnectAck arrives, and the first ConnectAck writes one Subscribe frame for "A"
(message id 1); `subscribe` thereby records "A" in the client's `m_subscriptions`. The transport
then closes, the reconnect timer fires, the delayed reconnect runs and the socket is up again.
The second ConnectAck writes two Subscribe frames for "A" in the one transition into CONNECTED:
message id 2 from the replay of `m_subscriptions` in `onReadyRead`, message id 3 from the replay
of `m_threadTopics` in `onMqttConnected`. -/
theorem C4_reconnect_replays_topic_twice :
    ∃ a1 a2 a3 a4 a5 a6 a7 a8 : MqttMessageHandler,
      a1 = MqttMessageHandler.subscribeToThread stdQt
            ((MqttMessageHandler.new MqttClient.new).onClient
              (fun c => c.connectToHost "broker.test" 1883 "user" "pw" "u1/HTTP/abc"))
            "c1" "A"
      ∧ a2 = a1.onClient (MqttClient.socketConnected stdQt)
      ∧ MqttClient.onReadyRead stdQt none a2 [0x20, 0x02, 0x00, 0x00] = Outcome.ok a3
      ∧ a3.m_mqttClient.m_socket.written
          = a2.m_mqttClient.m_socket.written ++ [MqttClient.subscribePacket stdQt 1 "A" 0]
      ∧ a3.m_mqttClient.m_subscriptions = [("A", 0)]
      ∧ a3.m_threadTopics = [("c1", "A")]
      ∧ a4 = a3.onClient MqttClient.socketDisconnected
      ∧ a5 = a4.onClient MqttClient.reconnect
      ∧ a6 = a5.onClient MqttClient.reconnectShot
      ∧ a7 = a6.onClient (MqttClient.socketConnected stdQt)
      ∧ a7.m_mqttClient.m_state = MqttConnectionState.RECONNECTING
      ∧ MqttClient.onReadyRead stdQt none a7 [0x20, 0x02, 0x00, 0x00] = Outcome.ok a8
      ∧ a8.m_mqttClient.m_state = MqttConnectionState.CONNECTED
      ∧ a8.m_mqttClient.m_socket.written
          = a7.m_mqttClient.m_socket.written
            ++ [MqttClient.subscribePacket stdQt 2 "A" 0, MqttClient.subscribePacket stdQt 3 "A" 0] :=
  ⟨_, _, _, _, _, _, _, _, rfl, rfl, rfl, by decide, by decide, by decide, rfl, rfl, rfl, rfl,
    by decide, rfl, by decide, by decide⟩

/-! ## C5: the two registry maps -/

/-- C5 fails on the code. Rebinding conversation "c1" from topic "t1" to topic "t2" leaves the
entry "t1" -> "c1" in `m_topicThreads`, and binding topic "t" to "c2" after "c1" leaves the entry
"c1" -> "t" in `m_threadTopics` while `m_topicThreads` maps "t" to "c2": in both registries, reached
from the empty one by two `subscribeToThread` calls, the maps are not mutual inverses. -/
theorem C5_registry_not_inverse_after_rebinding :
    (MqttMessageHandler.subscribeToThread stdQt
        (MqttMessageHandler.subscribeToThread stdQt (MqttMessageHandler.new MqttClient.new)
          "c1" "t1") "c1" "t2").m_threadTopics = [("c1", "t2")]
    ∧ (MqttMessageHandler.subscribeToThread stdQt
        (MqttMessageHandler.subscribeToThread stdQt (MqttMessageHandler.new MqttClient.new)
          "c1" "t1") "c1" "t2").m_topicThreads = [("t1", "c1"), ("t2", "c1")]
    ∧ ¬ (MqttMessageHandler.subscribeToThread stdQt
        (MqttMessageHandler.subscribeToThread stdQt (MqttMessageHandler.new MqttClient.new)
          "c1" "t1") "c1" "t2").RegistryInverse
    ∧ (MqttMessageHandler.subscribeToThread stdQt
        (MqttMessageHandler.subscribeToThread stdQt (MqttMessageHandler.new MqttClient.new)
          "c1" "t") "c2" "t").m_threadTopics = [("c1", "t"), ("c2", "t")]
    ∧ (MqttMessageHandler.subscribeToThread stdQt
        (MqttMessageHandler.subscribeToThread stdQt (MqttMessageHandler.new MqttClient.new)
          "c1" "t") "c2" "t").m_topicThreads = [("t", "c2")]
    ∧ ¬ (MqttMessageHandler.subscribeToThread stdQt
        (MqttMessageHandler.subscribeToThread stdQt (MqttMessageHandler.new MqttClient.new)
          "c1" "t") "c2" "t").RegistryInverse := by
  refine ⟨by decide, by decide, ?_, by decide, by decide, ?_⟩
  · intro hinv
    have := (hinv "c1" "t1").2 (by decide)
    exact absurd this (by decide)
  · intro hinv
    have := (hinv "c1" "t").1 (by decide)
    exact absurd this (by decide)


/-! ## C6: inbound receipts -/

/-- C6 fails on the code. Two inbound READ messages (uids "r1" and "r2") that both reference
message "m1" on conversation "conv1", handled in succession, emit `readReceiptReceived` twice, and
two inbound DELIVERED messages emit `deliveredReceiptReceived` twice: `handleReceiptMessage` never
consults `m_sentReadUids` or `m_sentDeliveredUids`, which stay empty. -/
theorem C6_inbound_receipt_emitted_twice :
    (MqttMessageHandler.onMqttMessageReceived stdQt none
        (MqttMessageHandler.onMqttMessageReceived stdQt none
          (MqttMessageHandler.new MqttClient.new) "org/workgroup/55"
          (stdQt.toUtf8 "\x7b\"uid\":\"r1\",\"type\":\"READ\",\"content\":\x7b\"text\":\"m1\"\x7d,\"threadUid\":\"conv1\"\x7d"))
        "org/workgroup/55"
        (stdQt.toUtf8 "\x7b\"uid\":\"r2\",\"type\":\"READ\",\"content\":\x7b\"text\":\"m1\"\x7d,\"threadUid\":\"conv1\"\x7d")).emitted
      = [HandlerSignal.readReceiptReceived "conv1" "\x7b\"text\":\"m1\"\x7d",
         HandlerSignal.readReceiptReceived "conv1" "\x7b\"text\":\"m1\"\x7d"]
    ∧ (MqttMessageHandler.onMqttMessageReceived stdQt none
        (MqttMessageHandler.onMqttMessageReceived stdQt none
          (MqttMessageHandler.new MqttClient.new) "org/workgroup/55"
          (stdQt.toUtf8 "\x7b\"uid\":\"d1\",\"type\":\"DELIVERED\",\"content\":\x7b\"text\":\"m1\"\x7d,\"threadUid\":\"conv1\"\x7d"))
        "org/workgroup/55"
        (stdQt.toUtf8 "\x7b\"uid\":\"d2\",\"type\":\"DELIVERED\",\"content\":\x7b\"text\":\"m1\"\x7d,\"threadUid\":\"conv1\"\x7d")).emitted
      = [HandlerSignal.deliveredReceiptReceived "conv1" "\x7b\"text\":\"m1\"\x7d",
         HandlerSignal.deliveredReceiptReceived "conv1" "\x7b\"text\":\"m1\"\x7d"]
    ∧ (MqttMessageHandler.onMqttMessageReceived stdQt none
        (MqttMessageHandler.onMqttMessageReceived stdQt none
          (MqttMessageHandler.new MqttClient.new) "org/workgroup/55"
          (stdQt.toUtf8 "\x7b\"uid\":\"r1\",\"type\":\"READ\",\"content\":\x7b\"text\":\"m1\"\x7d,\"threadUid\":\"conv1\"\x7d"))
        "org/workgroup/55"
        (stdQt.toUtf8 "\x7b\"uid\":\"r2\",\"type\":\"READ\",\"content\":\x7b\"text\":\"m1\"\x7d,\"threadUid\":\"conv1\"\x7d")).m_sentReadUids
      = [] := by
  decide

/-! ## C7: outbound read receipts -/

theorem QSet.contains_insert {α : Type} [DecidableEq α] (s : QSet α) (a : α) :
    QSet.contains (QSet.insert s a) a = true := by
  unfold QSet.contains QSet.insert
  split <;> simp_all

theorem MqttMessageHandler.addToSentMessages_client (h : MqttMessageHandler) (uid : QString) :
    (h.addToSentMessages uid).m_mqttClient = h.m_mqttClient := by
  unfold MqttMessageHandler.addToSentMessages
  simp only []
  split <;> split <;> rfl

theorem MqttMessageHandler.addToSentMessages_read (h : MqttMessageHandler) (uid : QString) :
    QSet.contains (h.addToSentMessages uid).m_sentReadUids uid = true := by
  unfold MqttMessageHandler.addToSentMessages
  simp only []
  split <;> split <;> exact QSet.contains_insert _ _

theorem MqttMessageHandler.addToSentMessages_delivered (h : MqttMessageHandler) (uid : QString) :
    QSet.contains (h.addToSentMessages uid).m_sentDeliveredUids uid = true := by
  unfold MqttMessageHandler.addToSentMessages
  simp only []
  split <;> split <;> exact QSet.contains_insert _ _

theorem MqttClient.publish_connected (qt : QtLib) (c : MqttClient) (topic : QString)
    (payload : QByteArray) (retain : Bool) (hc : c.m_state = MqttConnectionState.CONNECTED) :
    (c.publish qt topic payload 0 retain).m_socket.written
      = c.m_socket.written ++ [MqttClient.publishPacket qt 0 topic payload 0 retain] := by
  simp [MqttClient.publish, MqttClient.isConnected, hc, MqttClient.sendMqttPublish, QTcpSocket.write]

/-- While the client is CONNECTED and the thread has a non-empty topic, the first
`sendReadReceipt` for a message uid that is not yet in `m_sentReadUids` writes exactly one Publish
frame (qos 0, not retained) to the thread's topic, and a second `sendReadReceipt` for the same uid
returns the handler unchanged: nothing is composed, published or recorded. -/
theorem MqttMessageHandler.sendReadReceipt_twice_fresh (qt : QtLib) (h : MqttMessageHandler)
    (thread : Thread)
    (user : User) (messageUid uid1 uid2 : QString) (now1 now2 : QDateTime)
    (hc : h.m_mqttClient.m_state = MqttConnectionState.CONNECTED)
    (ht : thread.m_topic ≠ "")
    (hfresh : messageUid ∉ h.m_sentReadUids) :
    (∃ data : QByteArray,
      (MqttMessageHandler.sendReadReceipt qt h (some thread) messageUid (some user) uid1
          now1).m_mqttClient.m_socket.written
        = h.m_mqttClient.m_socket.written
          ++ [MqttClient.publishPacket qt 0 thread.m_topic data 0 false])
    ∧ MqttMessageHandler.sendReadReceipt qt
        (MqttMessageHandler.sendReadReceipt qt h (some thread) messageUid (some user) uid1 now1)
        (some thread) messageUid (some user) uid2 now2
      = MqttMessageHandler.sendReadReceipt qt h (some thread) messageUid (some user) uid1 now1 := by
  have hnc : QSet.contains h.m_sentReadUids messageUid = false := by
    simp [QSet.contains, hfresh]
  have hc1 : (h.addToSentMessages messageUid).m_mqttClient.m_state
      = MqttConnectionState.CONNECTED := by
    rw [MqttMessageHandler.addToSentMessages_client]
    exact hc
  have hcond : ((h.addToSentMessages messageUid).m_mqttClient.isConnected
      && decide (thread.m_topic ≠ "")) = true := by
    simp [MqttClient.isConnected, hc1, ht]
  constructor
  · unfold MqttMessageHandler.sendReadReceipt
    simp only []
    rw [if_neg (by simp [hnc]), if_pos hcond]
    apply Exists.intro
    simp only []
    rw [MqttClient.publish_connected _ _ _ _ _ hc1, MqttMessageHandler.addToSentMessages_client]
  · have hin : QSet.contains (MqttMessageHandler.sendReadReceipt qt h (some thread) messageUid
        (some user) uid1 now1).m_sentReadUids messageUid = true := by
      unfold MqttMessageHandler.sendReadReceipt
      simp only []
      rw [if_neg (by simp [hnc]), if_pos hcond]
      exact MqttMessageHandler.addToSentMessages_read h messageUid
    generalize MqttMessageHandler.sendReadReceipt qt h (some thread) messageUid (some user) uid1
      now1 = h1 at hin ⊢
    unfold MqttMessageHandler.sendReadReceipt
    simp only []
    rw [if_pos hin]

/-- C7 fails on the code. On a connected handler with both sets empty and a thread with a
non-empty topic, `sendDeliveredReceipt` for "m1" publishes one frame and, through
`addToSentMessages`, puts "m1" into `m_sentReadUids` as well. The client is still CONNECTED, and
the two calls of `sendReadReceipt` for "m1" that follow both return the handler unchanged: they
perform no publish at all, where the claim counts exactly one. On the handler before the delivered
receipt the same two calls perform one publish. -/
theorem C7_read_receipts_lost_after_delivered_receipt :
    (MqttMessageHandler.sendDeliveredReceipt stdQt
        (MqttClient.onConnack stdQt none (MqttMessageHandler.new MqttClient.new))
        (some { m_uid := "conv1", m_topic := "org/workgroup/55" }) "m1"
        (some { m_uid := "u1", m_nickname := "Ann", m_avatar := "" }) "uid-0"
        none).m_mqttClient.m_state = MqttConnectionState.CONNECTED
    ∧ (MqttMessageHandler.sendDeliveredReceipt stdQt
        (MqttClient.onConnack stdQt none (MqttMessageHandler.new MqttClient.new))
        (some { m_uid := "conv1", m_topic := "org/workgroup/55" }) "m1"
        (some { m_uid := "u1", m_nickname := "Ann", m_avatar := "" }) "uid-0"
        none).m_mqttClient.m_socket.written.length = 1
    ∧ (MqttMessageHandler.sendDeliveredReceipt stdQt
        (MqttClient.onConnack stdQt none (MqttMessageHandler.new MqttClient.new))
        (some { m_uid := "conv1", m_topic := "org/workgroup/55" }) "m1"
        (some { m_uid := "u1", m_nickname := "Ann", m_avatar := "" }) "uid-0"
        none).m_sentReadUids = ["m1"]
    ∧ (MqttMessageHandler.sendReadReceipt stdQt
        (MqttMessageHandler.sendReadReceipt stdQt
          (MqttMessageHandler.sendDeliveredReceipt stdQt
            (MqttClient.onConnack stdQt none (MqttMessageHandler.new MqttClient.new))
            (some { m_uid := "conv1", m_topic := "org/workgroup/55" }) "m1"
            (some { m_uid := "u1", m_nickname := "Ann", m_avatar := "" }) "uid-0" none)
          (some { m_uid := "conv1", m_topic := "org/workgroup/55" }) "m1"
          (some { m_uid := "u1", m_nickname := "Ann", m_avatar := "" }) "uid-1" none)
        (some { m_uid := "conv1", m_topic := "org/workgroup/55" }) "m1"
        (some { m_uid := "u1", m_nickname := "Ann", m_avatar := "" }) "uid-2"
        none).m_mqttClient.m_socket.written
      = (MqttMessageHandler.sendDeliveredReceipt stdQt
          (MqttClient.onConnack stdQt none (MqttMessageHandler.new MqttClient.new))
          (some { m_uid := "conv1", m_topic := "org/workgroup/55" }) "m1"
          (some { m_uid := "u1", m_nickname := "Ann", m_avatar := "" }) "uid-0"
          none).m_mqttClient.m_socket.written
    ∧ (MqttMessageHandler.sendReadReceipt stdQt
        (MqttMessageHandler.sendReadReceipt stdQt
          (MqttClient.onConnack stdQt none (MqttMessageHandler.new MqttClient.new))
          (some { m_uid := "conv1", m_topic := "org/workgroup/55" }) "m1"
          (some { m_uid := "u1", m_nickname := "Ann", m_avatar := "" }) "uid-1" none)
        (some { m_uid := "conv1", m_topic := "org/workgroup/55" }) "m1"
        (some { m_uid := "u1", m_nickname := "Ann", m_avatar := "" }) "uid-2"
        none).m_mqttClient.m_socket.written.length = 1 := by
  decide

/-! ## C8: the two dedup sets -/

/-- C8 fails on the code. On a connected handler with both sets empty, `sendReadReceipt` for "m1"
puts "m1" into `m_sentDeliveredUids` as well (`addToSentMessages` inserts into both sets), so the
`sendDeliveredReceipt` for "m1" that follows returns the handler unchanged and publishes nothing,
although no delivered receipt was ever sent for "m1"; on the handler before the read receipt the
same call publishes one frame. The same holds with the roles of the two receipts exchanged. -/
theorem C8_read_receipt_suppresses_delivered_receipt :
    (MqttMessageHandler.sendReadReceipt stdQt
        (MqttClient.onConnack stdQt none (MqttMessageHandler.new MqttClient.new))
        (some { m_uid := "conv1", m_topic := "org/workgroup/55" }) "m1"
        (some { m_uid := "u1", m_nickname := "Ann", m_avatar := "" }) "uid-1"
        none).m_sentDeliveredUids = ["m1"]
    ∧ MqttMessageHandler.sendDeliveredReceipt stdQt
        (MqttMessageHandler.sendReadReceipt stdQt
          (MqttClient.onConnack stdQt none (MqttMessageHandler.new MqttClient.new))
          (some { m_uid := "conv1", m_topic := "org/workgroup/55" }) "m1"
          (some { m_uid := "u1", m_nickname := "Ann", m_avatar := "" }) "uid-1" none)
        (some { m_uid := "conv1", m_topic := "org/workgroup/55" }) "m1"
        (some { m_uid := "u1", m_nickname := "Ann", m_avatar := "" }) "uid-2" none
      = MqttMessageHandler.sendReadReceipt stdQt
          (MqttClient.onConnack stdQt none (MqttMessageHandler.new MqttClient.new))
          (some { m_uid := "conv1", m_topic := "org/workgroup/55" }) "m1"
          (some { m_uid := "u1", m_nickname := "Ann", m_avatar := "" }) "uid-1" none
    ∧ (MqttMessageHandler.sendDeliveredReceipt stdQt
        (MqttClient.onConnack stdQt none (MqttMessageHandler.new MqttClient.new))
        (some { m_uid := "conv1", m_topic := "org/workgroup/55" }) "m1"
        (some { m_uid := "u1", m_nickname := "Ann", m_avatar := "" }) "uid-2"
        none).m_mqttClient.m_socket.written.length = 1
    ∧ MqttMessageHandler.sendReadReceipt stdQt
        (MqttMessageHandler.sendDeliveredReceipt stdQt
          (MqttClient.onConnack stdQt none (MqttMessageHandler.new MqttClient.new))
          (some { m_uid := "conv1", m_topic := "org/workgroup/55" }) "m1"
          (some { m_uid := "u1", m_nickname := "Ann", m_avatar := "" }) "uid-1" none)
        (some { m_uid := "conv1", m_topic := "org/workgroup/55" }) "m1"
        (some { m_uid := "u1", m_nickname := "Ann", m_avatar := "" }) "uid-2" none
      = MqttMessageHandler.sendDeliveredReceipt stdQt
          (MqttClient.onConnack stdQt none (MqttMessageHandler.new MqttClient.new))
          (some { m_uid := "conv1", m_topic := "org/workgroup/55" }) "m1"
          (some { m_uid := "u1", m_nickname := "Ann", m_avatar := "" }) "uid-1" none := by
  decide

/-! ## C9: the status of a message that could not be sent -/

/-- C9 fails on the code for image and file messages. On a handler whose client is DISCONNECTED,
with a valid thread (topic "org/workgroup/55") and user, `sendImageMessage` and `sendFileMessage`
write nothing and hand over a message whose status is still SENDING, not FAILED; the same happens
on a connected client when the thread's topic is empty. `sendTextMessage` on the same inputs sets
FAILED. -/
theorem C9_image_and_file_stay_sending :
    (MqttMessageHandler.sendImageMessage stdQt (MqttMessageHandler.new MqttClient.new)
        (some { m_uid := "conv1", m_topic := "org/workgroup/55" }) "http://host/a.png"
        (some { m_uid := "u1", m_nickname := "Ann", m_avatar := "" }) "uid-1"
        none).emitted.map HandlerSignal.messageStatus = [some MessageStatus.SENDING]
    ∧ (MqttMessageHandler.sendImageMessage stdQt (MqttMessageHandler.new MqttClient.new)
        (some { m_uid := "conv1", m_topic := "org/workgroup/55" }) "http://host/a.png"
        (some { m_uid := "u1", m_nickname := "Ann", m_avatar := "" }) "uid-1"
        none).m_mqttClient.m_socket.written = []
    ∧ (MqttMessageHandler.sendFileMessage stdQt (MqttMessageHandler.new MqttClient.new)
        (some { m_uid := "conv1", m_topic := "org/workgroup/55" }) "http://host/a.pdf" "a.pdf" 1024
        (some { m_uid := "u1", m_nickname := "Ann", m_avatar := "" }) "uid-1"
        none).emitted.map HandlerSignal.messageStatus = [some MessageStatus.SENDING]
    ∧ (MqttMessageHandler.sendFileMessage stdQt (MqttMessageHandler.new MqttClient.new)
        (some { m_uid := "conv1", m_topic := "org/workgroup/55" }) "http://host/a.pdf" "a.pdf" 1024
        (some { m_uid := "u1", m_nickname := "Ann", m_avatar := "" }) "uid-1"
        none).m_mqttClient.m_socket.written = []
    ∧ (MqttMessageHandler.sendImageMessage stdQt
        (MqttClient.onConnack stdQt none (MqttMessageHandler.new MqttClient.new))
        (some { m_uid := "conv1", m_topic := "" }) "http://host/a.png"
        (some { m_uid := "u1", m_nickname := "Ann", m_avatar := "" }) "uid-1"
        none).emitted.map HandlerSignal.messageStatus = [some MessageStatus.SENDING]
    ∧ (MqttMessageHandler.sendTextMessage stdQt (MqttMessageHandler.new MqttClient.new)
        (some { m_uid := "conv1", m_topic := "org/workgroup/55" }) "hi"
        (some { m_uid := "u1", m_nickname := "Ann", m_avatar := "" }) "uid-1"
        none).emitted.map HandlerSignal.messageStatus = [some MessageStatus.FAILED] := by
  decide

/-! ## C10: publish while not connected -/

/-- C10: in every state other than CONNECTED, `publish` returns the client unchanged; in
particular it writes nothing to the socket and leaves the connection state, the message-id counter
and the subscription table as they were. -/
theorem C10_publish_not_connected (qt : QtLib) (c : MqttClient) (topic : QString)
    (payload : QByteArray) (qos : Nat) (retain : Bool)
    (hs : c.m_state ≠ MqttConnectionState.CONNECTED) :
    c.publish qt topic payload qos retain = c
    ∧ (c.publish qt topic payload qos retain).m_socket.written = c.m_socket.written
    ∧ (c.publish qt topic payload qos retain).m_state = c.m_state
    ∧ (c.publish qt topic payload qos retain).m_messageId = c.m_messageId
    ∧ (c.publish qt topic payload qos retain).m_subscriptions = c.m_subscriptions := by
  have h : c.publish qt topic payload qos retain = c := by
    simp [MqttClient.publish, MqttClient.isConnected, hs]
  rw [h]
  exact ⟨rfl, rfl, rfl, rfl, rfl⟩

theorem C10_publish_not_connected_witness :
    MqttClient.new.m_state = MqttConnectionState.DISCONNECTED
    ∧ MqttClient.new.publish stdQt "t1" [104, 101, 108, 108, 111] 0 false = MqttClient.new
    ∧ (MqttClient.new.publish stdQt "t1" [104, 101, 108, 108, 111] 0 false).m_socket.written = [] :=
  ⟨rfl,
   (C10_publish_not_connected stdQt MqttClient.new "t1" [104, 101, 108, 108, 111] 0 false
      (by decide)).1,
   (C10_publish_not_connected stdQt MqttClient.new "t1" [104, 101, 108, 108, 111] 0 false
      (by decide)).2.1⟩


/-! ## The read loop never runs out of fuel -/

/-- A dispatched frame either fails on an out-of-range index or returns with the read buffer as
it was. -/
theorem MqttClient.dispatchFrame_buffer (qt : QtLib) (now : QDateTime) (h : MqttMessageHandler)
    (messageType : Nat) (payload : QByteArray) :
    MqttClient.dispatchFrame qt now h messageType payload = Outcome.outOfRange
    ∨ ∃ h', MqttClient.dispatchFrame qt now h messageType payload = Outcome.ok h'
        ∧ h'.m_mqttClient.m_readBuffer = h.m_mqttClient.m_readBuffer := by
  unfold MqttClient.dispatchFrame
  simp only []
  split
  · exact Or.inr ⟨_, rfl, MqttClient.onConnack_readBuffer qt now h⟩
  · split
    · unfold MqttClient.onPublish
      split
      · exact Or.inr ⟨_, rfl, MqttClient.deliverPublish_buffer _ _ _ _ _⟩
      · exact Or.inl rfl
    · split
      · exact Or.inr ⟨_, rfl, rfl⟩
      · exact Or.inr ⟨_, rfl, rfl⟩

theorem MqttClient.readLoop_fuel (qt : QtLib) (now : QDateTime) (fuel : Nat) :
    ∀ h : MqttMessageHandler, h.m_mqttClient.m_readBuffer.length ≤ fuel + 1 →
      MqttClient.readLoop qt now fuel h ≠ Outcome.outOfFuel := by
  induction fuel with
  | zero =>
    intro h hlen
    rw [MqttClient.readLoop_short qt now 0 h (by omega)]
    exact fun hc => Outcome.noConfusion hc
  | succ n ih =>
    intro h hlen
    by_cases h2 : h.m_mqttClient.m_readBuffer.length ≥ 2
    · by_cases h3 : h.m_mqttClient.m_readBuffer.length
          < 2 + toChar (h.m_mqttClient.m_readBuffer.getD 1 0)
      · simp only [MqttClient.readLoop, h2, if_true, h3]
        exact fun hc => Outcome.noConfusion hc
      · simp only [MqttClient.readLoop, h2, if_true, h3, if_false]
        rcases MqttClient.dispatchFrame_buffer qt now
            (MqttClient.consumeFrame h (toChar (h.m_mqttClient.m_readBuffer.getD 1 0)))
            (toChar (h.m_mqttClient.m_readBuffer.getD 0 0))
            (QByteArray.mid h.m_mqttClient.m_readBuffer 2
              (toChar (h.m_mqttClient.m_readBuffer.getD 1 0))) with hd | ⟨h', hd, hb⟩
        · rw [hd]
          exact fun hc => Outcome.noConfusion hc
        · rw [hd]
          apply ih
          rw [hb, MqttClient.consumeFrame_buffer, List.length_drop]
          omega
    · rw [MqttClient.readLoop_short qt now _ h (by omega)]
      exact fun hc => Outcome.noConfusion hc

/-- The slot `onReadyRead` returns, or stops at an out-of-range index, on every input: the fuel
it gives the loop is never used up. -/
theorem MqttClient.onReadyRead_fuel (qt : QtLib) (now : QDateTime) (h : MqttMessageHandler)
    (bytes : QByteArray) :
    MqttClient.onReadyRead qt now h bytes ≠ Outcome.outOfFuel := by
  unfold MqttClient.onReadyRead
  exact MqttClient.readLoop_fuel qt now _ _ (Nat.le_succ _)

/-! ## The variable-byte integer of the specification -/

theorem specRemainingLength_roundtrip (x : Nat) (hx : x ≤ 268435455) (rest : List Nat) :
    specDecodeRemainingLength (specEncodeRemainingLength x ++ rest) = some (x, rest) := by
  have hm : ∀ y : Nat, y % 128 < 128 := fun y => Nat.mod_lt _ (by norm_num)
  have hge : ∀ y : Nat, ¬ (y % 128 + 128 < 128) := fun y => by omega
  have hmm : ∀ y : Nat, (y % 128 + 128) % 128 = y % 128 := fun y => by omega
  unfold specDecodeRemainingLength specEncodeRemainingLength
  by_cases h1 : x / 128 > 0
  · by_cases h2 : x / 128 / 128 > 0
    · by_cases h3 : x / 128 / 128 / 128 > 0
      · have h4 : ¬ x / 128 / 128 / 128 / 128 > 0 := by omega
        simp [specEncodeGroups, specDecodeGroups, h1, h2, h3, h4, hm, hge, hmm]
        omega
      · simp [specEncodeGroups, specDecodeGroups, h1, h2, h3, hm, hge, hmm]
        omega
    · simp [specEncodeGroups, specDecodeGroups, h1, h2, hm, hge, hmm]
      omega
  · simp [specEncodeGroups, specDecodeGroups, h1, hm]
    omega


/-! ## C12: the connect timeout -/

/-- C12 fails on the code. After `connectToHost` on a new client the state is CONNECTING and the
manual flag is clear. When the connect-timeout timer fires, `onConnectTimeout` sets ERROR, then
calls `disconnectFromHost()`, which sets the manual flag and the state DISCONNECTED, so the
`scheduleReconnect()` that follows does nothing: the step ends in DISCONNECTED with the manual
flag set and the reconnect timer not running. A transport error in the same state ends in ERROR
with the manual flag clear and the reconnect timer running. -/
theorem C12_connect_timeout_schedules_nothing :
    (MqttClient.new.connectToHost "broker.test" 1883 "user" "pw" "u1/HTTP/abc").m_state
      = MqttConnectionState.CONNECTING
    ∧ (MqttClient.new.connectToHost "broker.test" 1883 "user" "pw"
        "u1/HTTP/abc").m_manualDisconnect = false
    ∧ ((MqttClient.new.connectToHost "broker.test" 1883 "user" "pw"
        "u1/HTTP/abc").onConnectTimeout).m_state = MqttConnectionState.DISCONNECTED
    ∧ ((MqttClient.new.connectToHost "broker.test" 1883 "user" "pw"
        "u1/HTTP/abc").onConnectTimeout).m_manualDisconnect = true
    ∧ ((MqttClient.new.connectToHost "broker.test" 1883 "user" "pw"
        "u1/HTTP/abc").onConnectTimeout).m_reconnectTimer.active = false
    ∧ ((MqttClient.new.connectToHost "broker.test" 1883 "user" "pw"
        "u1/HTTP/abc").onError "Connection refused").m_state = MqttConnectionState.ERROR
    ∧ ((MqttClient.new.connectToHost "broker.test" 1883 "user" "pw"
        "u1/HTTP/abc").onError "Connection refused").m_manualDisconnect = false
    ∧ ((MqttClient.new.connectToHost "broker.test" 1883 "user" "pw"
        "u1/HTTP/abc").onError "Connection refused").m_reconnectTimer.active = true := by
  decide

/-! ## C13: manual disconnect -/

theorem MqttClient.setState_manualDisconnect (c : MqttClient) (s : MqttConnectionState) :
    (c.setState s).m_manualDisconnect = c.m_manualDisconnect := by
  unfold MqttClient.setState
  split <;> rfl

theorem MqttClient.setState_reconnectTimer (c : MqttClient) (s : MqttConnectionState) :
    (c.setState s).m_reconnectTimer = c.m_reconnectTimer := by
  unfold MqttClient.setState
  split <;> rfl

theorem MqttClient.setState_keepAliveTimer (c : MqttClient) (s : MqttConnectionState) :
    (c.setState s).m_keepAliveTimer = c.m_keepAliveTimer := by
  unfold MqttClient.setState
  split <;> rfl

theorem MqttClient.setState_connectTimeoutTimer (c : MqttClient) (s : MqttConnectionState) :
    (c.setState s).m_connectTimeoutTimer = c.m_connectTimeoutTimer := by
  unfold MqttClient.setState
  split <;> rfl

/-- A socket-closed or socket-error event on a client whose manual flag is set changes neither
the state, nor the manual flag, nor the reconnect timer. -/
theorem SocketFault.handle_manual (c : MqttClient) (f : SocketFault)
    (hm : c.m_manualDisconnect = true) :
    (f.handle c).m_state = c.m_state
    ∧ (f.handle c).m_manualDisconnect = true
    ∧ (f.handle c).m_reconnectTimer = c.m_reconnectTimer := by
  cases f with
  | closed =>
    simp only [SocketFault.handle, MqttClient.onDisconnected, hm, Bool.not_true, Bool.false_eq_true,
      if_false, MqttClient.emit]
    split <;> exact ⟨rfl, rfl, rfl⟩
  | error errorString =>
    simp only [SocketFault.handle, MqttClient.onError, hm, Bool.not_true, Bool.false_eq_true,
      if_false, MqttClient.emit]
    split <;> exact ⟨rfl, rfl, rfl⟩

theorem SocketFault.foldl_handle_manual (faults : List SocketFault) (c : MqttClient)
    (hm : c.m_manualDisconnect = true) :
    (faults.foldl SocketFault.handle c).m_state = c.m_state
    ∧ (faults.foldl SocketFault.handle c).m_manualDisconnect = true
    ∧ (faults.foldl SocketFault.handle c).m_reconnectTimer = c.m_reconnectTimer := by
  induction faults generalizing c with
  | nil => exact ⟨rfl, hm, rfl⟩
  | cons f fs ih =>
    obtain ⟨h1, h2, h3⟩ := SocketFault.handle_manual c f hm
    obtain ⟨g1, g2, g3⟩ := ih (f.handle c) h2
    rw [List.foldl_cons]
    exact ⟨g1.trans h1, g2, g3.trans h3⟩

/-- C13: from every state of the client, `disconnectFromHost()` ends with state DISCONNECTED, the
manual flag set and the keep-alive, reconnect and connect-timeout timers stopped; it writes the
two bytes E0 00 when the socket is in `ConnectedState` and writes nothing otherwise; and after any
run of socket-closed and socket-error events handled afterwards the state is still DISCONNECTED
and the reconnect timer is still stopped. -/
theorem C13_manual_disconnect (c : MqttClient) (faults : List SocketFault) :
    c.disconnectFromHost.m_state = MqttConnectionState.DISCONNECTED
    ∧ c.disconnectFromHost.m_manualDisconnect = true
    ∧ c.disconnectFromHost.m_keepAliveTimer.active = false
    ∧ c.disconnectFromHost.m_reconnectTimer.active = false
    ∧ c.disconnectFromHost.m_connectTimeoutTimer.active = false
    ∧ c.disconnectFromHost.m_socket.written
        = (if c.m_socket.state = SocketState.ConnectedState then
            c.m_socket.written ++ [[0xE0, 0x00]] else c.m_socket.written)
    ∧ (faults.foldl SocketFault.handle c.disconnectFromHost).m_state
        = MqttConnectionState.DISCONNECTED
    ∧ (faults.foldl SocketFault.handle c.disconnectFromHost).m_reconnectTimer.active = false := by
  have hs : c.disconnectFromHost.m_state = MqttConnectionState.DISCONNECTED := by
    unfold MqttClient.disconnectFromHost
    exact MqttClient.setState_state _ _
  have hm : c.disconnectFromHost.m_manualDisconnect = true := by
    unfold MqttClient.disconnectFromHost
    simp only [MqttClient.setState_manualDisconnect]
    split <;> rfl
  have hr : c.disconnectFromHost.m_reconnectTimer.active = false := by
    unfold MqttClient.disconnectFromHost
    simp only [MqttClient.setState_reconnectTimer]
    split <;> rfl
  obtain ⟨g1, _, g3⟩ := SocketFault.foldl_handle_manual faults c.disconnectFromHost hm
  refine ⟨hs, hm, ?_, hr, ?_, ?_, g1.trans hs, by rw [g3]; exact hr⟩
  · unfold MqttClient.disconnectFromHost
    simp only [MqttClient.setState_keepAliveTimer]
    split <;> rfl
  · unfold MqttClient.disconnectFromHost
    simp only [MqttClient.setState_connectTimeoutTimer]
    split <;> rfl
  · unfold MqttClient.disconnectFromHost
    simp only [MqttClient.setState_written]
    split <;> rfl

/-! ## C20: length-prefixed strings -/

/-- C20: for every string whose UTF-8 encoding has length n at most 65535, `encodeString` returns
the bytes n div 256 and n mod 256 followed by the n UTF-8 bytes, so the result has length n + 2
and its first two bytes, read as a big-endian integer, give n. -/
theorem C20_encodeString (qt : QtLib) (s : QString) (hn : (qt.toUtf8 s).length ≤ 65535) :
    MqttClient.encodeString qt s
      = [(qt.toUtf8 s).length / 256, (qt.toUtf8 s).length % 256] ++ qt.toUtf8 s
    ∧ (MqttClient.encodeString qt s).length = (qt.toUtf8 s).length + 2
    ∧ (MqttClient.encodeString qt s).getD 0 0 * 256 + (MqttClient.encodeString qt s).getD 1 0
        = (qt.toUtf8 s).length := by
  have h1 : (qt.toUtf8 s).length >>> 8 = (qt.toUtf8 s).length / 256 := by
    rw [Nat.shiftRight_eq_div_pow]
  have h2 : toChar ((qt.toUtf8 s).length / 256) = (qt.toUtf8 s).length / 256 :=
    Nat.mod_eq_of_lt (by omega)
  have h3 : toChar ((qt.toUtf8 s).length &&& 0xFF) = (qt.toUtf8 s).length % 256 := by
    rw [and_0xFF, toChar, Nat.mod_mod]
  have he : MqttClient.encodeString qt s
      = [(qt.toUtf8 s).length / 256, (qt.toUtf8 s).length % 256] ++ qt.toUtf8 s := by
    unfold MqttClient.encodeString
    simp only []
    rw [h1, h2, h3]
  rw [he]
  refine ⟨rfl, by simp, ?_⟩
  simp
  omega

theorem C20_encodeString_witness :
    MqttClient.encodeString stdQt "org/workgroup/55"
      = [(stdQt.toUtf8 "org/workgroup/55").length / 256,
          (stdQt.toUtf8 "org/workgroup/55").length % 256] ++ stdQt.toUtf8 "org/workgroup/55"
    ∧ (MqttClient.encodeString stdQt "org/workgroup/55").length
        = (stdQt.toUtf8 "org/workgroup/55").length + 2
    ∧ (MqttClient.encodeString stdQt "org/workgroup/55").getD 0 0 * 256
          + (MqttClient.encodeString stdQt "org/workgroup/55").getD 1 0
        = (stdQt.toUtf8 "org/workgroup/55").length :=
  C20_encodeString stdQt "org/workgroup/55" (by decide)


/-! ## C14: the keep-alive timer -/

/-- C14, as stated, fails: on a connected client the keep-alive timer fires twice with nothing
read from the socket in between, so no PingResponse follows the first PingRequest. The second
firing writes a second PingRequest C0 00, the state is still CONNECTED and the reconnect timer is
not running. -/
theorem C14_counterexample :
    (MqttClient.onConnack stdQt none (MqttMessageHandler.new MqttClient.new)).m_mqttClient.m_state
      = MqttConnectionState.CONNECTED
    ∧ ((MqttClient.onConnack stdQt none
        (MqttMessageHandler.new MqttClient.new)).m_mqttClient.onKeepAliveTimeout.onKeepAliveTimeout
        ).m_socket.written = [[0xC0, 0x00], [0xC0, 0x00]]
    ∧ ((MqttClient.onConnack stdQt none
        (MqttMessageHandler.new MqttClient.new)).m_mqttClient.onKeepAliveTimeout.onKeepAliveTimeout
        ).m_state = MqttConnectionState.CONNECTED
    ∧ ((MqttClient.onConnack stdQt none
        (MqttMessageHandler.new MqttClient.new)).m_mqttClient.onKeepAliveTimeout.onKeepAliveTimeout
        ).m_reconnectTimer.active = false := by
  decide

/-- C14 (amended): whenever the keep-alive timer fires while the state is CONNECTED, whether or
not a PingResponse was received since the previous PingRequest, the client writes one more
PingRequest C0 00 and changes nothing else: it stays CONNECTED and schedules no reconnect. When
the state is not CONNECTED the firing stops the keep-alive timer and changes nothing else. In
both cases the time of the last message, which is all a PingResponse leaves in the client, has no
influence on what the firing does. -/
theorem C14_keep_alive_pings_again (c : MqttClient) :
    (c.m_state = MqttConnectionState.CONNECTED →
      c.onKeepAliveTimeout = { c with m_socket := c.m_socket.write [0xC0, 0x00] }
      ∧ c.onKeepAliveTimeout.m_socket.written = c.m_socket.written ++ [[0xC0, 0x00]]
      ∧ c.onKeepAliveTimeout.m_state = MqttConnectionState.CONNECTED
      ∧ c.onKeepAliveTimeout.m_reconnectTimer = c.m_reconnectTimer
      ∧ c.onKeepAliveTimeout.singleShots = c.singleShots)
    ∧ (c.m_state ≠ MqttConnectionState.CONNECTED →
      c.onKeepAliveTimeout = { c with m_keepAliveTimer := c.m_keepAliveTimer.stop }
      ∧ c.onKeepAliveTimeout.m_keepAliveTimer.active = false
      ∧ c.onKeepAliveTimeout.m_socket = c.m_socket
      ∧ c.onKeepAliveTimeout.m_state = c.m_state
      ∧ c.onKeepAliveTimeout.m_reconnectTimer = c.m_reconnectTimer
      ∧ c.onKeepAliveTimeout.singleShots = c.singleShots)
    ∧ (∀ t : QDateTime,
        MqttClient.onKeepAliveTimeout { c with m_lastMessageTime := t }
          = { c.onKeepAliveTimeout with m_lastMessageTime := t }) := by
  refine ⟨fun hc => ?_, fun hc => ?_, fun t => ?_⟩
  · have h : c.onKeepAliveTimeout = { c with m_socket := c.m_socket.write [0xC0, 0x00] } := by
      simp [MqttClient.onKeepAliveTimeout, MqttClient.isConnected, hc, toChar,
        MqttProtocol.PINGREQ]
    rw [h]
    exact ⟨rfl, rfl, hc, rfl, rfl⟩
  · have h : c.onKeepAliveTimeout = { c with m_keepAliveTimer := c.m_keepAliveTimer.stop } := by
      simp [MqttClient.onKeepAliveTimeout, MqttClient.isConnected, hc]
    rw [h]
    exact ⟨rfl, rfl, rfl, rfl, rfl, rfl⟩
  · by_cases hc : c.m_state = MqttConnectionState.CONNECTED
    · simp [MqttClient.onKeepAliveTimeout, MqttClient.isConnected, hc]
    · simp [MqttClient.onKeepAliveTimeout, MqttClient.isConnected, hc]

theorem C14_keep_alive_pings_again_witness :
    ((MqttClient.onConnack stdQt none
        (MqttMessageHandler.new MqttClient.new)).m_mqttClient.onKeepAliveTimeout
      ).onKeepAliveTimeout.m_socket.written
      = ((MqttClient.onConnack stdQt none
          (MqttMessageHandler.new MqttClient.new)).m_mqttClient.onKeepAliveTimeout
        ).m_socket.written ++ [[0xC0, 0x00]]
    ∧ (MqttClient.new.startKeepAlive 30000).onKeepAliveTimeout
      = { MqttClient.new.startKeepAlive 30000 with
          m_keepAliveTimer := { active := false, interval := 30000 } } :=
  ⟨((C14_keep_alive_pings_again
      ((MqttClient.onConnack stdQt none
        (MqttMessageHandler.new MqttClient.new)).m_mqttClient.onKeepAliveTimeout)).1
      (by decide)).2.1,
    ((C14_keep_alive_pings_again (MqttClient.new.startKeepAlive 30000)).2.1 (by decide)).1⟩

/-! ## C15: message ids -/

theorem MqttClient.nthMessageId_succ (n : Nat) (c : MqttClient) :
    MqttClient.nthMessageId (n + 1) c = (c.m_messageId + (n + 1)) % 65536 := by
  induction n generalizing c with
  | zero => rfl
  | succ k ih =>
    show MqttClient.nthMessageId (k + 1) c.calculateMessageId.2 = _
    rw [ih]
    show ((c.m_messageId + 1) % 65536 + (k + 1)) % 65536 = _
    omega

/-- C15 fails on the code. On a new client the call number n of `calculateMessageId` returns
n mod 65536: the counter is a `quint16` that starts at 1 and is incremented with `++`, so it runs
1, 2, ..., 65535 and then wraps to 0. The call number 65536 returns 0, where the claim gives
((65536 - 1) mod 65535) + 1 = 1, and the call after it returns 1. -/
theorem C15_message_id_wraps_to_zero :
    (∀ n : Nat, 1 ≤ n → MqttClient.nthMessageId (n - 1) MqttClient.new = n % 65536)
    ∧ MqttClient.nthMessageId (65535 - 1) MqttClient.new = 65535
    ∧ MqttClient.nthMessageId (65536 - 1) MqttClient.new = 0
    ∧ ((65536 - 1) % 65535) + 1 = 1
    ∧ MqttClient.nthMessageId (65537 - 1) MqttClient.new = 1 := by
  have key : ∀ n : Nat, 1 ≤ n → MqttClient.nthMessageId (n - 1) MqttClient.new = n % 65536 := by
    intro n hn
    cases n with
    | zero => omega
    | succ k =>
      cases k with
      | zero => rfl
      | succ j =>
        show MqttClient.nthMessageId (j + 1) MqttClient.new = _
        rw [MqttClient.nthMessageId_succ]
        show (1 + (j + 1)) % 65536 = _
        congr 1
        omega
  exact ⟨key, key 65535 (by norm_num), key 65536 (by norm_num), rfl, key 65537 (by norm_num)⟩


/-! ## C16 to C19: inbound messages -/

/-- The slot `onMqttMessageReceived` drops a message with an empty uid and otherwise emits one
signal, chosen by the type of the message. -/
theorem MqttMessageHandler.onMqttMessageReceived_eq (qt : QtLib) (now : QDateTime)
    (h : MqttMessageHandler) (topic : QString) (payload : QByteArray) :
    MqttMessageHandler.onMqttMessageReceived qt now h topic payload =
      if (MqttMessageHandler.deserializeMessage qt now payload).m_uid = "" then h
      else h.emit
        (match (MqttMessageHandler.deserializeMessage qt now payload).m_type with
          | MessageType.TYPING =>
            HandlerSignal.typingReceived
              (MqttMessageHandler.deserializeMessage qt now payload).m_threadUid
              (MqttMessageHandler.deserializeMessage qt now payload).m_userUid
          | MessageType.READ =>
            HandlerSignal.readReceiptReceived
              (MqttMessageHandler.deserializeMessage qt now payload).m_threadUid
              ((MqttMessageHandler.deserializeMessage qt now payload).getContentString qt)
          | MessageType.DELIVERED =>
            HandlerSignal.deliveredReceiptReceived
              (MqttMessageHandler.deserializeMessage qt now payload).m_threadUid
              ((MqttMessageHandler.deserializeMessage qt now payload).getContentString qt)
          | MessageType.NOTICE =>
            HandlerSignal.noticeReceived
              (MqttMessageHandler.deserializeMessage qt now payload).m_threadUid
              ((MqttMessageHandler.deserializeMessage qt now payload).getContentString qt)
          | _ => HandlerSignal.messageReceived (MqttMessageHandler.deserializeMessage qt now payload)) := by
  unfold MqttMessageHandler.onMqttMessageReceived
  simp only [Message.isNull, decide_eq_true_eq]
  generalize MqttMessageHandler.deserializeMessage qt now payload = m
  by_cases hu : m.m_uid = ""
  · simp only [hu, if_true]
  · simp only [hu, if_false]
    cases ht : m.m_type <;>
      simp [MqttMessageHandler.handleTypingMessage, MqttMessageHandler.handleReceiptMessage,
        MqttMessageHandler.handleNoticeMessage, MqttMessageHandler.handleMessage, ht]

/-- C16, as stated, fails. After `subscribeToThread("conv1", "org/workgroup/55")` an inbound
Publish frame for topic "org/workgroup/55" whose payload is the JSON text with uid "m1", type
"TEXT" and content text "hi" emits one `messageReceived` with uid "m1" whose conversation id
is the empty string, not "conv1"; and the same payload on topic "org/workgroup/99", which is bound
to no conversation, emits an event all the same. A payload on topic "org/workgroup/55" that
carries the member "threadUid" with value "other" emits an event for conversation "other". -/
theorem C16_counterexample :
    (∃ h', MqttClient.onReadyRead stdQt none
          (MqttMessageHandler.subscribeToThread stdQt (MqttMessageHandler.new MqttClient.new)
            "conv1" "org/workgroup/55")
          (MqttClient.publishPacket stdQt 0 "org/workgroup/55"
            (stdQt.toUtf8 "\x7b\"uid\":\"m1\",\"type\":\"TEXT\",\"content\":\x7b\"text\":\"hi\"\x7d\x7d")
            0 false) = Outcome.ok h'
        ∧ h'.emitted.map HandlerSignal.threadUid = [""]
        ∧ h'.emitted.map HandlerSignal.threadUid ≠ ["conv1"]
        ∧ h'.emitted = [HandlerSignal.messageReceived
            { m_uid := "m1", m_type := MessageType.TEXT, m_status := MessageStatus.SENDING,
              m_content := { text := "hi" }, m_createdAt := none, m_threadUid := "",
              m_userUid := "", m_userName := "", m_userAvatar := "", m_extra := "" }])
    ∧ (∃ h', MqttClient.onReadyRead stdQt none
          (MqttMessageHandler.subscribeToThread stdQt (MqttMessageHandler.new MqttClient.new)
            "conv1" "org/workgroup/55")
          (MqttClient.publishPacket stdQt 0 "org/workgroup/99"
            (stdQt.toUtf8 "\x7b\"uid\":\"m1\",\"type\":\"TEXT\",\"content\":\x7b\"text\":\"hi\"\x7d\x7d")
            0 false) = Outcome.ok h'
        ∧ QHash.find h'.m_topicThreads "org/workgroup/99" = none
        ∧ h'.emitted.length = 1)
    ∧ (∃ h', MqttClient.onReadyRead stdQt none
          (MqttMessageHandler.subscribeToThread stdQt (MqttMessageHandler.new MqttClient.new)
            "conv1" "org/workgroup/55")
          (MqttClient.publishPacket stdQt 0 "org/workgroup/55"
            (stdQt.toUtf8 "\x7b\"uid\":\"m2\",\"type\":\"TEXT\",\"threadUid\":\"other\"\x7d")
            0 false) = Outcome.ok h'
        ∧ QHash.find h'.m_topicThreads "org/workgroup/55" = some "conv1"
        ∧ h'.emitted.map HandlerSignal.threadUid = ["other"]) := by
  refine ⟨⟨_, rfl, ?_, ?_, ?_⟩, ⟨_, rfl, ?_, ?_⟩, ⟨_, rfl, ?_, ?_⟩⟩ <;> decide

/-- For every inbound message (topic and payload) and every state of the handler, nothing is
emitted when the payload deserializes to a message with an empty uid, and otherwise exactly one
event is, whose conversation id is the `m_threadUid` of the deserialized message. The topic is not
consulted. -/
theorem MqttMessageHandler.onMqttMessageReceived_threadUid (qt : QtLib) (now : QDateTime)
    (h : MqttMessageHandler) (topic : QString) (payload : QByteArray) :
    (∃ events : List HandlerSignal,
      MqttMessageHandler.onMqttMessageReceived qt now h topic payload
        = { h with emitted := h.emitted ++ events }
      ∧ events.map HandlerSignal.threadUid
          = (if (MqttMessageHandler.deserializeMessage qt now payload).m_uid = "" then []
             else [(MqttMessageHandler.deserializeMessage qt now payload).m_threadUid]))
    ∧ ∀ topic' : QString,
        MqttMessageHandler.onMqttMessageReceived qt now h topic' payload
          = MqttMessageHandler.onMqttMessageReceived qt now h topic payload := by
  refine ⟨?_, fun _ => rfl⟩
  rw [MqttMessageHandler.onMqttMessageReceived_eq]
  by_cases hu : (MqttMessageHandler.deserializeMessage qt now payload).m_uid = ""
  · exact ⟨[], by simp [hu], by simp [hu]⟩
  · simp only [hu, if_false]
    refine ⟨[_], rfl, ?_⟩
    cases (MqttMessageHandler.deserializeMessage qt now payload).m_type <;> rfl

/-- For every inbound payload that deserializes to a message with a non-empty uid, the slot
emits exactly one signal and changes nothing else, and the `m_type` of the message alone selects
the signal: TYPING gives `typingReceived` (conversation, sender), NOTICE gives `noticeReceived`,
READ and DELIVERED give the read and the delivered receipt signal, and every other type gives
`messageReceived` with the whole message; a type string `stringToType` does not know is read as
TEXT. -/
theorem MqttMessageHandler.onMqttMessageReceived_by_type (qt : QtLib) (now : QDateTime)
    (h : MqttMessageHandler) (topic : QString) (payload : QByteArray)
    (huid : (MqttMessageHandler.deserializeMessage qt now payload).m_uid ≠ "") :
    ((MqttMessageHandler.deserializeMessage qt now payload).m_type = MessageType.TYPING →
      MqttMessageHandler.onMqttMessageReceived qt now h topic payload
        = { h with emitted := h.emitted ++ [HandlerSignal.typingReceived
            (MqttMessageHandler.deserializeMessage qt now payload).m_threadUid
            (MqttMessageHandler.deserializeMessage qt now payload).m_userUid] })
    ∧ ((MqttMessageHandler.deserializeMessage qt now payload).m_type = MessageType.NOTICE →
      MqttMessageHandler.onMqttMessageReceived qt now h topic payload
        = { h with emitted := h.emitted ++ [HandlerSignal.noticeReceived
            (MqttMessageHandler.deserializeMessage qt now payload).m_threadUid
            ((MqttMessageHandler.deserializeMessage qt now payload).getContentString qt)] })
    ∧ ((MqttMessageHandler.deserializeMessage qt now payload).m_type = MessageType.READ →
      MqttMessageHandler.onMqttMessageReceived qt now h topic payload
        = { h with emitted := h.emitted ++ [HandlerSignal.readReceiptReceived
            (MqttMessageHandler.deserializeMessage qt now payload).m_threadUid
            ((MqttMessageHandler.deserializeMessage qt now payload).getContentString qt)] })
    ∧ ((MqttMessageHandler.deserializeMessage qt now payload).m_type = MessageType.DELIVERED →
      MqttMessageHandler.onMqttMessageReceived qt now h topic payload
        = { h with emitted := h.emitted ++ [HandlerSignal.deliveredReceiptReceived
            (MqttMessageHandler.deserializeMessage qt now payload).m_threadUid
            ((MqttMessageHandler.deserializeMessage qt now payload).getContentString qt)] })
    ∧ ((MqttMessageHandler.deserializeMessage qt now payload).m_type
          ∈ [MessageType.TEXT, MessageType.IMAGE, MessageType.FILE, MessageType.VIDEO,
             MessageType.VOICE, MessageType.RECALL, MessageType.CUSTOM] →
      MqttMessageHandler.onMqttMessageReceived qt now h topic payload
        = { h with emitted := h.emitted ++ [HandlerSignal.messageReceived
            (MqttMessageHandler.deserializeMessage qt now payload)] })
    ∧ ∀ typeStr : QString, typeStr ∉ Message.knownTypeStrings →
        Message.stringToType typeStr = MessageType.TEXT := by
  rw [MqttMessageHandler.onMqttMessageReceived_eq]
  simp only [huid, if_false]
  refine ⟨?_, ?_, ?_, ?_, ?_, ?_⟩
  · intro ht
    rw [ht]
    rfl
  · intro ht
    rw [ht]
    rfl
  · intro ht
    rw [ht]
    rfl
  · intro ht
    rw [ht]
    rfl
  · intro ht
    generalize (MqttMessageHandler.deserializeMessage qt now payload) = m at ht ⊢
    cases hm : m.m_type <;> simp [hm] at ht <;> rfl
  · intro typeStr hs
    simp only [Message.knownTypeStrings, List.mem_cons, List.mem_singleton, not_or,
      List.mem_nil_iff, or_false] at hs
    obtain ⟨h1, h2, h3, h4, h5, h6, h7, h8, h9, h10, h11⟩ := hs
    simp [Message.stringToType, QHash.value, QHash.find, List.find?, Ne.symm h1, Ne.symm h2,
      Ne.symm h3, Ne.symm h4, Ne.symm h5, Ne.symm h6, Ne.symm h7, Ne.symm h8, Ne.symm h9,
      Ne.symm h10, Ne.symm h11]

/-! ### C18: the uid a receipt refers to -/

/-- C18 fails on the code. On a connected handler `sendReadReceipt` for message "m1" on thread
"conv1" publishes the payload shown, whose content is the object with text "m1". Handling
that payload, `handleReceiptMessage` takes `getContentString()`, the JSON text of the content, as
the message uid, so `readReceiptReceived` carries the text of the content object and not "m1";
the same holds for `sendDeliveredReceipt`. -/
theorem C18_receipt_uid_is_content_json :
    (MqttMessageHandler.sendReadReceipt stdQt
        (MqttClient.onConnack stdQt none (MqttMessageHandler.new MqttClient.new))
        (some { m_uid := "conv1", m_topic := "org/workgroup/55" }) "m1"
        (some { m_uid := "u1", m_nickname := "", m_avatar := "" }) "uid-1"
        none).m_mqttClient.m_socket.written
      = [MqttClient.publishPacket stdQt 0 "org/workgroup/55"
          (stdQt.toUtf8 "\x7b\"content\":\x7b\"text\":\"m1\"\x7d,\"createdAt\":\"\",\"status\":\"SENDING\",\"threadUid\":\"conv1\",\"type\":\"READ\",\"uid\":\"uid-1\",\"userAvatar\":\"\",\"userName\":\"\",\"userUid\":\"u1\"\x7d")
          0 false]
    ∧ (MqttMessageHandler.onMqttMessageReceived stdQt none (MqttMessageHandler.new MqttClient.new)
        "org/workgroup/55"
        (stdQt.toUtf8 "\x7b\"content\":\x7b\"text\":\"m1\"\x7d,\"createdAt\":\"\",\"status\":\"SENDING\",\"threadUid\":\"conv1\",\"type\":\"READ\",\"uid\":\"uid-1\",\"userAvatar\":\"\",\"userName\":\"\",\"userUid\":\"u1\"\x7d")).emitted
      = [HandlerSignal.readReceiptReceived "conv1" "\x7b\"text\":\"m1\"\x7d"]
    ∧ HandlerSignal.readReceiptReceived "conv1" "\x7b\"text\":\"m1\"\x7d"
      ≠ HandlerSignal.readReceiptReceived "conv1" "m1"
    ∧ (MqttMessageHandler.sendDeliveredReceipt stdQt
        (MqttClient.onConnack stdQt none (MqttMessageHandler.new MqttClient.new))
        (some { m_uid := "conv1", m_topic := "org/workgroup/55" }) "m1"
        (some { m_uid := "u1", m_nickname := "", m_avatar := "" }) "uid-2"
        none).m_mqttClient.m_socket.written
      = [MqttClient.publishPacket stdQt 0 "org/workgroup/55"
          (stdQt.toUtf8 "\x7b\"content\":\x7b\"text\":\"m1\"\x7d,\"createdAt\":\"\",\"status\":\"SENDING\",\"threadUid\":\"conv1\",\"type\":\"DELIVERED\",\"uid\":\"uid-2\",\"userAvatar\":\"\",\"userName\":\"\",\"userUid\":\"u1\"\x7d")
          0 false]
    ∧ (MqttMessageHandler.onMqttMessageReceived stdQt none (MqttMessageHandler.new MqttClient.new)
        "org/workgroup/55"
        (stdQt.toUtf8 "\x7b\"content\":\x7b\"text\":\"m1\"\x7d,\"createdAt\":\"\",\"status\":\"SENDING\",\"threadUid\":\"conv1\",\"type\":\"DELIVERED\",\"uid\":\"uid-2\",\"userAvatar\":\"\",\"userName\":\"\",\"userUid\":\"u1\"\x7d")).emitted
      = [HandlerSignal.deliveredReceiptReceived "conv1" "\x7b\"text\":\"m1\"\x7d"] := by
  decide

/-! ### C19: payloads without a uid -/

theorem QHash.find_of_not_contains {κ ν : Type} [DecidableEq κ] (h : QHash κ ν) (k : κ)
    (hk : QHash.contains h k = false) : QHash.find h k = none := by
  induction h with
  | nil => rfl
  | cons p ps ih =>
    simp only [QHash.contains, List.any_cons, Bool.or_eq_false_iff, decide_eq_false_iff_not] at hk
    simp only [QHash.find, List.find?, hk.1, decide_False]
    exact ih hk.2

theorem Message.fromJson_uid (qt : QtLib) (now : QDateTime) (json : QJsonObject) :
    (Message.fromJson qt now json).m_uid = (json.get "uid").toQString := by
  unfold Message.fromJson
  simp only [Message.setContentJson]
  split <;> split <;> rfl

/-- C19: a payload that fails to parse as JSON, or parses to something other than an object, or to
an object that has no member "uid", or whose "uid" is not a string, or is the empty string, is
dropped by `onMqttMessageReceived`: the handler is returned unchanged, so no signal is emitted and
no state is changed. -/
theorem C19_malformed_payload_dropped (qt : QtLib) (now : QDateTime) (h : MqttMessageHandler)
    (topic : QString) (payload : QByteArray)
    (hbad : qt.jsonParse payload = none
      ∨ ∃ doc, qt.jsonParse payload = some doc
          ∧ ((∀ kvs, doc ≠ QJsonValue.object kvs)
            ∨ ∃ kvs, doc = QJsonValue.object kvs
                ∧ (QJsonObject.contains kvs "uid" = false
                  ∨ (∀ s, QJsonObject.get kvs "uid" ≠ QJsonValue.string s)
                  ∨ QJsonObject.get kvs "uid" = QJsonValue.string ""))) :
    MqttMessageHandler.onMqttMessageReceived qt now h topic payload = h := by
  have hu : (MqttMessageHandler.deserializeMessage qt now payload).m_uid = "" := by
    rcases hbad with hnone | ⟨doc, hdoc, hcase⟩
    · simp only [MqttMessageHandler.deserializeMessage, hnone]
      rfl
    · simp only [MqttMessageHandler.deserializeMessage, hdoc, Message.fromJson_uid]
      rcases hcase with hno | ⟨kvs, hk, hcase⟩
      · cases doc with
        | object kvs => exact absurd rfl (hno kvs)
        | _ => rfl
      · subst hk
        simp only [QJsonValue.toObject]
        rcases hcase with hmiss | hns | hempty
        · simp only [QJsonObject.get, QHash.value,
            QHash.find_of_not_contains kvs "uid" hmiss]
          rfl
        · cases hv : QJsonObject.get kvs "uid" with
          | string s => exact absurd hv (hns s)
          | _ => rfl
        · rw [hempty]
          rfl
  rw [MqttMessageHandler.onMqttMessageReceived_eq, if_pos hu]

theorem C19_malformed_payload_dropped_witness :
    stdQt.jsonParse (stdQt.toUtf8 "not json") = none
    ∧ MqttMessageHandler.onMqttMessageReceived stdQt none (MqttMessageHandler.new MqttClient.new)
        "org/workgroup/55" (stdQt.toUtf8 "not json")
      = MqttMessageHandler.new MqttClient.new :=
  ⟨rfl,
   C19_malformed_payload_dropped stdQt none (MqttMessageHandler.new MqttClient.new)
     "org/workgroup/55" (stdQt.toUtf8 "not json") (Or.inl rfl)⟩


/-! ## C11: the bound on reconnect attempts -/

namespace MqttClient

theorem SameReconnect.refl (c : MqttClient) : SameReconnect c c := ⟨rfl, rfl, rfl, rfl⟩

theorem SameReconnect.trans {a b c : MqttClient} (h1 : SameReconnect a b) (h2 : SameReconnect b c) :
    SameReconnect a c :=
  ⟨h2.1.trans h1.1, h2.2.1.trans h1.2.1, h2.2.2.1.trans h1.2.2.1, h2.2.2.2.trans h1.2.2.2⟩

theorem setState_attempt (c : MqttClient) (s : MqttConnectionState) :
    (c.setState s).m_currentReconnectAttempt = c.m_currentReconnectAttempt := by
  unfold setState
  split <;> rfl

theorem setState_max (c : MqttClient) (s : MqttConnectionState) :
    (c.setState s).m_maxReconnectAttempts = c.m_maxReconnectAttempts := by
  unfold setState
  split <;> rfl

theorem setState_singleShots (c : MqttClient) (s : MqttConnectionState) :
    (c.setState s).singleShots = c.singleShots := by
  unfold setState
  split <;> rfl

theorem setState_same (c : MqttClient) (s : MqttConnectionState) : SameReconnect c (c.setState s) :=
  ⟨setState_attempt c s, setState_max c s, by rw [setState_written], setState_singleShots c s⟩

theorem scheduleReconnect_same (c : MqttClient) : SameReconnect c c.scheduleReconnect := by
  unfold scheduleReconnect
  split <;> exact ⟨rfl, rfl, rfl, rfl⟩

theorem scheduleReconnect_manualDisconnect (c : MqttClient) :
    c.scheduleReconnect.m_manualDisconnect = c.m_manualDisconnect := by
  unfold scheduleReconnect
  split <;> rfl

theorem disconnectFromHost_same (c : MqttClient) : SameReconnect c c.disconnectFromHost := by
  unfold disconnectFromHost
  refine SameReconnect.trans ?_ (setState_same _ _)
  simp only []
  split <;> exact ⟨rfl, rfl, rfl, rfl⟩

theorem onDisconnected_same (c : MqttClient) : SameReconnect c c.onDisconnected := by
  unfold onDisconnected SameReconnect
  simp only []
  split <;> split <;>
    simp only [emit, (scheduleReconnect_same _).1, (scheduleReconnect_same _).2.1,
      (scheduleReconnect_same _).2.2.1, (scheduleReconnect_same _).2.2.2, setState_attempt,
      setState_max, setState_written, setState_singleShots, and_self]

theorem onError_same (c : MqttClient) (errorString : QString) :
    SameReconnect c (c.onError errorString) := by
  unfold onError SameReconnect
  simp only []
  split <;> split <;>
    simp only [emit, (scheduleReconnect_same _).1, (scheduleReconnect_same _).2.1,
      (scheduleReconnect_same _).2.2.1, (scheduleReconnect_same _).2.2.2, setState_attempt,
      setState_max, setState_written, setState_singleShots, and_self]

theorem onKeepAliveTimeout_same (c : MqttClient) : SameReconnect c c.onKeepAliveTimeout := by
  unfold onKeepAliveTimeout
  split <;> exact ⟨rfl, rfl, rfl, rfl⟩

theorem onConnectTimeout_same (c : MqttClient) : SameReconnect c c.onConnectTimeout := by
  unfold onConnectTimeout
  split
  · exact SameReconnect.trans (SameReconnect.trans (setState_same _ _) (disconnectFromHost_same _))
      (scheduleReconnect_same _)
  · exact SameReconnect.refl c

theorem sendMqttSubscribe_same (qt : QtLib) (c : MqttClient) (topic : QString) (qos : Nat) :
    SameReconnect c (c.sendMqttSubscribe qt topic qos) := ⟨rfl, rfl, rfl, rfl⟩

theorem sendMqttPublish_same (qt : QtLib) (c : MqttClient) (topic : QString) (payload : QByteArray)
    (qos : Nat) (retain : Bool) : SameReconnect c (c.sendMqttPublish qt topic payload qos retain) := by
  by_cases hq : qos > 0 <;>
    simp [sendMqttPublish, SameReconnect, hq, calculateMessageId, QTcpSocket.write]

theorem subscribe_same (qt : QtLib) (c : MqttClient) (topic : QString) (qos : Nat) :
    SameReconnect c (c.subscribe qt topic qos) := by
  unfold subscribe
  split
  · exact SameReconnect.refl c
  · exact ⟨rfl, rfl, rfl, rfl⟩

theorem publish_same (qt : QtLib) (c : MqttClient) (topic : QString) (payload : QByteArray)
    (qos : Nat) (retain : Bool) : SameReconnect c (c.publish qt topic payload qos retain) := by
  unfold publish
  split
  · exact SameReconnect.refl c
  · exact sendMqttPublish_same qt c topic payload qos retain

theorem unsubscribe_same (c : MqttClient) (topic : QString) :
    SameReconnect c (c.unsubscribe topic) := by
  unfold unsubscribe
  split <;> exact ⟨rfl, rfl, rfl, rfl⟩

theorem foldl_unsubscribe_same (topics : List QString) (c : MqttClient) :
    SameReconnect c (topics.foldl unsubscribe c) := by
  induction topics generalizing c with
  | nil => exact SameReconnect.refl c
  | cons t ts ih => exact SameReconnect.trans (unsubscribe_same c t) (ih _)

theorem unsubscribeAll_same (c : MqttClient) : SameReconnect c c.unsubscribeAll :=
  foldl_unsubscribe_same _ c

theorem foldl_subscribe_same (qt : QtLib) (topics : List QString) (c : MqttClient) :
    SameReconnect c (topics.foldl (fun c topic => c.subscribe qt topic 0) c) := by
  induction topics generalizing c with
  | nil => exact SameReconnect.refl c
  | cons t ts ih => exact SameReconnect.trans (subscribe_same qt c t 0) (ih _)

theorem foldl_sendMqttSubscribe_same (qt : QtLib) (subs : QHash QString Nat) (c : MqttClient) :
    SameReconnect c (subs.foldl (fun c it => c.sendMqttSubscribe qt it.1 it.2) c) := by
  induction subs generalizing c with
  | nil => exact SameReconnect.refl c
  | cons t ts ih => exact SameReconnect.trans (sendMqttSubscribe_same qt c t.1 t.2) (ih _)

end MqttClient

namespace MqttMessageHandler

theorem subscribeToThread_same (qt : QtLib) (h : MqttMessageHandler) (threadUid topic : QString) :
    MqttClient.SameReconnect h.m_mqttClient (h.subscribeToThread qt threadUid topic).m_mqttClient := by
  unfold subscribeToThread
  simp only []
  split
  · exact MqttClient.subscribe_same qt _ _ _
  · exact MqttClient.SameReconnect.refl _

theorem unsubscribeFromThread_same (h : MqttMessageHandler) (threadUid : QString) :
    MqttClient.SameReconnect h.m_mqttClient (h.unsubscribeFromThread threadUid).m_mqttClient := by
  unfold unsubscribeFromThread
  split
  · simp only []
    split
    · exact MqttClient.unsubscribe_same _ _
    · exact MqttClient.SameReconnect.refl _
  · exact MqttClient.SameReconnect.refl _

theorem subscribeToQueue_same (qt : QtLib) (h : MqttMessageHandler) (agentUid : QString) :
    MqttClient.SameReconnect h.m_mqttClient (h.subscribeToQueue qt agentUid).m_mqttClient := by
  unfold subscribeToQueue
  simp only []
  split
  · exact MqttClient.subscribe_same qt _ _ _
  · exact MqttClient.SameReconnect.refl _

theorem sendTextMessage_same (qt : QtLib) (h : MqttMessageHandler) (thread : ThreadPtr)
    (text : QString) (user : UserPtr) (uid : QString) (now : QDateTime) :
    MqttClient.SameReconnect h.m_mqttClient
      (h.sendTextMessage qt thread text user uid now).m_mqttClient := by
  unfold sendTextMessage
  split
  · simp only []
    split
    · exact MqttClient.publish_same qt _ _ _ _ _
    · exact MqttClient.SameReconnect.refl _
  · exact MqttClient.SameReconnect.refl _

theorem sendImageMessage_same (qt : QtLib) (h : MqttMessageHandler) (thread : ThreadPtr)
    (imageUrl : QString) (user : UserPtr) (uid : QString) (now : QDateTime) :
    MqttClient.SameReconnect h.m_mqttClient
      (h.sendImageMessage qt thread imageUrl user uid now).m_mqttClient := by
  unfold sendImageMessage
  split
  · simp only []
    split
    · exact MqttClient.publish_same qt _ _ _ _ _
    · exact MqttClient.SameReconnect.refl _
  · exact MqttClient.SameReconnect.refl _

theorem sendFileMessage_same (qt : QtLib) (h : MqttMessageHandler) (thread : ThreadPtr)
    (fileUrl fileName : QString) (fileSize : Int) (user : UserPtr) (uid : QString)
    (now : QDateTime) :
    MqttClient.SameReconnect h.m_mqttClient
      (h.sendFileMessage qt thread fileUrl fileName fileSize user uid now).m_mqttClient := by
  unfold sendFileMessage
  split
  · simp only []
    split
    · exact MqttClient.publish_same qt _ _ _ _ _
    · exact MqttClient.SameReconnect.refl _
  · exact MqttClient.SameReconnect.refl _

theorem sendTypingMessage_same (qt : QtLib) (h : MqttMessageHandler) (thread : ThreadPtr)
    (user : UserPtr) (uid : QString) (now : QDateTime) :
    MqttClient.SameReconnect h.m_mqttClient
      (h.sendTypingMessage qt thread user uid now).m_mqttClient := by
  unfold sendTypingMessage
  split
  · simp only []
    split
    · exact MqttClient.publish_same qt _ _ _ _ _
    · exact MqttClient.SameReconnect.refl _
  · exact MqttClient.SameReconnect.refl _

theorem sendReadReceipt_same (qt : QtLib) (h : MqttMessageHandler) (thread : ThreadPtr)
    (messageUid : QString) (user : UserPtr) (uid : QString) (now : QDateTime) :
    MqttClient.SameReconnect h.m_mqttClient
      (h.sendReadReceipt qt thread messageUid user uid now).m_mqttClient := by
  unfold sendReadReceipt
  split
  · split
    · exact MqttClient.SameReconnect.refl _
    · have h0 : MqttClient.SameReconnect h.m_mqttClient
          (h.addToSentMessages messageUid).m_mqttClient := by
        rw [addToSentMessages_client]
        exact MqttClient.SameReconnect.refl _
      simp only []
      split
      · exact MqttClient.SameReconnect.trans h0 (MqttClient.publish_same qt _ _ _ _ _)
      · exact h0
  · exact MqttClient.SameReconnect.refl _

theorem sendDeliveredReceipt_same (qt : QtLib) (h : MqttMessageHandler) (thread : ThreadPtr)
    (messageUid : QString) (user : UserPtr) (uid : QString) (now : QDateTime) :
    MqttClient.SameReconnect h.m_mqttClient
      (h.sendDeliveredReceipt qt thread messageUid user uid now).m_mqttClient := by
  unfold sendDeliveredReceipt
  split
  · split
    · exact MqttClient.SameReconnect.refl _
    · have h0 : MqttClient.SameReconnect h.m_mqttClient
          (h.addToSentMessages messageUid).m_mqttClient := by
        rw [addToSentMessages_client]
        exact MqttClient.SameReconnect.refl _
      simp only []
      split
      · exact MqttClient.SameReconnect.trans h0 (MqttClient.publish_same qt _ _ _ _ _)
      · exact h0
  · exact MqttClient.SameReconnect.refl _

end MqttMessageHandler

namespace MqttClient

theorem AttemptBound.of_same {c c' : MqttClient} (hs : SameReconnect c c') (hb : AttemptBound c) :
    AttemptBound c' := by
  unfold AttemptBound at *
  rw [hs.1, hs.2.1]
  exact hb

theorem connectToHost_attempt (c : MqttClient) (host : QString) (port : Int)
    (username password clientId : QString) :
    (c.connectToHost host port username password clientId).m_currentReconnectAttempt = 0
    ∧ (c.connectToHost host port username password clientId).m_maxReconnectAttempts
        = c.m_maxReconnectAttempts
    ∧ (c.connectToHost host port username password clientId).m_manualDisconnect = false
    ∧ (c.connectToHost host port username password clientId).singleShots = c.singleShots
    ∧ (c.connectToHost host port username password clientId).m_socket.connectCalls
        = c.m_socket.connectCalls ++ [(host, port)] := by
  unfold connectToHost
  simp only [setState_attempt, setState_max, setState_manualDisconnect, setState_singleShots,
    setState_written, QTcpSocket.connectToHost, and_self]

theorem reconnectShot_effect (c : MqttClient) :
    c.reconnectShot.m_currentReconnectAttempt = c.m_currentReconnectAttempt
    ∧ c.reconnectShot.m_maxReconnectAttempts = c.m_maxReconnectAttempts
    ∧ c.reconnectShot.m_manualDisconnect = c.m_manualDisconnect
    ∧ c.reconnectShot.singleShots = c.singleShots.drop 1
    ∧ c.reconnectShot.m_socket.connectCalls.length = c.m_socket.connectCalls.length + 1 := by
  unfold reconnectShot
  simp only [setState_attempt, setState_max, setState_manualDisconnect, setState_singleShots,
    setState_written, QTcpSocket.connectToHost, List.length_append, List.length_singleton,
    and_self]

/-- The slot `reconnect()` below the maximum: one more attempt is counted and one single-shot
timer is added; no connect attempt is made yet. -/
theorem reconnect_below_max (c : MqttClient) (hm : c.m_manualDisconnect = false)
    (hlt : c.m_currentReconnectAttempt < c.m_maxReconnectAttempts) :
    c.reconnect.m_currentReconnectAttempt = c.m_currentReconnectAttempt + 1
    ∧ c.reconnect.m_maxReconnectAttempts = c.m_maxReconnectAttempts
    ∧ c.reconnect.m_manualDisconnect = false
    ∧ (∃ delay, c.reconnect.singleShots = c.singleShots ++ [delay])
    ∧ c.reconnect.m_socket.connectCalls = c.m_socket.connectCalls := by
  have hge : ¬ c.m_currentReconnectAttempt ≥ c.m_maxReconnectAttempts := by omega
  have hs := disconnectFromHost_same
    { c with m_currentReconnectAttempt := c.m_currentReconnectAttempt + 1 }
  unfold reconnect
  rw [if_neg (by simp [hm]), if_neg hge]
  exact ⟨hs.1, hs.2.1, rfl, ⟨_, congrArg (fun l => l ++ [_]) hs.2.2.2⟩, hs.2.2.1⟩

/-- The slot `reconnect()` at the maximum: the state becomes ERROR, the reconnect timer is
stopped, `errorOccurred` is emitted, and nothing else that matters for reconnection changes. -/
theorem reconnect_at_max (c : MqttClient) (hm : c.m_manualDisconnect = false)
    (hge : c.m_currentReconnectAttempt ≥ c.m_maxReconnectAttempts) :
    c.reconnect.m_state = MqttConnectionState.ERROR
    ∧ c.reconnect.m_reconnectTimer.active = false
    ∧ c.reconnect.emitted
        = (c.setState MqttConnectionState.ERROR).emitted
          ++ [ClientSignal.errorOccurred
              ("Max reconnect attempts (" ++ toString c.m_maxReconnectAttempts ++ ") reached")]
    ∧ SameReconnect c c.reconnect := by
  unfold reconnect
  rw [if_neg (by simp [hm]), if_pos hge]
  exact ⟨setState_state _ _, rfl, rfl,
    setState_attempt _ _, setState_max _ _, by rw [← setState_written c MqttConnectionState.ERROR]; rfl,
    setState_singleShots _ _⟩

theorem reconnect_same_of_max (c : MqttClient)
    (hge : c.m_currentReconnectAttempt ≥ c.m_maxReconnectAttempts) :
    SameReconnect c c.reconnect := by
  cases hm : c.m_manualDisconnect with
  | true =>
    unfold reconnect
    simp only [hm, if_true]
    exact SameReconnect.refl c
  | false => exact (reconnect_at_max c hm hge).2.2.2

theorem reconnect_bound (c : MqttClient) (hb : AttemptBound c) : AttemptBound c.reconnect := by
  by_cases hge : c.m_currentReconnectAttempt ≥ c.m_maxReconnectAttempts
  · exact AttemptBound.of_same (reconnect_same_of_max c hge) hb
  · cases hm : c.m_manualDisconnect with
    | true =>
      unfold reconnect
      simp only [hm, if_true]
      exact hb
    | false =>
      obtain ⟨h1, h2, _⟩ := reconnect_below_max c hm (by omega)
      unfold AttemptBound at *
      rw [h1, h2]
      omega

end MqttClient

namespace MqttClient

theorem onConnack_attempt (qt : QtLib) (now : QDateTime) (h : MqttMessageHandler) :
    (onConnack qt now h).m_mqttClient.m_currentReconnectAttempt = 0
    ∧ (onConnack qt now h).m_mqttClient.m_maxReconnectAttempts
        = h.m_mqttClient.m_maxReconnectAttempts := by
  simp only [onConnack, MqttMessageHandler.onMqttConnected]
  split <;>
    simp only [(foldl_subscribe_same _ _ _).1, (foldl_subscribe_same _ _ _).2.1, emit,
      (foldl_sendMqttSubscribe_same _ _ _).1, (foldl_sendMqttSubscribe_same _ _ _).2.1,
      startKeepAlive, updateLastMessageTime, setState_attempt, setState_max, and_self]

theorem onConnack_bound (qt : QtLib) (now : QDateTime) (h : MqttMessageHandler)
    (hb : AttemptBound h.m_mqttClient) : AttemptBound (onConnack qt now h).m_mqttClient := by
  obtain ⟨h1, h2⟩ := onConnack_attempt qt now h
  unfold AttemptBound at *
  rw [h1, h2]
  omega

theorem deliverPublish_same (qt : QtLib) (now : QDateTime) (h : MqttMessageHandler)
    (topic : QString) (messagePayload : QByteArray) :
    SameReconnect h.m_mqttClient (deliverPublish qt now h topic messagePayload).m_mqttClient := by
  simp only [deliverPublish, MqttMessageHandler.onMqttMessageReceived_client]
  split <;> exact ⟨rfl, rfl, rfl, rfl⟩

theorem dispatchFrame_bound (qt : QtLib) (now : QDateTime) (h h' : MqttMessageHandler)
    (messageType : Nat) (payload : QByteArray)
    (hd : dispatchFrame qt now h messageType payload = Outcome.ok h')
    (hb : AttemptBound h.m_mqttClient) : AttemptBound h'.m_mqttClient := by
  unfold dispatchFrame at hd
  simp only [] at hd
  split at hd
  · cases hd
    exact onConnack_bound qt now h hb
  · split at hd
    · unfold onPublish at hd
      split at hd
      · cases hd
        exact AttemptBound.of_same (deliverPublish_same _ _ _ _ _) hb
      · cases hd
    · split at hd
      · cases hd
        exact hb
      · cases hd
        exact hb

theorem readLoop_bound (qt : QtLib) (now : QDateTime) (fuel : Nat) :
    ∀ h h' : MqttMessageHandler, readLoop qt now fuel h = Outcome.ok h' →
      AttemptBound h.m_mqttClient → AttemptBound h'.m_mqttClient := by
  induction fuel with
  | zero =>
    intro h h' hr hb
    unfold readLoop at hr
    split at hr
    · cases hr
    · cases hr
      exact hb
  | succ n ih =>
    intro h h' hr hb
    by_cases h2 : h.m_mqttClient.m_readBuffer.length ≥ 2
    · by_cases h3 : h.m_mqttClient.m_readBuffer.length
          < 2 + toChar (h.m_mqttClient.m_readBuffer.getD 1 0)
      · simp only [readLoop, h2, if_true, h3] at hr
        cases hr
        exact hb
      · simp only [readLoop, h2, if_true, h3, if_false] at hr
        cases hd : dispatchFrame qt now
            (consumeFrame h (toChar (h.m_mqttClient.m_readBuffer.getD 1 0)))
            (toChar (h.m_mqttClient.m_readBuffer.getD 0 0))
            (QByteArray.mid h.m_mqttClient.m_readBuffer 2
              (toChar (h.m_mqttClient.m_readBuffer.getD 1 0))) with
        | ok g =>
          rw [hd] at hr
          exact ih _ _ hr (dispatchFrame_bound qt now _ _ _ _ hd hb)
        | outOfRange =>
          rw [hd] at hr
          cases hr
        | outOfFuel =>
          rw [hd] at hr
          cases hr
    · rw [readLoop_short qt now _ h (by omega)] at hr
      cases hr
      exact hb

theorem onReadyRead_bound (qt : QtLib) (now : QDateTime) (h h' : MqttMessageHandler)
    (bytes : QByteArray) (hr : onReadyRead qt now h bytes = Outcome.ok h')
    (hb : AttemptBound h.m_mqttClient) : AttemptBound h'.m_mqttClient := by
  unfold onReadyRead at hr
  exact readLoop_bound qt now _ _ _ hr hb

end MqttClient

/-- An event that is quiet and is not `reconnect()` returns and leaves the attempt counter, its
maximum, the connect attempts and the pending single-shot timers as they were. -/
theorem step_same (qt : QtLib) (h : MqttMessageHandler) (e : Event) (hq : e.quiet = true)
    (hne : e ≠ Event.reconnect) :
    ∃ h', step qt h e = Outcome.ok h'
      ∧ MqttClient.SameReconnect h.m_mqttClient h'.m_mqttClient := by
  cases e with
  | connectToHost host port username password clientId => cases hq
  | reconnectShot => cases hq
  | readyRead bytes now => cases hq
  | reconnect => exact absurd rfl hne
  | disconnectFromHost => exact ⟨_, rfl, MqttClient.disconnectFromHost_same _⟩
  | keepAliveTimeout => exact ⟨_, rfl, MqttClient.onKeepAliveTimeout_same _⟩
  | connectTimeout => exact ⟨_, rfl, MqttClient.onConnectTimeout_same _⟩
  | socketConnected => exact ⟨_, rfl, rfl, rfl, rfl, rfl⟩
  | socketDisconnected =>
    have hs := MqttClient.onDisconnected_same
      { h.m_mqttClient with
        m_socket := { h.m_mqttClient.m_socket with state := SocketState.UnconnectedState } }
    exact ⟨_, rfl, hs.1, hs.2.1, hs.2.2.1, hs.2.2.2⟩
  | socketError errorString state =>
    have hs := MqttClient.onError_same
      { h.m_mqttClient with m_socket := { h.m_mqttClient.m_socket with state := state } }
      errorString
    exact ⟨_, rfl, hs.1, hs.2.1, hs.2.2.1, hs.2.2.2⟩
  | subscribe topic qos => exact ⟨_, rfl, MqttClient.subscribe_same qt _ _ _⟩
  | unsubscribe topic => exact ⟨_, rfl, MqttClient.unsubscribe_same _ _⟩
  | unsubscribeAll => exact ⟨_, rfl, MqttClient.unsubscribeAll_same _⟩
  | publish topic payload qos retain => exact ⟨_, rfl, MqttClient.publish_same qt _ _ _ _ _⟩
  | setMessageCallback callback => exact ⟨_, rfl, rfl, rfl, rfl, rfl⟩
  | setConnectedCallback callback => exact ⟨_, rfl, rfl, rfl, rfl, rfl⟩
  | setDisconnectedCallback callback => exact ⟨_, rfl, rfl, rfl, rfl, rfl⟩
  | setErrorCallback callback => exact ⟨_, rfl, rfl, rfl, rfl, rfl⟩
  | startKeepAlive intervalMs => exact ⟨_, rfl, rfl, rfl, rfl, rfl⟩
  | stopKeepAlive => exact ⟨_, rfl, rfl, rfl, rfl, rfl⟩
  | setKeepAlive seconds => exact ⟨_, rfl, rfl, rfl, rfl, rfl⟩
  | setReconnectInterval milliseconds => exact ⟨_, rfl, rfl, rfl, rfl, rfl⟩
  | setConnectTimeout milliseconds => exact ⟨_, rfl, rfl, rfl, rfl, rfl⟩
  | setCleanSession clean => exact ⟨_, rfl, rfl, rfl, rfl, rfl⟩
  | setWillMessage topic message qos => exact ⟨_, rfl, rfl, rfl, rfl, rfl⟩
  | subscribeToThread threadUid topic =>
    exact ⟨_, rfl, MqttMessageHandler.subscribeToThread_same qt h _ _⟩
  | unsubscribeFromThread threadUid =>
    exact ⟨_, rfl, MqttMessageHandler.unsubscribeFromThread_same h _⟩
  | subscribeToQueue agentUid => exact ⟨_, rfl, MqttMessageHandler.subscribeToQueue_same qt h _⟩
  | sendTextMessage thread text user uid now =>
    exact ⟨_, rfl, MqttMessageHandler.sendTextMessage_same qt h _ _ _ _ _⟩
  | sendImageMessage thread imageUrl user uid now =>
    exact ⟨_, rfl, MqttMessageHandler.sendImageMessage_same qt h _ _ _ _ _⟩
  | sendFileMessage thread fileUrl fileName fileSize user uid now =>
    exact ⟨_, rfl, MqttMessageHandler.sendFileMessage_same qt h _ _ _ _ _ _ _⟩
  | sendTypingMessage thread user uid now =>
    exact ⟨_, rfl, MqttMessageHandler.sendTypingMessage_same qt h _ _ _ _⟩
  | sendReadReceipt thread messageUid user uid now =>
    exact ⟨_, rfl, MqttMessageHandler.sendReadReceipt_same qt h _ _ _ _ _⟩
  | sendDeliveredReceipt thread messageUid user uid now =>
    exact ⟨_, rfl, MqttMessageHandler.sendDeliveredReceipt_same qt h _ _ _ _ _⟩

/-- Every event keeps the bound on the attempt counter. -/
theorem step_bound (qt : QtLib) (h h' : MqttMessageHandler) (e : Event)
    (hs : step qt h e = Outcome.ok h') (hb : MqttClient.AttemptBound h.m_mqttClient) :
    MqttClient.AttemptBound h'.m_mqttClient := by
  by_cases hq : e.quiet = true
  · by_cases hne : e = Event.reconnect
    · subst hne
      cases hs
      exact MqttClient.reconnect_bound _ hb
    · obtain ⟨g, hg, hsame⟩ := step_same qt h e hq hne
      rw [hg] at hs
      cases hs
      exact MqttClient.AttemptBound.of_same hsame hb
  · cases e with
    | connectToHost host port username password clientId =>
      cases hs
      obtain ⟨h1, h2, _⟩ := MqttClient.connectToHost_attempt h.m_mqttClient host port username
        password clientId
      have key : MqttClient.AttemptBound
          (h.m_mqttClient.connectToHost host port username password clientId) := by
        unfold MqttClient.AttemptBound at *
        rw [h1, h2]
        omega
      exact key
    | reconnectShot =>
      cases hs
      obtain ⟨h1, h2, _⟩ := MqttClient.reconnectShot_effect h.m_mqttClient
      have key : MqttClient.AttemptBound h.m_mqttClient.reconnectShot := by
        unfold MqttClient.AttemptBound at *
        rw [h1, h2]
        exact hb
      exact key
    | readyRead bytes now => exact MqttClient.onReadyRead_bound qt now h h' bytes hs hb
    | _ => exact absurd rfl hq

/-- In every reachable state the attempt counter lies between 0 and the maximum, which is 5. -/
theorem Reachable.attemptBound (qt : QtLib) (h : MqttMessageHandler) (hr : Reachable qt h) :
    MqttClient.AttemptBound h.m_mqttClient := by
  induction hr with
  | init => exact ⟨by decide, by decide, rfl⟩
  | step g g' e _ hs ih => exact step_bound qt g g' e hs ih

theorem MqttClient.scheduleReconnect_state (c : MqttClient) :
    c.scheduleReconnect.m_state = c.m_state := by
  unfold MqttClient.scheduleReconnect
  split <;> rfl

theorem MqttClient.scheduleReconnect_emitted (c : MqttClient) :
    c.scheduleReconnect.emitted = c.emitted := by
  unfold MqttClient.scheduleReconnect
  split <;> rfl

/-- A socket error on a client that is not manually disconnected ends in ERROR with the manual
flag still clear. -/
theorem MqttClient.onError_not_manual (c : MqttClient) (errorString : QString)
    (hm : c.m_manualDisconnect = false) :
    (c.onError errorString).m_state = MqttConnectionState.ERROR
    ∧ (c.onError errorString).m_manualDisconnect = false := by
  unfold MqttClient.onError
  simp only [hm, Bool.not_false, if_true]
  split <;>
    simp only [MqttClient.emit, MqttClient.scheduleReconnect_state, MqttClient.setState_state,
      MqttClient.scheduleReconnect_manualDisconnect, MqttClient.setState_manualDisconnect, hm,
      and_self]

theorem MqttClient.onError_atAttempt (c : MqttClient) (errorString : QString) (state : SocketState)
    (k : Int) (n : Nat) (ha : MqttClient.AtAttempt k n c) :
    MqttClient.AtAttempt k n
        (MqttClient.onError { c with m_socket := { c.m_socket with state := state } } errorString)
    ∧ (MqttClient.onError { c with m_socket := { c.m_socket with state := state } }
        errorString).m_state = MqttConnectionState.ERROR := by
  have hs := MqttClient.onError_same
    { c with m_socket := { c.m_socket with state := state } } errorString
  have hn := MqttClient.onError_not_manual
    { c with m_socket := { c.m_socket with state := state } } errorString ha.2.2.1
  obtain ⟨a1, a2, _, a4, a5⟩ := ha
  exact ⟨⟨hs.1.trans a1, hs.2.1.trans a2, hn.2, hs.2.2.2.trans a4,
    (congrArg List.length hs.2.2.1).trans a5⟩, hn.1⟩

/-- One failed attempt below the maximum: error, `reconnect()`, single-shot timer. It counts one
more attempt and makes one more connect attempt. -/
theorem MqttClient.failedAttempt_atAttempt (c : MqttClient) (errorString : QString)
    (state : SocketState) (k : Int) (n : Nat) (ha : MqttClient.AtAttempt k n c) (hk : k < 5) :
    MqttClient.AtAttempt (k + 1) (n + 1)
      (MqttClient.onError { c with m_socket := { c.m_socket with state := state } }
        errorString).reconnect.reconnectShot := by
  obtain ⟨⟨a1, a2, a3, a4, a5⟩, _⟩ := MqttClient.onError_atAttempt c errorString state k n ha
  obtain ⟨r1, r2, r3, ⟨d, r4⟩, r5⟩ := MqttClient.reconnect_below_max _ a3 (by rw [a1, a2]; exact hk)
  obtain ⟨s1, s2, s3, s4, s5⟩ := MqttClient.reconnectShot_effect
    (MqttClient.onError { c with m_socket := { c.m_socket with state := state } }
      errorString).reconnect
  refine ⟨?_, ?_, ?_, ?_, ?_⟩
  · rw [s1, r1, a1]
  · rw [s2, r2, a2]
  · rw [s3, r3]
  · rw [s4, r4, a4]
    rfl
  · rw [s5, r5, a5]

theorem run_append (qt : QtLib) (es1 es2 : List Event) (h : MqttMessageHandler) :
    run qt (es1 ++ es2) h =
      match run qt es1 h with
      | Outcome.ok h' => run qt es2 h'
      | o => o := by
  induction es1 generalizing h with
  | nil => rfl
  | cons e es ih =>
    simp only [List.cons_append, run]
    cases step qt h e with
    | ok g => exact ih g
    | outOfRange => rfl
    | outOfFuel => rfl

/-- A run of failed attempts that stays within the maximum returns, and counts an attempt and a
connect attempt for each. -/
theorem run_failedAttempts (qt : QtLib) (errors : List (QString × SocketState)) :
    ∀ (h : MqttMessageHandler) (k : Int) (n : Nat), MqttClient.AtAttempt k n h.m_mqttClient →
      k + errors.length ≤ 5 →
      ∃ h', run qt (failedAttempts errors) h = Outcome.ok h'
        ∧ MqttClient.AtAttempt (k + errors.length) (n + errors.length) h'.m_mqttClient := by
  induction errors with
  | nil =>
    intro h k n ha _
    exact ⟨h, rfl, by simpa using ha⟩
  | cons e es ih =>
    intro h k n ha hk
    simp only [List.length_cons, Nat.cast_add, Nat.cast_one] at hk
    have hstep := MqttClient.failedAttempt_atAttempt h.m_mqttClient e.1 e.2 k n ha (by omega)
    obtain ⟨h', hrun, hat⟩ := ih
      (((h.onClient (fun c =>
          MqttClient.onError { c with m_socket := { c.m_socket with state := e.2 } } e.1)).onClient
        MqttClient.reconnect).onClient MqttClient.reconnectShot) (k + 1) (n + 1) hstep (by omega)
    refine ⟨h', ?_, ?_⟩
    · simp only [failedAttempts, List.flatMap_cons, List.cons_append, List.nil_append, run, step]
      exact hrun
    · simp only [List.length_cons, Nat.cast_add, Nat.cast_one]
      have e1 : k + ((es.length : Int) + 1) = k + 1 + es.length := by omega
      have e2 : n + (es.length + 1) = n + 1 + es.length := by omega
      rw [e1, e2]
      exact hat

/-- A run of quiet events on a client whose attempt counter has reached the maximum returns and
makes no connect attempt. -/
theorem run_quiet_at_max (qt : QtLib) (es : List Event) :
    ∀ h : MqttMessageHandler, (∀ e ∈ es, e.quiet = true) →
      h.m_mqttClient.m_currentReconnectAttempt ≥ h.m_mqttClient.m_maxReconnectAttempts →
      ∃ h', run qt es h = Outcome.ok h'
        ∧ MqttClient.SameReconnect h.m_mqttClient h'.m_mqttClient := by
  induction es with
  | nil =>
    intro h _ _
    exact ⟨h, rfl, MqttClient.SameReconnect.refl _⟩
  | cons e es ih =>
    intro h hq hmax
    have hstep : ∃ g, step qt h e = Outcome.ok g
        ∧ MqttClient.SameReconnect h.m_mqttClient g.m_mqttClient := by
      by_cases hne : e = Event.reconnect
      · subst hne
        exact ⟨_, rfl, MqttClient.reconnect_same_of_max _ hmax⟩
      · exact step_same qt h e (hq e (List.mem_cons_self _ _)) hne
    obtain ⟨g, hg, hsame⟩ := hstep
    obtain ⟨h', hrun, hsame'⟩ := ih g (fun e he => hq e (List.mem_cons_of_mem _ he))
      (by rw [hsame.1, hsame.2.1]; exact hmax)
    refine ⟨h', ?_, MqttClient.SameReconnect.trans hsame hsame'⟩
    simp only [run, hg]
    exact hrun


/-- The reconnect attempt counter is bounded by the maximum of 5 in every reachable state; and
from a reachable state with no single-shot timer pending, a connect followed by five failed
attempts (transport error, `reconnect()`, delayed connect) and one more transport error leaves the
counter at 5 after six connect attempts, the next `reconnect()` makes no attempt, stops the
reconnect timer, ends in ERROR and reports exactly "Max reconnect attempts (5) reached", and no
later event other than an explicit connect request, inbound bytes or the firing of a single-shot
timer makes a connect attempt. -/
theorem failedAttempts_reach_maximum (qt : QtLib) (h : MqttMessageHandler) (host : QString)
    (port : Int) (username password clientId : QString) (errors : List (QString × SocketState))
    (lastError : QString × SocketState) (later : List Event)
    (hr : Reachable qt h) (hss : h.m_mqttClient.singleShots = []) (hfive : errors.length = 5)
    (hlater : ∀ e ∈ later, e.quiet = true) :
    (∀ g, Reachable qt g →
        0 ≤ g.m_mqttClient.m_currentReconnectAttempt
        ∧ g.m_mqttClient.m_currentReconnectAttempt ≤ g.m_mqttClient.m_maxReconnectAttempts
        ∧ g.m_mqttClient.m_maxReconnectAttempts = 5)
    ∧ ∃ h1 h2 h3,
        run qt ([Event.connectToHost host port username password clientId]
            ++ failedAttempts errors ++ [Event.socketError lastError.1 lastError.2]) h
          = Outcome.ok h1
        ∧ h1.m_mqttClient.m_currentReconnectAttempt = 5
        ∧ h1.m_mqttClient.m_socket.connectCalls.length
            = h.m_mqttClient.m_socket.connectCalls.length + 6
        ∧ step qt h1 Event.reconnect = Outcome.ok h2
        ∧ h2.m_mqttClient.m_state = MqttConnectionState.ERROR
        ∧ h2.m_mqttClient.m_reconnectTimer.active = false
        ∧ h2.m_mqttClient.emitted = h1.m_mqttClient.emitted
            ++ [ClientSignal.errorOccurred "Max reconnect attempts (5) reached"]
        ∧ h2.m_mqttClient.m_socket.connectCalls = h1.m_mqttClient.m_socket.connectCalls
        ∧ h2.m_mqttClient.singleShots = []
        ∧ run qt later h2 = Outcome.ok h3
        ∧ h3.m_mqttClient.m_socket.connectCalls = h2.m_mqttClient.m_socket.connectCalls := by
  refine ⟨fun g hg => Reachable.attemptBound qt g hg, ?_⟩
  have hb := Reachable.attemptBound qt h hr
  obtain ⟨c1, c2, c3, c4, c5⟩ :=
    MqttClient.connectToHost_attempt h.m_mqttClient host port username password clientId
  have ha0 : MqttClient.AtAttempt 0 (h.m_mqttClient.m_socket.connectCalls.length + 1)
      (h.onClient (fun c => c.connectToHost host port username password clientId)).m_mqttClient :=
    ⟨c1, c2.trans hb.2.2, c3, c4.trans hss, by
      show (MqttClient.connectToHost _ _ _ _ _ _).m_socket.connectCalls.length = _
      rw [c5, List.length_append]; rfl⟩
  obtain ⟨ha, hrunA, hatA⟩ := run_failedAttempts qt errors _ 0 _ ha0 (by rw [hfive]; decide)
  rw [hfive] at hatA
  obtain ⟨hatE, hstE⟩ :=
    MqttClient.onError_atAttempt ha.m_mqttClient lastError.1 lastError.2 _ _ hatA
  obtain ⟨e1, e2, e3, e4, e5⟩ := hatE
  have hge : (MqttClient.onError { ha.m_mqttClient with
        m_socket := { ha.m_mqttClient.m_socket with state := lastError.2 } }
      lastError.1).m_currentReconnectAttempt ≥ (MqttClient.onError { ha.m_mqttClient with
        m_socket := { ha.m_mqttClient.m_socket with state := lastError.2 } }
      lastError.1).m_maxReconnectAttempts := by
    rw [e1, e2]; decide
  obtain ⟨m1, m2, m3, m4⟩ := MqttClient.reconnect_at_max _ e3 hge
  obtain ⟨h3, hrunQ, hsameQ⟩ := run_quiet_at_max qt later
    ((ha.onClient (fun c => MqttClient.onError
      { c with m_socket := { c.m_socket with state := lastError.2 } } lastError.1)).onClient
      MqttClient.reconnect) hlater (by
        exact (m4.2.1.le.trans hge).trans m4.1.symm.le)
  refine ⟨ha.onClient (fun c => MqttClient.onError
      { c with m_socket := { c.m_socket with state := lastError.2 } } lastError.1),
    (ha.onClient (fun c => MqttClient.onError
      { c with m_socket := { c.m_socket with state := lastError.2 } } lastError.1)).onClient
      MqttClient.reconnect, h3, ?_, e1, ?_, rfl, m1, m2, ?_, m4.2.2.1, m4.2.2.2.trans e4, hrunQ,
    hsameQ.2.2.1⟩
  · rw [List.append_assoc, List.singleton_append]
    simp only [run, step]
    rw [run_append, hrunA]
    rfl
  · show (MqttClient.onError _ _).m_socket.connectCalls.length = _
    rw [e5]
  · refine m3.trans ?_
    rw [e2]
    have hem : (MqttClient.setState (MqttClient.onError { ha.m_mqttClient with
          m_socket := { ha.m_mqttClient.m_socket with state := lastError.2 } } lastError.1)
        MqttConnectionState.ERROR).emitted = (MqttClient.onError { ha.m_mqttClient with
          m_socket := { ha.m_mqttClient.m_socket with state := lastError.2 } }
        lastError.1).emitted := by
      unfold MqttClient.setState
      rw [if_neg (by simp [hstE])]
    rw [hem]
    rfl

/-- C21 fails on the code. The PUBLISH case of `onReadyRead` checks nothing: on a frame body of
fewer than two bytes it indexes `payload[0]` or `payload[1]` beyond the end of the body (frames
30 00 and 30 01 00), and on a body whose topic length prefix (5) exceeds the bytes that follow it
(1) it takes what is there as the topic and emits `messageReceived` and calls the message callback
(frame 30 03 00 05 41 delivers topic "A" with an empty payload). -/
theorem C21_publish_prefix_not_validated :
    (∀ (qt : QtLib) (now : QDateTime) (h : MqttMessageHandler),
        MqttClient.onPublish qt now h [] = Outcome.outOfRange)
    ∧ (∀ (qt : QtLib) (now : QDateTime) (h : MqttMessageHandler) (b : Nat),
        MqttClient.onPublish qt now h [b] = Outcome.outOfRange)
    ∧ MqttClient.onReadyRead stdQt none (MqttMessageHandler.new MqttClient.new) [0x30, 0x00]
        = Outcome.outOfRange
    ∧ MqttClient.onReadyRead stdQt none (MqttMessageHandler.new MqttClient.new) [0x30, 0x01, 0x00]
        = Outcome.outOfRange
    ∧ ∃ h', MqttClient.onReadyRead stdQt none
          (MqttMessageHandler.new (MqttClient.new.setMessageCallback true))
          [0x30, 0x03, 0x00, 0x05, 0x41] = Outcome.ok h'
        ∧ h'.m_mqttClient.emitted = [ClientSignal.messageReceived "A" []]
        ∧ h'.m_mqttClient.callbackCalls = [CallbackCall.message "A" []]
        ∧ h'.m_mqttClient.m_readBuffer = [] :=
  ⟨fun _ _ _ => rfl, fun _ _ _ _ => rfl, by decide, by decide, _, rfl, by decide, by decide,
    by decide⟩

/-! ## C22: the Connect frame -/

/-- C22: for every client (client id, username, password, clean-session flag) whose keep-alive
interval is k seconds with 0 <= k <= 65535, `sendMqttConnect` writes one frame whose first byte is
0x10, whose second byte is the length byte, and whose body is 00 04 'M' 'Q' 'T' 'T', the level 04,
the flags byte, k as two big-endian bytes, the length-prefixed client id, then the length-prefixed
username if it is not empty, then the length-prefixed password if it is not empty. In the flags
byte bit 1 is the clean-session flag, bit 7 says the username is not empty, bit 6 says the
password is not empty, and every other bit is zero. -/
theorem C22_connect_frame_layout (qt : QtLib) (c : MqttClient) (k : Int)
    (hk : c.m_keepAliveInterval.tdiv 1000 = k) (h0 : 0 ≤ k) (h1 : k ≤ 65535) :
    (c.sendMqttConnect qt).m_socket.written = c.m_socket.written ++ [MqttClient.connectPacket qt c]
    ∧ (MqttClient.connectPacket qt c).take 1 = [0x10]
    ∧ (MqttClient.connectPacket qt c).drop 1
        = [((MqttClient.connectPacket qt c).drop 2).length % 256]
          ++ (MqttClient.connectPacket qt c).drop 2
    ∧ (MqttClient.connectPacket qt c).drop 2
        = [0x00, 0x04, 0x4D, 0x51, 0x54, 0x54, 0x04,
            (if c.m_cleanSession then 2 else 0) + (if c.m_username ≠ "" then 128 else 0)
              + (if c.m_password ≠ "" then 64 else 0),
            k.toNat / 256, k.toNat % 256]
          ++ MqttClient.encodeString qt c.m_clientId
          ++ (if c.m_username ≠ "" then MqttClient.encodeString qt c.m_username else [])
          ++ (if c.m_password ≠ "" then MqttClient.encodeString qt c.m_password else [])
    ∧ k.toNat / 256 < 256
    ∧ k.toNat / 256 * 256 + k.toNat % 256 = k.toNat
    ∧ Nat.testBit ((if c.m_cleanSession then 2 else 0) + (if c.m_username ≠ "" then 128 else 0)
          + (if c.m_password ≠ "" then 64 else 0)) 1 = c.m_cleanSession
    ∧ Nat.testBit ((if c.m_cleanSession then 2 else 0) + (if c.m_username ≠ "" then 128 else 0)
          + (if c.m_password ≠ "" then 64 else 0)) 7 = decide (c.m_username ≠ "")
    ∧ Nat.testBit ((if c.m_cleanSession then 2 else 0) + (if c.m_username ≠ "" then 128 else 0)
          + (if c.m_password ≠ "" then 64 else 0)) 6 = decide (c.m_password ≠ "")
    ∧ ((if c.m_cleanSession then 2 else 0) + (if c.m_username ≠ "" then 128 else 0)
          + (if c.m_password ≠ "" then 64 else 0)) &&& 0x3D = 0 := by
  have hk1 : intToChar (c.m_keepAliveInterval.tdiv 1000 / 256) = k.toNat / 256 := by
    rw [hk]; unfold intToChar; omega
  have hk2 : intToChar (c.m_keepAliveInterval.tdiv 1000 % 256) = k.toNat % 256 := by
    rw [hk]; unfold intToChar; omega
  refine ⟨rfl, rfl, rfl, ?_, by omega, by omega, ?_, ?_, ?_, ?_⟩
  · show MqttClient.connectPayload qt c = _
    unfold MqttClient.connectPayload
    simp only [hk1, hk2]
    cases hcs : c.m_cleanSession <;> by_cases hu : c.m_username = "" <;>
      by_cases hp : c.m_password = "" <;> simp [hu, hp, toChar]
  all_goals
    cases hcs : c.m_cleanSession <;> by_cases hu : c.m_username = "" <;>
      by_cases hp : c.m_password = "" <;> simp [hu, hp] <;> decide

theorem C22_connect_frame_layout_witness :
    (MqttClient.connectPacket stdQt
        (MqttClient.new.connectToHost "broker.test" 1883 "user" "pw" "u1/HTTP/abc")).drop 2
      = [0x00, 0x04, 0x4D, 0x51, 0x54, 0x54, 0x04, 0xC2, 0x00, 0x1E]
        ++ [0x00, 0x0B] ++ stdQt.toUtf8 "u1/HTTP/abc"
        ++ [0x00, 0x04] ++ stdQt.toUtf8 "user"
        ++ [0x00, 0x02] ++ stdQt.toUtf8 "pw" :=
  (C22_connect_frame_layout stdQt
    (MqttClient.new.connectToHost "broker.test" 1883 "user" "pw" "u1/HTTP/abc") 30
    (by decide) (by decide) (by decide)).2.2.2.1.trans (by decide)


/-! ## C23: a subscription made while connected -/

/-- C23: for every conversation id and topic, `subscribeToThread` on a handler whose client is
CONNECTED records the binding in both registry maps and in the client's subscription table, and
writes exactly one frame: the header 0x82, the length byte, the message id drawn for it as two
bytes, high byte first, the topic with its two-byte length prefix, and the QoS byte 00. With n
the number of UTF-8 bytes of the topic, the length byte is 5 + n modulo 256, which is the
remaining length 5 + n itself as long as n is at most 250. -/
theorem C23_subscribe_while_connected (qt : QtLib) (h : MqttMessageHandler)
    (threadUid topic : QString) (hc : h.m_mqttClient.m_state = MqttConnectionState.CONNECTED) :
    (h.subscribeToThread qt threadUid topic).m_threadTopics
      = QHash.insert h.m_threadTopics threadUid topic
    ∧ (h.subscribeToThread qt threadUid topic).m_topicThreads
      = QHash.insert h.m_topicThreads topic threadUid
    ∧ (h.subscribeToThread qt threadUid topic).m_mqttClient.m_subscriptions
      = QHash.insert h.m_mqttClient.m_subscriptions topic 0
    ∧ (h.subscribeToThread qt threadUid topic).m_mqttClient.m_socket.written
      = h.m_mqttClient.m_socket.written
        ++ [[0x82, (5 + (qt.toUtf8 topic).length) % 256,
              h.m_mqttClient.m_messageId / 256 % 256, h.m_mqttClient.m_messageId % 256,
              (qt.toUtf8 topic).length / 256 % 256, (qt.toUtf8 topic).length % 256]
            ++ qt.toUtf8 topic ++ [0x00]]
    ∧ ((qt.toUtf8 topic).length ≤ 250 →
        (5 + (qt.toUtf8 topic).length) % 256 = 5 + (qt.toUtf8 topic).length)
    ∧ (h.m_mqttClient.m_messageId < 65536 →
        h.m_mqttClient.m_messageId / 256 % 256 * 256 + h.m_mqttClient.m_messageId % 256
          = h.m_mqttClient.m_messageId) := by
  have hcon : h.m_mqttClient.isConnected = true := by
    simp [MqttClient.isConnected, hc]
  have hpkt : MqttClient.subscribePacket qt h.m_mqttClient.m_messageId topic 0
      = [0x82, (5 + (qt.toUtf8 topic).length) % 256,
              h.m_mqttClient.m_messageId / 256 % 256, h.m_mqttClient.m_messageId % 256,
              (qt.toUtf8 topic).length / 256 % 256, (qt.toUtf8 topic).length % 256]
            ++ qt.toUtf8 topic ++ [0x00] := by
    simp only [MqttClient.subscribePacket, MqttClient.subscribePayload, MqttClient.encodeString,
      toChar, MqttProtocol.SUBSCRIBE, and_0xFF, Nat.shiftRight_eq_div_pow]
    simp
    omega
  refine ⟨?_, ?_, ?_, ?_, fun hn => by omega, fun hid => by omega⟩
  · simp only [MqttMessageHandler.subscribeToThread, hcon, if_true]
  · simp only [MqttMessageHandler.subscribeToThread, hcon, if_true]
  · simp [MqttMessageHandler.subscribeToThread, hcon, MqttClient.subscribe,
      MqttClient.sendMqttSubscribe, MqttClient.calculateMessageId]
  · rw [← hpkt]
    simp [MqttMessageHandler.subscribeToThread, hcon, MqttClient.subscribe,
      MqttClient.sendMqttSubscribe, MqttClient.calculateMessageId, QTcpSocket.write]

theorem C23_subscribe_while_connected_witness :
    (MqttMessageHandler.subscribeToThread stdQt
        (MqttClient.onConnack stdQt none (MqttMessageHandler.new MqttClient.new))
        "conv1" "org/workgroup/55").m_mqttClient.m_socket.written
      = [[0x82, 21, 0x00, 0x01, 0x00, 0x10] ++ stdQt.toUtf8 "org/workgroup/55" ++ [0x00]] :=
  (C23_subscribe_while_connected stdQt
    (MqttClient.onConnack stdQt none (MqttMessageHandler.new MqttClient.new))
    "conv1" "org/workgroup/55" (by decide)).2.2.2.1.trans (by decide)

/-! ## C24: the Publish frame -/

/-- C24: for every topic, payload, retain flag and qos in 0, 1, 2, `sendMqttPublish` writes one
frame. Its header byte is 0x30 plus twice the qos plus the retain bit, so its high nibble is 3,
bit 0 is the retain flag, bits 1 and 2 hold the qos and bit 3 is zero. After the length byte its
body is the topic with its two-byte length prefix, then, when and only when qos > 0, the message
id drawn for the frame as two bytes, high byte first, then the payload bytes as they are, to the
end of the frame. -/
theorem C24_publish_frame_layout (qt : QtLib) (c : MqttClient) (topic : QString)
    (payload : QByteArray) (qos : Nat) (retain : Bool) (hq : qos ≤ 2) :
    (c.sendMqttPublish qt topic payload qos retain).m_socket.written
      = c.m_socket.written
        ++ [[0x30 + 2 * qos + (if retain then 1 else 0),
              (MqttClient.encodeString qt topic
                ++ (if qos > 0 then [c.m_messageId / 256 % 256, c.m_messageId % 256] else [])
                ++ payload).length % 256]
            ++ MqttClient.encodeString qt topic
            ++ (if qos > 0 then [c.m_messageId / 256 % 256, c.m_messageId % 256] else [])
            ++ payload]
    ∧ (0x30 + 2 * qos + (if retain then 1 else 0)) / 16 = 3
    ∧ (0x30 + 2 * qos + (if retain then 1 else 0)) % 2 = (if retain then 1 else 0)
    ∧ (0x30 + 2 * qos + (if retain then 1 else 0)) / 2 % 4 = qos
    ∧ (0x30 + 2 * qos + (if retain then 1 else 0)) / 8 % 2 = 0
    ∧ (c.sendMqttPublish qt topic payload qos retain).m_messageId
      = (if qos > 0 then (c.m_messageId + 1) % 65536 else c.m_messageId) := by
  have hcases : qos = 0 ∨ qos = 1 ∨ qos = 2 := by omega
  rcases hcases with rfl | rfl | rfl <;> cases retain <;>
    simp [MqttClient.sendMqttPublish, MqttClient.publishPacket, MqttClient.publishData,
      MqttClient.publishHeader, MqttClient.calculateMessageId, QTcpSocket.write, toChar,
      MqttProtocol.PUBLISH, and_0xFF, Nat.shiftRight_eq_div_pow]

theorem C24_publish_frame_layout_witness :
    (MqttClient.sendMqttPublish stdQt MqttClient.new "org/workgroup/55" [0x68, 0x69] 1
        true).m_socket.written
      = [[0x33, 22, 0x00, 0x10] ++ stdQt.toUtf8 "org/workgroup/55" ++ [0x00, 0x01, 0x68, 0x69]] :=
  (C24_publish_frame_layout stdQt MqttClient.new "org/workgroup/55" [0x68, 0x69] 1 true
    (by decide)).1.trans (by decide)


/-! ## C30: the CONNACK case -/

namespace MqttClient

theorem sameControl_refl (c : MqttClient) : SameControl c c := ⟨rfl, rfl, rfl, rfl, rfl, rfl, rfl⟩

theorem sameControl_trans {a b c : MqttClient} (h1 : SameControl a b) (h2 : SameControl b c) :
    SameControl a c :=
  ⟨h2.1.trans h1.1, h2.2.1.trans h1.2.1, h2.2.2.1.trans h1.2.2.1,
    h2.2.2.2.1.trans h1.2.2.2.1, h2.2.2.2.2.1.trans h1.2.2.2.2.1,
    h2.2.2.2.2.2.1.trans h1.2.2.2.2.2.1, h2.2.2.2.2.2.2.trans h1.2.2.2.2.2.2⟩

theorem sendMqttSubscribe_control (qt : QtLib) (c : MqttClient) (topic : QString) (qos : Nat) :
    SameControl c (c.sendMqttSubscribe qt topic qos) := ⟨rfl, rfl, rfl, rfl, rfl, rfl, rfl⟩

theorem subscribe_control (qt : QtLib) (c : MqttClient) (topic : QString) (qos : Nat) :
    SameControl c (c.subscribe qt topic qos) := by
  unfold subscribe
  split
  · exact sameControl_refl c
  · exact ⟨rfl, rfl, rfl, rfl, rfl, rfl, rfl⟩

theorem foldl_subscribe_control (qt : QtLib) (topics : List QString) (c : MqttClient) :
    SameControl c (topics.foldl (fun c topic => c.subscribe qt topic 0) c) := by
  induction topics generalizing c with
  | nil => exact sameControl_refl c
  | cons t ts ih => exact sameControl_trans (subscribe_control qt c t 0) (ih _)

theorem foldl_sendMqttSubscribe_control (qt : QtLib) (subs : QHash QString Nat) (c : MqttClient) :
    SameControl c (subs.foldl (fun c it => c.sendMqttSubscribe qt it.1 it.2) c) := by
  induction subs generalizing c with
  | nil => exact sameControl_refl c
  | cons t ts ih => exact sameControl_trans (sendMqttSubscribe_control qt c t.1 t.2) (ih _)

/-- The replay loop of the CONNACK case writes the frames of `replayPackets` and nothing else. -/
theorem foldl_sendMqttSubscribe_written (qt : QtLib) (subs : QHash QString Nat) (c : MqttClient) :
    (subs.foldl (fun c it => c.sendMqttSubscribe qt it.1 it.2) c).m_socket.written
      = c.m_socket.written ++ replayPackets qt c.m_messageId subs := by
  induction subs generalizing c with
  | nil => simp [replayPackets]
  | cons t ts ih =>
    rw [List.foldl_cons, ih]
    simp [replayPackets, sendMqttSubscribe, calculateMessageId, QTcpSocket.write]

/-- What the CONNACK case leaves in the fields that control the connection. -/
theorem onConnack_control (qt : QtLib) (now : QDateTime) (h : MqttMessageHandler) :
    (onConnack qt now h).m_mqttClient.m_state = MqttConnectionState.CONNECTED
    ∧ (onConnack qt now h).m_mqttClient.m_keepAliveTimer = { active := true, interval := 30000 }
    ∧ (onConnack qt now h).m_mqttClient.m_reconnectTimer = h.m_mqttClient.m_reconnectTimer.stop
    ∧ (onConnack qt now h).m_mqttClient.m_connectTimeoutTimer
        = h.m_mqttClient.m_connectTimeoutTimer.stop
    ∧ (onConnack qt now h).m_mqttClient.m_keepAliveInterval = 30000
    ∧ (onConnack qt now h).m_mqttClient.m_currentReconnectAttempt = 0
    ∧ (onConnack qt now h).m_mqttClient.m_manualDisconnect = h.m_mqttClient.m_manualDisconnect := by
  simp only [onConnack, MqttMessageHandler.onMqttConnected]
  split <;>
    simp only [(foldl_subscribe_control _ _ _).1, (foldl_subscribe_control _ _ _).2.1,
      (foldl_subscribe_control _ _ _).2.2.1, (foldl_subscribe_control _ _ _).2.2.2.1,
      (foldl_subscribe_control _ _ _).2.2.2.2.1, (foldl_subscribe_control _ _ _).2.2.2.2.2.1,
      (foldl_subscribe_control _ _ _).2.2.2.2.2.2, emit,
      (foldl_sendMqttSubscribe_control _ _ _).1, (foldl_sendMqttSubscribe_control _ _ _).2.1,
      (foldl_sendMqttSubscribe_control _ _ _).2.2.1,
      (foldl_sendMqttSubscribe_control _ _ _).2.2.2.1,
      (foldl_sendMqttSubscribe_control _ _ _).2.2.2.2.1,
      (foldl_sendMqttSubscribe_control _ _ _).2.2.2.2.2.1,
      (foldl_sendMqttSubscribe_control _ _ _).2.2.2.2.2.2,
      startKeepAlive, updateLastMessageTime, setState_state, setState_reconnectTimer,
      setState_connectTimeoutTimer, setState_attempt, setState_manualDisconnect, QTimer.start,
      and_self]

end MqttClient


namespace MqttClient

theorem setState_subscriptions (c : MqttClient) (s : MqttConnectionState) :
    (c.setState s).m_subscriptions = c.m_subscriptions := by
  unfold setState
  split <;> rfl

theorem setState_messageId (c : MqttClient) (s : MqttConnectionState) :
    (c.setState s).m_messageId = c.m_messageId := by
  unfold setState
  split <;> rfl

/-- The frames the CONNACK case writes: first the replay of the client's subscription table, then
the handler's replay of the thread topics. -/
theorem onConnack_written (qt : QtLib) (now : QDateTime) (h : MqttMessageHandler) :
    ∃ ids : List Nat, ids.length = h.m_threadTopics.length
      ∧ (onConnack qt now h).m_mqttClient.m_socket.written
          = h.m_mqttClient.m_socket.written
            ++ replayPackets qt h.m_mqttClient.m_messageId h.m_mqttClient.m_subscriptions
            ++ List.zipWith (fun id topic => subscribePacket qt id topic 0) ids
                (QHash.values h.m_threadTopics) := by
  have hsock : (onConnack qt now h).m_mqttClient.m_socket
      = ((QHash.values h.m_threadTopics).foldl (fun c topic => c.subscribe qt topic 0)
          ((h.m_mqttClient.m_subscriptions.foldl (fun c it => c.sendMqttSubscribe qt it.1 it.2)
            (((({ { { h.m_mqttClient with
              m_connectTimeoutTimer := h.m_mqttClient.m_connectTimeoutTimer.stop } with
              m_reconnectTimer := h.m_mqttClient.m_reconnectTimer.stop } with
              m_currentReconnectAttempt := 0 } : MqttClient).setState
                MqttConnectionState.CONNECTED).updateLastMessageTime now).startKeepAlive
                  30000)).emit ClientSignal.connected)).m_socket := by
    simp only [onConnack, MqttMessageHandler.onMqttConnected, startKeepAlive,
      updateLastMessageTime, setState_subscriptions]
    split <;> rfl
  obtain ⟨ids, hlen, hw⟩ := foldl_subscribe_written qt (QHash.values h.m_threadTopics)
    ((h.m_mqttClient.m_subscriptions.foldl (fun c it => c.sendMqttSubscribe qt it.1 it.2)
            (((({ { { h.m_mqttClient with
              m_connectTimeoutTimer := h.m_mqttClient.m_connectTimeoutTimer.stop } with
              m_reconnectTimer := h.m_mqttClient.m_reconnectTimer.stop } with
              m_currentReconnectAttempt := 0 } : MqttClient).setState
                MqttConnectionState.CONNECTED).updateLastMessageTime now).startKeepAlive
                  30000)).emit ClientSignal.connected)
    (by simp only [emit, (foldl_sendMqttSubscribe_control _ _ _).1, startKeepAlive,
          updateLastMessageTime, setState_state])
  refine ⟨ids, by simpa [QHash.values] using hlen, ?_⟩
  rw [hsock, hw]
  simp only [emit, foldl_sendMqttSubscribe_written, startKeepAlive, updateLastMessageTime,
    setState_written, setState_messageId]

end MqttClient


/-- Reading one complete frame whose type nibble is 2 into an empty buffer runs the CONNACK case
once and returns, whatever the low nibble of the type byte and the body of the frame are. -/
theorem MqttClient.onReadyRead_connack_frame (qt : QtLib) (now : QDateTime)
    (h : MqttMessageHandler) (t l : Nat) (body : QByteArray)
    (hbuf : h.m_mqttClient.m_readBuffer = []) (ht : toChar t &&& 0xF0 = 0x20)
    (hl : body.length = toChar l) :
    MqttClient.onReadyRead qt now h (t :: l :: body)
      = Outcome.ok (MqttClient.onConnack qt now h) := by
  have hcons : MqttClient.consumeFrame
      { h with m_mqttClient := { h.m_mqttClient with m_readBuffer := t :: l :: body } }
      (toChar l) = h := by
    obtain ⟨c, a1, a2, a3, a4, a5⟩ := h
    cases c
    simp only at hbuf
    subst hbuf
    simp [MqttClient.consumeFrame, QByteArray.midFrom, ← hl]
    omega
  unfold MqttClient.onReadyRead
  simp only [hbuf, List.nil_append, List.length_cons]
  rw [MqttClient.readLoop_frame qt now _ _ t l body rfl (by omega), hcons]
  have hd : MqttClient.dispatchFrame qt now h (toChar t) (List.take (toChar l) body)
      = Outcome.ok (MqttClient.onConnack qt now h) := by
    unfold MqttClient.dispatchFrame
    simp only []
    rw [if_pos (show toChar t &&& 0xF0 = MqttProtocol.CONNACK from ht)]
  rw [hd]
  exact MqttClient.readLoop_short qt now _ _
    (by rw [MqttClient.onConnack_readBuffer, hbuf]; decide)

/-- C30: for every state of the handler and its client (any connection state, any value of the
manual flag) with an empty read buffer, reading one complete frame whose type nibble is 2, with
any low nibble and any body, returns with the client in state CONNECTED, the attempt counter at 0,
the connect-timeout and the reconnect timer stopped, the keep-alive timer started with period
30000 ms and the manual flag as it was; and it writes one Subscribe frame for every entry of the
client's subscription table, in the order of the table, followed by the frames of the handler's
replay of its thread topics. -/
theorem C30_connack_ignores_body_and_state (qt : QtLib) (now : QDateTime)
    (h : MqttMessageHandler) (t l : Nat) (body : QByteArray)
    (hbuf : h.m_mqttClient.m_readBuffer = []) (ht : toChar t &&& 0xF0 = 0x20)
    (hl : body.length = toChar l) :
    ∃ h', MqttClient.onReadyRead qt now h (t :: l :: body) = Outcome.ok h'
      ∧ h'.m_mqttClient.m_state = MqttConnectionState.CONNECTED
      ∧ h'.m_mqttClient.m_currentReconnectAttempt = 0
      ∧ h'.m_mqttClient.m_connectTimeoutTimer.active = false
      ∧ h'.m_mqttClient.m_reconnectTimer.active = false
      ∧ h'.m_mqttClient.m_keepAliveTimer = { active := true, interval := 30000 }
      ∧ h'.m_mqttClient.m_manualDisconnect = h.m_mqttClient.m_manualDisconnect
      ∧ h'.m_mqttClient.m_readBuffer = []
      ∧ ∃ ids : List Nat, ids.length = h.m_threadTopics.length
          ∧ h'.m_mqttClient.m_socket.written
            = h.m_mqttClient.m_socket.written
              ++ MqttClient.replayPackets qt h.m_mqttClient.m_messageId
                  h.m_mqttClient.m_subscriptions
              ++ List.zipWith (fun id topic => MqttClient.subscribePacket qt id topic 0) ids
                  (QHash.values h.m_threadTopics) := by
  obtain ⟨c1, c2, c3, c4, _, c6, c7⟩ := MqttClient.onConnack_control qt now h
  refine ⟨_, MqttClient.onReadyRead_connack_frame qt now h t l body hbuf ht hl, c1, c6, ?_, ?_,
    c2, c7, ?_, MqttClient.onConnack_written qt now h⟩
  · rw [c4]; rfl
  · rw [c3]; rfl
  · rw [MqttClient.onConnack_readBuffer, hbuf]

theorem C30_connack_ignores_body_and_state_witness :
    ∃ h', MqttClient.onReadyRead stdQt none
        ((MqttClient.onConnack stdQt none
            (MqttMessageHandler.new MqttClient.new)).onClient
          (fun c => (c.subscribe stdQt "A" 1).disconnectFromHost))
        [0x2F, 0x02, 0x00, 0x05] = Outcome.ok h'
      ∧ h'.m_mqttClient.m_state = MqttConnectionState.CONNECTED
      ∧ h'.m_mqttClient.m_manualDisconnect = true
      ∧ h'.m_mqttClient.m_socket.written
          = [MqttClient.subscribePacket stdQt 1 "A" 1, MqttClient.subscribePacket stdQt 2 "A" 1] := by
  obtain ⟨h', h1, h2, _, _, _, _, h7, _, ids, hlen, hw⟩ :=
    C30_connack_ignores_body_and_state stdQt none
      ((MqttClient.onConnack stdQt none
          (MqttMessageHandler.new MqttClient.new)).onClient
        (fun c => (c.subscribe stdQt "A" 1).disconnectFromHost))
      0x2F 0x02 [0x00, 0x05] (by decide) (by decide) (by decide)
  refine ⟨h', h1, h2, h7.trans (by decide), ?_⟩
  rw [hw]
  have hids : ids = [] := List.length_eq_zero.mp (hlen.trans (by decide))
  rw [hids]
  decide

/-! ## C27: the keep-alive interval -/

/-- C27 fails on the code. The CONNACK case calls `startKeepAlive()` with its default argument,
which stores 30000 in `m_keepAliveInterval` and starts the timer with 30000 ms, whatever
`setKeepAlive` stored before. After `setKeepAlive(60)` the first Connect frame advertises 60
seconds (bytes 00 3C), the ConnectAck leaves the timer and the stored interval at 30000 ms, and
the Connect frame of the next connection advertises 30 seconds (bytes 00 1E). -/
theorem C27_keep_alive_reset_on_connack :
    (∀ (qt : QtLib) (now : QDateTime) (h : MqttMessageHandler) (seconds : Int),
        (MqttClient.onConnack qt now
            (h.onClient (fun c => c.setKeepAlive seconds))).m_mqttClient.m_keepAliveInterval
          = 30000
        ∧ (MqttClient.onConnack qt now
            (h.onClient (fun c => c.setKeepAlive seconds))).m_mqttClient.m_keepAliveTimer
          = { active := true, interval := 30000 })
    ∧ ∃ a1 a2 a3 : MqttMessageHandler,
        run stdQt [Event.setKeepAlive 60,
            Event.connectToHost "broker.test" 1883 "user" "pw" "u1/HTTP/abc",
            Event.socketConnected] (MqttMessageHandler.new MqttClient.new) = Outcome.ok a1
        ∧ a1.m_mqttClient.m_keepAliveInterval = 60 * 1000
        ∧ a1.m_mqttClient.m_socket.written.map (fun p => (p.drop 10).take 2) = [[0x00, 0x3C]]
        ∧ step stdQt a1 (Event.readyRead [0x20, 0x02, 0x00, 0x00] none) = Outcome.ok a2
        ∧ a2.m_mqttClient.m_state = MqttConnectionState.CONNECTED
        ∧ a2.m_mqttClient.m_keepAliveTimer = { active := true, interval := 30000 }
        ∧ a2.m_mqttClient.m_keepAliveInterval = 30000
        ∧ run stdQt [Event.socketDisconnected, Event.reconnect, Event.reconnectShot,
            Event.socketConnected] a2 = Outcome.ok a3
        ∧ a3.m_mqttClient.m_socket.written.map (fun p => (p.drop 10).take 2)
            = [[0x00, 0x3C], [0x00, 0x1E]] :=
  ⟨fun qt now h seconds =>
      ⟨(MqttClient.onConnack_control qt now _).2.2.2.2.1, (MqttClient.onConnack_control qt now _).2.1⟩,
    _, _, _, rfl, by decide, by decide, rfl, by decide, by decide, by decide, rfl, by decide⟩


/-! ## C26: unsubscribing while disconnected -/

/-- C26 fails on the code. The client connects, conversation "conv1" is bound to topic
"org/workgroup/55" while CONNECTED (one Subscribe frame, and the topic enters the client's
subscription table), and the transport closes. `unsubscribeFromThread("conv1")`, called now,
empties both registry maps but leaves the topic in the client's table, because it calls
`MqttClient::unsubscribe` only when the client is connected. After the reconnect the next
ConnectAck replays the table and writes a Subscribe frame for the topic (message id 2), though it
was not subscribed again. The same call made while CONNECTED removes the topic from the table. -/
theorem C26_unsubscribe_while_disconnected_leaves_topic :
    ∃ a1 a2 a3 a4 a5 : MqttMessageHandler,
      run stdQt [Event.connectToHost "broker.test" 1883 "user" "pw" "u1/HTTP/abc",
          Event.socketConnected, Event.readyRead [0x20, 0x02, 0x00, 0x00] none,
          Event.subscribeToThread "conv1" "org/workgroup/55"]
          (MqttMessageHandler.new MqttClient.new) = Outcome.ok a1
      ∧ a1.m_mqttClient.m_state = MqttConnectionState.CONNECTED
      ∧ a1.m_threadTopics = [("conv1", "org/workgroup/55")]
      ∧ a1.m_topicThreads = [("org/workgroup/55", "conv1")]
      ∧ a1.m_mqttClient.m_subscriptions = [("org/workgroup/55", 0)]
      ∧ step stdQt a1 (Event.unsubscribeFromThread "conv1") = Outcome.ok a2
      ∧ a2.m_mqttClient.m_subscriptions = []
      ∧ step stdQt a1 Event.socketDisconnected = Outcome.ok a3
      ∧ a3.m_mqttClient.m_state = MqttConnectionState.DISCONNECTED
      ∧ step stdQt a3 (Event.unsubscribeFromThread "conv1") = Outcome.ok a4
      ∧ a4.m_threadTopics = []
      ∧ a4.m_topicThreads = []
      ∧ a4.m_mqttClient.m_subscriptions = [("org/workgroup/55", 0)]
      ∧ run stdQt [Event.reconnect, Event.reconnectShot, Event.socketConnected,
          Event.readyRead [0x20, 0x02, 0x00, 0x00] none] a4 = Outcome.ok a5
      ∧ a5.m_mqttClient.m_state = MqttConnectionState.CONNECTED
      ∧ a5.m_mqttClient.m_socket.written
          = a4.m_mqttClient.m_socket.written
            ++ [MqttClient.connectPacket stdQt a4.m_mqttClient,
                MqttClient.subscribePacket stdQt 2 "org/workgroup/55" 0] :=
  ⟨_, _, _, _, _, rfl, by decide, by decide, by decide, by decide, rfl, by decide, rfl, by decide,
    rfl, by decide, by decide, by decide, rfl, by decide, by decide⟩

/-! ## C28: a timer that fires after a manual disconnect -/

/-- C28 fails on the code. After a connect attempt that ends in a socket error, `reconnect()`
counts attempt 1 and hands its lambda to a single-shot timer. `disconnectFromHost()`, called
before that timer fires, sets the manual flag and the state DISCONNECTED and stops the three
`QTimer` members, but the single-shot timer is still pending. When it fires, its lambda checks
nothing: the state becomes RECONNECTING and the socket is asked to connect a second time, with no
call of `connectToHost()` in between. -/
theorem C28_single_shot_fires_after_manual_disconnect :
    ∃ a1 a2 a3 : MqttMessageHandler,
      run stdQt [Event.connectToHost "broker.test" 1883 "user" "pw" "u1/HTTP/abc",
          Event.socketError "Connection refused" SocketState.UnconnectedState,
          Event.reconnect] (MqttMessageHandler.new MqttClient.new) = Outcome.ok a1
      ∧ a1.m_mqttClient.singleShots = [3000]
      ∧ a1.m_mqttClient.m_socket.connectCalls = [("broker.test", 1883)]
      ∧ step stdQt a1 Event.disconnectFromHost = Outcome.ok a2
      ∧ a2.m_mqttClient.m_state = MqttConnectionState.DISCONNECTED
      ∧ a2.m_mqttClient.m_manualDisconnect = true
      ∧ a2.m_mqttClient.m_reconnectTimer.active = false
      ∧ a2.m_mqttClient.m_keepAliveTimer.active = false
      ∧ a2.m_mqttClient.m_connectTimeoutTimer.active = false
      ∧ a2.m_mqttClient.singleShots = [3000]
      ∧ step stdQt a2 Event.reconnectShot = Outcome.ok a3
      ∧ a3.m_mqttClient.m_state = MqttConnectionState.RECONNECTING
      ∧ a3.m_mqttClient.m_manualDisconnect = true
      ∧ a3.m_mqttClient.m_socket.connectCalls = [("broker.test", 1883), ("broker.test", 1883)] :=
  ⟨_, _, _, rfl, by decide, by decide, rfl, by decide, by decide, by decide, by decide, by decide,
    by decide, rfl, by decide, by decide, by decide⟩


/-! ## C25: the size of the dedup sets -/

theorem QSet.size_insert_le {α : Type} [DecidableEq α] (s : QSet α) (a : α) :
    QSet.size (QSet.insert s a) ≤ QSet.size s + 1 := by
  unfold QSet.insert QSet.size
  split
  · omega
  · simp

theorem QSet.mem_insert_self {α : Type} [DecidableEq α] (s : QSet α) (a : α) :
    a ∈ QSet.insert s a := by
  unfold QSet.insert
  split
  · assumption
  · simp

theorem QSet.mem_insert_of_mem {α : Type} [DecidableEq α] (s : QSet α) (a x : α) (hx : x ∈ s) :
    x ∈ QSet.insert s a := by
  unfold QSet.insert
  split
  · exact hx
  · simp [hx]

theorem QSet.mem_of_mem_insert {α : Type} [DecidableEq α] (s : QSet α) (a x : α)
    (hx : x ∈ QSet.insert s a) : x ∈ s ∨ x = a := by
  unfold QSet.insert at hx
  split at hx
  · exact Or.inl hx
  · simpa using hx

namespace MqttMessageHandler

/-- What `addToSentMessages` leaves in the two sets. -/
theorem addToSentMessages_sets (h : MqttMessageHandler) (uid : QString) :
    (h.addToSentMessages uid).m_sentReadUids
      = (if QSet.size h.m_sentReadUids > 1000 then [uid] else QSet.insert h.m_sentReadUids uid)
    ∧ (h.addToSentMessages uid).m_sentDeliveredUids
      = (if QSet.size h.m_sentDeliveredUids > 1000 then [uid]
          else QSet.insert h.m_sentDeliveredUids uid) := by
  unfold addToSentMessages
  by_cases h1 : QSet.size h.m_sentReadUids > 1000 <;>
    by_cases h2 : QSet.size h.m_sentDeliveredUids > 1000 <;>
    simp [h1, h2, QSet.clear, QSet.insert]

theorem addToSentMessages_bound (h : MqttMessageHandler) (uid : QString) :
    DedupBound (h.addToSentMessages uid) := by
  obtain ⟨h1, h2⟩ := addToSentMessages_sets h uid
  unfold DedupBound
  rw [h1, h2]
  constructor
  · split
    · simp [QSet.size]
    · have := QSet.size_insert_le h.m_sentReadUids uid
      omega
  · split
    · simp [QSet.size]
    · have := QSet.size_insert_le h.m_sentDeliveredUids uid
      omega

theorem dedupBound_of_same {h h' : MqttMessageHandler} (hs : SameDedup h h') (hb : DedupBound h) :
    DedupBound h' := by
  unfold DedupBound at *
  rw [hs.1, hs.2]
  exact hb

theorem onMqttMessageReceived_dedup (qt : QtLib) (now : QDateTime) (h : MqttMessageHandler)
    (topic : QString) (payload : QByteArray) :
    SameDedup h (onMqttMessageReceived qt now h topic payload) := by
  rw [onMqttMessageReceived_eq]
  split <;> exact ⟨rfl, rfl⟩

theorem subscribeToThread_dedup (qt : QtLib) (h : MqttMessageHandler) (threadUid topic : QString) :
    SameDedup h (h.subscribeToThread qt threadUid topic) := by
  unfold subscribeToThread
  simp only []
  split <;> exact ⟨rfl, rfl⟩

theorem unsubscribeFromThread_dedup (h : MqttMessageHandler) (threadUid : QString) :
    SameDedup h (h.unsubscribeFromThread threadUid) := by
  unfold unsubscribeFromThread
  split
  · simp only []
    split <;> exact ⟨rfl, rfl⟩
  · exact ⟨rfl, rfl⟩

theorem subscribeToQueue_dedup (qt : QtLib) (h : MqttMessageHandler) (agentUid : QString) :
    SameDedup h (h.subscribeToQueue qt agentUid) := by
  unfold subscribeToQueue
  simp only []
  split <;> exact ⟨rfl, rfl⟩

theorem sendTextMessage_dedup (qt : QtLib) (h : MqttMessageHandler) (thread : ThreadPtr)
    (text : QString) (user : UserPtr) (uid : QString) (now : QDateTime) :
    SameDedup h (h.sendTextMessage qt thread text user uid now) := by
  unfold sendTextMessage
  split
  · simp only []
    split <;> exact ⟨rfl, rfl⟩
  · exact ⟨rfl, rfl⟩

theorem sendImageMessage_dedup (qt : QtLib) (h : MqttMessageHandler) (thread : ThreadPtr)
    (imageUrl : QString) (user : UserPtr) (uid : QString) (now : QDateTime) :
    SameDedup h (h.sendImageMessage qt thread imageUrl user uid now) := by
  unfold sendImageMessage
  split
  · simp only []
    split <;> exact ⟨rfl, rfl⟩
  · exact ⟨rfl, rfl⟩

theorem sendFileMessage_dedup (qt : QtLib) (h : MqttMessageHandler) (thread : ThreadPtr)
    (fileUrl fileName : QString) (fileSize : Int) (user : UserPtr) (uid : QString)
    (now : QDateTime) :
    SameDedup h (h.sendFileMessage qt thread fileUrl fileName fileSize user uid now) := by
  unfold sendFileMessage
  split
  · simp only []
    split <;> exact ⟨rfl, rfl⟩
  · exact ⟨rfl, rfl⟩

theorem sendTypingMessage_dedup (qt : QtLib) (h : MqttMessageHandler) (thread : ThreadPtr)
    (user : UserPtr) (uid : QString) (now : QDateTime) :
    SameDedup h (h.sendTypingMessage qt thread user uid now) := by
  unfold sendTypingMessage
  split
  · simp only []
    split <;> exact ⟨rfl, rfl⟩
  · exact ⟨rfl, rfl⟩

theorem sendReadReceipt_bound (qt : QtLib) (h : MqttMessageHandler) (thread : ThreadPtr)
    (messageUid : QString) (user : UserPtr) (uid : QString) (now : QDateTime)
    (hb : DedupBound h) : DedupBound (h.sendReadReceipt qt thread messageUid user uid now) := by
  unfold sendReadReceipt
  split
  · split
    · exact hb
    · simp only []
      split
      · exact addToSentMessages_bound h messageUid
      · exact addToSentMessages_bound h messageUid
  · exact hb

theorem sendDeliveredReceipt_bound (qt : QtLib) (h : MqttMessageHandler) (thread : ThreadPtr)
    (messageUid : QString) (user : UserPtr) (uid : QString) (now : QDateTime)
    (hb : DedupBound h) :
    DedupBound (h.sendDeliveredReceipt qt thread messageUid user uid now) := by
  unfold sendDeliveredReceipt
  split
  · split
    · exact hb
    · simp only []
      split
      · exact addToSentMessages_bound h messageUid
      · exact addToSentMessages_bound h messageUid
  · exact hb

end MqttMessageHandler

namespace MqttClient

theorem deliverPublish_dedup (qt : QtLib) (now : QDateTime) (h : MqttMessageHandler)
    (topic : QString) (messagePayload : QByteArray) :
    MqttMessageHandler.SameDedup h (deliverPublish qt now h topic messagePayload) :=
  MqttMessageHandler.onMqttMessageReceived_dedup qt now
    { h with m_mqttClient := h.m_mqttClient.emit (ClientSignal.messageReceived topic messagePayload) }
    topic messagePayload

theorem dispatchFrame_dedup (qt : QtLib) (now : QDateTime) (h h' : MqttMessageHandler)
    (messageType : Nat) (payload : QByteArray)
    (hd : dispatchFrame qt now h messageType payload = Outcome.ok h') :
    MqttMessageHandler.SameDedup h h' := by
  unfold dispatchFrame at hd
  simp only [] at hd
  split at hd
  · cases hd
    exact ⟨rfl, rfl⟩
  · split at hd
    · unfold onPublish at hd
      split at hd
      · cases hd
        exact deliverPublish_dedup _ _ _ _ _
      · cases hd
    · split at hd
      · cases hd
        exact ⟨rfl, rfl⟩
      · cases hd
        exact ⟨rfl, rfl⟩

theorem readLoop_dedup (qt : QtLib) (now : QDateTime) (fuel : Nat) :
    ∀ h h' : MqttMessageHandler, readLoop qt now fuel h = Outcome.ok h' →
      MqttMessageHandler.SameDedup h h' := by
  induction fuel with
  | zero =>
    intro h h' hr
    unfold readLoop at hr
    split at hr
    · cases hr
    · cases hr
      exact ⟨rfl, rfl⟩
  | succ n ih =>
    intro h h' hr
    by_cases h2 : h.m_mqttClient.m_readBuffer.length ≥ 2
    · by_cases h3 : h.m_mqttClient.m_readBuffer.length
          < 2 + toChar (h.m_mqttClient.m_readBuffer.getD 1 0)
      · simp only [readLoop, h2, if_true, h3] at hr
        cases hr
        exact ⟨rfl, rfl⟩
      · simp only [readLoop, h2, if_true, h3, if_false] at hr
        cases hd : dispatchFrame qt now
            (consumeFrame h (toChar (h.m_mqttClient.m_readBuffer.getD 1 0)))
            (toChar (h.m_mqttClient.m_readBuffer.getD 0 0))
            (QByteArray.mid h.m_mqttClient.m_readBuffer 2
              (toChar (h.m_mqttClient.m_readBuffer.getD 1 0))) with
        | ok g =>
          rw [hd] at hr
          have h1 := dispatchFrame_dedup qt now _ _ _ _ hd
          have h2 := ih _ _ hr
          exact ⟨h2.1.trans h1.1, h2.2.trans h1.2⟩
        | outOfRange =>
          rw [hd] at hr
          cases hr
        | outOfFuel =>
          rw [hd] at hr
          cases hr
    · rw [readLoop_short qt now _ h (by omega)] at hr
      cases hr
      exact ⟨rfl, rfl⟩

end MqttClient

theorem step_dedupBound (qt : QtLib) (h h' : MqttMessageHandler) (e : Event)
    (hs : step qt h e = Outcome.ok h') (hb : MqttMessageHandler.DedupBound h) :
    MqttMessageHandler.DedupBound h' := by
  cases e with
  | readyRead bytes now =>
    exact MqttMessageHandler.dedupBound_of_same (MqttClient.readLoop_dedup qt now _ _ _ hs) hb
  | subscribeToThread threadUid topic =>
    cases hs
    exact MqttMessageHandler.dedupBound_of_same
      (MqttMessageHandler.subscribeToThread_dedup qt h _ _) hb
  | unsubscribeFromThread threadUid =>
    cases hs
    exact MqttMessageHandler.dedupBound_of_same
      (MqttMessageHandler.unsubscribeFromThread_dedup h _) hb
  | subscribeToQueue agentUid =>
    cases hs
    exact MqttMessageHandler.dedupBound_of_same
      (MqttMessageHandler.subscribeToQueue_dedup qt h _) hb
  | sendTextMessage thread text user uid now =>
    cases hs
    exact MqttMessageHandler.dedupBound_of_same
      (MqttMessageHandler.sendTextMessage_dedup qt h _ _ _ _ _) hb
  | sendImageMessage thread imageUrl user uid now =>
    cases hs
    exact MqttMessageHandler.dedupBound_of_same
      (MqttMessageHandler.sendImageMessage_dedup qt h _ _ _ _ _) hb
  | sendFileMessage thread fileUrl fileName fileSize user uid now =>
    cases hs
    exact MqttMessageHandler.dedupBound_of_same
      (MqttMessageHandler.sendFileMessage_dedup qt h _ _ _ _ _ _ _) hb
  | sendTypingMessage thread user uid now =>
    cases hs
    exact MqttMessageHandler.dedupBound_of_same
      (MqttMessageHandler.sendTypingMessage_dedup qt h _ _ _ _) hb
  | sendReadReceipt thread messageUid user uid now =>
    cases hs
    exact MqttMessageHandler.sendReadReceipt_bound qt h _ _ _ _ _ hb
  | sendDeliveredReceipt thread messageUid user uid now =>
    cases hs
    exact MqttMessageHandler.sendDeliveredReceipt_bound qt h _ _ _ _ _ hb
  | _ =>
    cases hs
    exact hb

/-- C25: `addToSentMessages` clears a set in full when it holds more than 1000 uids and then
puts the new uid in, so that the set holds the new uid alone; otherwise it only inserts the new
uid, which keeps every uid the set held and adds at most one. No other operation changes the two
sets, so in every reachable state neither set holds more than 1001 uids. -/
theorem C25_dedup_sets_bounded (qt : QtLib) :
    (∀ (h : MqttMessageHandler) (uid : QString),
        (h.addToSentMessages uid).m_sentReadUids
          = (if QSet.size h.m_sentReadUids > 1000 then [uid]
              else QSet.insert h.m_sentReadUids uid)
        ∧ (h.addToSentMessages uid).m_sentDeliveredUids
          = (if QSet.size h.m_sentDeliveredUids > 1000 then [uid]
              else QSet.insert h.m_sentDeliveredUids uid))
    ∧ (∀ (s : QSet QString) (uid : QString),
        (∀ x ∈ s, x ∈ QSet.insert s uid)
        ∧ uid ∈ QSet.insert s uid
        ∧ (∀ x ∈ QSet.insert s uid, x ∈ s ∨ x = uid)
        ∧ QSet.size s ≤ QSet.size (QSet.insert s uid)
        ∧ QSet.size (QSet.insert s uid) ≤ QSet.size s + 1)
    ∧ (∀ g : MqttMessageHandler, Reachable qt g →
        QSet.size g.m_sentReadUids ≤ 1001 ∧ QSet.size g.m_sentDeliveredUids ≤ 1001) := by
  refine ⟨MqttMessageHandler.addToSentMessages_sets, fun s uid => ⟨fun x hx =>
    QSet.mem_insert_of_mem s uid x hx, QSet.mem_insert_self s uid,
    fun x hx => QSet.mem_of_mem_insert s uid x hx, ?_, QSet.size_insert_le s uid⟩, ?_⟩
  · unfold QSet.insert QSet.size
    split
    · exact Nat.le_refl _
    · simp
  · intro g hg
    induction hg with
    | init => exact ⟨by decide, by decide⟩
    | step g g' e _ hs ih => exact step_dedupBound qt g g' e hs ih


/-! ## C29: reassembly of frames from chunks -/

namespace MqttClient

theorem onConnack_eq (qt : QtLib) (now : QDateTime) (h : MqttMessageHandler) :
    onConnack qt now h
      = h.onClient (onConnackClient qt now (QHash.values h.m_threadTopics)) := rfl

theorem IgnoresReadBuffer.comp {f g : MqttClient → MqttClient} (hf : IgnoresReadBuffer f)
    (hg : IgnoresReadBuffer g) : IgnoresReadBuffer (fun c => g (f c)) := by
  intro c buf
  show g (f (c.setReadBuffer buf)) = (g (f c)).setReadBuffer buf
  rw [hf c buf, hg (f c) buf]

theorem setState_ignores (s : MqttConnectionState) :
    IgnoresReadBuffer (fun c => c.setState s) := by
  intro c buf
  by_cases hs : c.m_state ≠ s
  · have l : (c.setReadBuffer buf).setState s
        = emit { c.setReadBuffer buf with m_state := s } (ClientSignal.connectionStateChanged s) :=
      if_pos hs
    have r : c.setState s
        = emit { c with m_state := s } (ClientSignal.connectionStateChanged s) := if_pos hs
    exact l.trans (congrArg (fun x => MqttClient.setReadBuffer x buf) r).symm
  · have l : (c.setReadBuffer buf).setState s = c.setReadBuffer buf := if_neg hs
    have r : c.setState s = c := if_neg hs
    exact l.trans (congrArg (fun x => MqttClient.setReadBuffer x buf) r).symm

theorem subscribe_ignores (qt : QtLib) (topic : QString) (qos : Nat) :
    IgnoresReadBuffer (fun c => c.subscribe qt topic qos) := by
  intro c buf
  by_cases hs : (!c.isConnected) = true
  · have l : (c.setReadBuffer buf).subscribe qt topic qos = c.setReadBuffer buf := if_pos hs
    have r : c.subscribe qt topic qos = c := if_pos hs
    exact l.trans (congrArg (fun x => MqttClient.setReadBuffer x buf) r).symm
  · have l : (c.setReadBuffer buf).subscribe qt topic qos
        = sendMqttSubscribe qt
            { c.setReadBuffer buf with
              m_subscriptions := QHash.insert (c.setReadBuffer buf).m_subscriptions topic qos }
            topic qos := if_neg hs
    have r : c.subscribe qt topic qos
        = sendMqttSubscribe qt
            { c with m_subscriptions := QHash.insert c.m_subscriptions topic qos }
            topic qos := if_neg hs
    exact l.trans (congrArg (fun x => MqttClient.setReadBuffer x buf) r).symm

theorem foldl_subscribe_ignores (qt : QtLib) (topics : List QString) :
    IgnoresReadBuffer (fun c => topics.foldl (fun c topic => c.subscribe qt topic 0) c) := by
  induction topics with
  | nil => exact fun _ _ => rfl
  | cons t ts ih => exact IgnoresReadBuffer.comp (subscribe_ignores qt t 0) ih

theorem foldl_sendMqttSubscribe_ignores (qt : QtLib) (subs : QHash QString Nat) :
    IgnoresReadBuffer (fun c => subs.foldl (fun c it => c.sendMqttSubscribe qt it.1 it.2) c) := by
  induction subs with
  | nil => exact fun _ _ => rfl
  | cons t ts ih =>
    exact IgnoresReadBuffer.comp
      (show IgnoresReadBuffer (fun c => c.sendMqttSubscribe qt t.1 t.2) from fun _ _ => rfl) ih

theorem replay_ignores (qt : QtLib) :
    IgnoresReadBuffer
      (fun c => c.m_subscriptions.foldl (fun c it => c.sendMqttSubscribe qt it.1 it.2) c) := by
  intro c buf
  exact foldl_sendMqttSubscribe_ignores qt c.m_subscriptions c buf

theorem connectedCallback_ignores :
    IgnoresReadBuffer (fun c => if c.m_connectedCallback then
      { c with callbackCalls := c.callbackCalls ++ [CallbackCall.connected] } else c) := by
  intro c buf
  cases hcb : c.m_connectedCallback with
  | true =>
    have l : (if (c.setReadBuffer buf).m_connectedCallback = true then
          { c.setReadBuffer buf with
            callbackCalls := (c.setReadBuffer buf).callbackCalls ++ [CallbackCall.connected] }
        else c.setReadBuffer buf)
        = { c.setReadBuffer buf with
            callbackCalls := (c.setReadBuffer buf).callbackCalls ++ [CallbackCall.connected] } :=
      if_pos hcb
    have r : (if c.m_connectedCallback = true then
          { c with callbackCalls := c.callbackCalls ++ [CallbackCall.connected] } else c)
        = { c with callbackCalls := c.callbackCalls ++ [CallbackCall.connected] } := if_pos hcb
    exact l.trans (congrArg (fun x => MqttClient.setReadBuffer x buf) r).symm
  | false =>
    have hn : ¬ c.m_connectedCallback = true := by simp [hcb]
    have l : (if (c.setReadBuffer buf).m_connectedCallback = true then
          { c.setReadBuffer buf with
            callbackCalls := (c.setReadBuffer buf).callbackCalls ++ [CallbackCall.connected] }
        else c.setReadBuffer buf) = c.setReadBuffer buf := if_neg hn
    have r : (if c.m_connectedCallback = true then
          { c with callbackCalls := c.callbackCalls ++ [CallbackCall.connected] } else c)
        = c := if_neg hn
    exact l.trans (congrArg (fun x => MqttClient.setReadBuffer x buf) r).symm

/-- The CONNACK case neither reads nor writes the read buffer. -/
theorem onConnackClient_ignores (qt : QtLib) (now : QDateTime) (topics : List QString) :
    IgnoresReadBuffer (onConnackClient qt now topics) := by
  have h1 : IgnoresReadBuffer (fun c : MqttClient =>
      { { { c with m_connectTimeoutTimer := c.m_connectTimeoutTimer.stop } with
          m_reconnectTimer := c.m_reconnectTimer.stop } with
        m_currentReconnectAttempt := 0 }) := fun _ _ => rfl
  have h2 := IgnoresReadBuffer.comp h1 (setState_ignores MqttConnectionState.CONNECTED)
  have h3 : IgnoresReadBuffer (fun c : MqttClient =>
      (c.updateLastMessageTime now).startKeepAlive 30000) := fun _ _ => rfl
  have h4 := IgnoresReadBuffer.comp (IgnoresReadBuffer.comp h2 h3) (replay_ignores qt)
  have h5 : IgnoresReadBuffer (fun c : MqttClient => c.emit ClientSignal.connected) :=
    fun _ _ => rfl
  have h6 := IgnoresReadBuffer.comp (IgnoresReadBuffer.comp h4 h5)
    (foldl_subscribe_ignores qt topics)
  have h7 := IgnoresReadBuffer.comp h6 connectedCallback_ignores
  exact h7

end MqttClient


namespace MqttClient

theorem onConnack_setReadBuffer (qt : QtLib) (now : QDateTime) (h : MqttMessageHandler)
    (buf : QByteArray) :
    onConnack qt now (h.setReadBuffer buf) = (onConnack qt now h).setReadBuffer buf :=
  congrArg (fun c => ({ h with m_mqttClient := c } : MqttMessageHandler))
    (onConnackClient_ignores qt now (QHash.values h.m_threadTopics) h.m_mqttClient buf)

theorem deliverPublish_setReadBuffer (qt : QtLib) (now : QDateTime) (h : MqttMessageHandler)
    (topic : QString) (messagePayload : QByteArray) (buf : QByteArray) :
    deliverPublish qt now (h.setReadBuffer buf) topic messagePayload
      = (deliverPublish qt now h topic messagePayload).setReadBuffer buf := by
  unfold deliverPublish
  simp only [MqttMessageHandler.onMqttMessageReceived_eq]
  by_cases hu : (MqttMessageHandler.deserializeMessage qt now messagePayload).m_uid = ""
  · simp only [hu, if_true, MqttMessageHandler.setReadBuffer, setReadBuffer, emit]
    cases hcb : h.m_mqttClient.m_messageCallback <;> rfl
  · simp only [hu, if_false, MqttMessageHandler.setReadBuffer, setReadBuffer, emit,
      MqttMessageHandler.emit]
    cases hcb : h.m_mqttClient.m_messageCallback <;> rfl

/-- The switch of `onReadyRead` neither reads nor writes the read buffer. -/
theorem dispatchFrame_setReadBuffer (qt : QtLib) (now : QDateTime) (h : MqttMessageHandler)
    (messageType : Nat) (payload : QByteArray) (buf : QByteArray) :
    dispatchFrame qt now (h.setReadBuffer buf) messageType payload
      = match dispatchFrame qt now h messageType payload with
        | Outcome.ok h' => Outcome.ok (h'.setReadBuffer buf)
        | o => o := by
  unfold dispatchFrame
  simp only []
  by_cases h1 : messageType &&& 0xF0 = MqttProtocol.CONNACK
  · rw [if_pos h1, if_pos h1, onConnack_setReadBuffer]
  · rw [if_neg h1, if_neg h1]
    by_cases h2 : messageType &&& 0xF0 = MqttProtocol.PUBLISH
    · rw [if_pos h2, if_pos h2]
      unfold onPublish
      cases hp0 : payload[0]? with
      | none => rfl
      | some b0 =>
        cases hp1 : payload[1]? with
        | none => rfl
        | some b1 => simp only [deliverPublish_setReadBuffer]
    · rw [if_neg h2, if_neg h2]
      by_cases h3 : messageType &&& 0xF0 = MqttProtocol.PINGRESP
      · rw [if_pos h3, if_pos h3]
        rfl
      · rw [if_neg h3, if_neg h3]

end MqttClient


namespace MqttClient

theorem readLoop_incomplete (qt : QtLib) (now : QDateTime) (fuel : Nat) (h : MqttMessageHandler)
    (hi : Incomplete h.m_mqttClient.m_readBuffer)
    (hf : h.m_mqttClient.m_readBuffer.length ≤ fuel + 1) :
    readLoop qt now fuel h = Outcome.ok h := by
  by_cases h2 : h.m_mqttClient.m_readBuffer.length ≥ 2
  · have h3 : h.m_mqttClient.m_readBuffer.length
        < 2 + toChar (h.m_mqttClient.m_readBuffer.getD 1 0) := by
      rcases hi with hi | hi
      · omega
      · exact hi
    cases fuel with
    | zero => omega
    | succ n => simp only [readLoop, h2, if_true, h3]
  · exact readLoop_short qt now fuel h (by omega)

theorem readLoop_complete (qt : QtLib) (now : QDateTime) (fuel : Nat) (h : MqttMessageHandler)
    (hc : ¬ Incomplete h.m_mqttClient.m_readBuffer) :
    readLoop qt now (fuel + 1) h
      = match dispatchFrame qt now
            (consumeFrame h (toChar (h.m_mqttClient.m_readBuffer.getD 1 0)))
            (toChar (h.m_mqttClient.m_readBuffer.getD 0 0))
            (QByteArray.mid h.m_mqttClient.m_readBuffer 2
              (toChar (h.m_mqttClient.m_readBuffer.getD 1 0))) with
        | Outcome.ok g => readLoop qt now fuel g
        | o => o := by
  unfold Incomplete at hc
  have h2 : h.m_mqttClient.m_readBuffer.length ≥ 2 := by omega
  have h3 : ¬ h.m_mqttClient.m_readBuffer.length
      < 2 + toChar (h.m_mqttClient.m_readBuffer.getD 1 0) := by omega
  simp only [readLoop, h2, if_true, h3, if_false]

/-- A frame that was dispatched and returned has left the rest of the buffer behind. -/
theorem dispatchFrame_consumeFrame_buffer (qt : QtLib) (now : QDateTime)
    (h g : MqttMessageHandler) (n messageType : Nat) (payload : QByteArray)
    (hd : dispatchFrame qt now (consumeFrame h n) messageType payload = Outcome.ok g) :
    g.m_mqttClient.m_readBuffer = h.m_mqttClient.m_readBuffer.drop (2 + n) := by
  rcases dispatchFrame_buffer qt now (consumeFrame h n) messageType payload with hx | ⟨g', hg, hb⟩
  · rw [hx] at hd
    cases hd
  · rw [hg] at hd
    cases hd
    rw [hb, consumeFrame_buffer]

/-- The loop gives the same result for every fuel that covers the buffer. -/
theorem readLoop_fuel_eq (qt : QtLib) (now : QDateTime) (n : Nat) :
    ∀ (f1 f2 : Nat) (h : MqttMessageHandler), h.m_mqttClient.m_readBuffer.length ≤ n →
      h.m_mqttClient.m_readBuffer.length ≤ f1 + 1 →
      h.m_mqttClient.m_readBuffer.length ≤ f2 + 1 →
      readLoop qt now f1 h = readLoop qt now f2 h := by
  induction n with
  | zero =>
    intro f1 f2 h hn _ _
    rw [readLoop_short qt now f1 h (by omega), readLoop_short qt now f2 h (by omega)]
  | succ n ih =>
    intro f1 f2 h hn h1 h2
    by_cases hi : Incomplete h.m_mqttClient.m_readBuffer
    · rw [readLoop_incomplete qt now f1 h hi h1, readLoop_incomplete qt now f2 h hi h2]
    · have hlen : h.m_mqttClient.m_readBuffer.length ≥ 2 := by
        unfold Incomplete at hi
        omega
      cases f1 with
      | zero => omega
      | succ a =>
        cases f2 with
        | zero => omega
        | succ b =>
          rw [readLoop_complete qt now a h hi, readLoop_complete qt now b h hi]
          cases hd : dispatchFrame qt now
              (consumeFrame h (toChar (h.m_mqttClient.m_readBuffer.getD 1 0)))
              (toChar (h.m_mqttClient.m_readBuffer.getD 0 0))
              (QByteArray.mid h.m_mqttClient.m_readBuffer 2
                (toChar (h.m_mqttClient.m_readBuffer.getD 1 0))) with
          | ok g =>
            have hb := dispatchFrame_consumeFrame_buffer qt now h g _ _ _ hd
            have hl : g.m_mqttClient.m_readBuffer.length
                ≤ h.m_mqttClient.m_readBuffer.length - 2 := by
              rw [hb, List.length_drop]
              omega
            exact ih a b g (by omega) (by omega) (by omega)
          | outOfRange => rfl
          | outOfFuel => rfl

/-- When the loop returns, the bytes left in the buffer are no complete frame. -/
theorem readLoop_residual (qt : QtLib) (now : QDateTime) (fuel : Nat) :
    ∀ h h' : MqttMessageHandler, readLoop qt now fuel h = Outcome.ok h' →
      Incomplete h'.m_mqttClient.m_readBuffer := by
  induction fuel with
  | zero =>
    intro h h' hr
    unfold readLoop at hr
    split at hr
    · cases hr
    · cases hr
      exact Or.inl (by omega)
  | succ n ih =>
    intro h h' hr
    by_cases hi : Incomplete h.m_mqttClient.m_readBuffer
    · by_cases h2 : h.m_mqttClient.m_readBuffer.length ≥ 2
      · have h3 : h.m_mqttClient.m_readBuffer.length
            < 2 + toChar (h.m_mqttClient.m_readBuffer.getD 1 0) := by
          rcases hi with hi | hi
          · omega
          · exact hi
        simp only [readLoop, h2, if_true, h3] at hr
        cases hr
        exact hi
      · rw [readLoop_short qt now _ h (by omega)] at hr
        cases hr
        exact hi
    · rw [readLoop_complete qt now n h hi] at hr
      cases hd : dispatchFrame qt now
          (consumeFrame h (toChar (h.m_mqttClient.m_readBuffer.getD 1 0)))
          (toChar (h.m_mqttClient.m_readBuffer.getD 0 0))
          (QByteArray.mid h.m_mqttClient.m_readBuffer 2
            (toChar (h.m_mqttClient.m_readBuffer.getD 1 0))) with
      | ok g =>
        rw [hd] at hr
        exact ih g h' hr
      | outOfRange =>
        rw [hd] at hr
        cases hr
      | outOfFuel =>
        rw [hd] at hr
        cases hr

end MqttClient


namespace MqttClient

theorem consumeFrame_setReadBuffer (h : MqttMessageHandler) (buf : QByteArray) (n : Nat) :
    consumeFrame (h.setReadBuffer buf) n
      = (consumeFrame h n).setReadBuffer (buf.drop (2 + n)) := rfl

theorem mid_append (b x : QByteArray) (n : Nat) (hn : 2 + n ≤ b.length) :
    QByteArray.mid (b ++ x) 2 n = QByteArray.mid b 2 n := by
  unfold QByteArray.mid
  rw [List.drop_append_of_le_length (by omega),
    List.take_append_of_le_length (by rw [List.length_drop]; omega)]

theorem getD_append_left (b x : QByteArray) (i : Nat) (hi : i < b.length) :
    (b ++ x).getD i 0 = b.getD i 0 := by
  rw [List.getD_eq_getElem?_getD, List.getD_eq_getElem?_getD, List.getElem?_append_left hi]

/-- Bytes appended behind a buffer do not change what the loop does with the buffer: running the
loop on the longer buffer is running it on the buffer, appending the bytes to what it leaves, and
running it again. -/
theorem readLoop_append (qt : QtLib) (now : QDateTime) (x : QByteArray) (n : Nat) :
    ∀ h : MqttMessageHandler, h.m_mqttClient.m_readBuffer.length ≤ n →
      readLoop qt now (h.m_mqttClient.m_readBuffer ++ x).length
          (h.setReadBuffer (h.m_mqttClient.m_readBuffer ++ x))
        = match readLoop qt now h.m_mqttClient.m_readBuffer.length h with
          | Outcome.ok h' =>
            readLoop qt now (h'.m_mqttClient.m_readBuffer ++ x).length
              (h'.setReadBuffer (h'.m_mqttClient.m_readBuffer ++ x))
          | o => o := by
  induction n with
  | zero =>
    intro h hn
    rw [readLoop_short qt now h.m_mqttClient.m_readBuffer.length h (by omega)]
  | succ n ih =>
    intro h hn
    by_cases hi : Incomplete h.m_mqttClient.m_readBuffer
    · rw [readLoop_incomplete qt now _ h hi (Nat.le_succ _)]
    · have hc : h.m_mqttClient.m_readBuffer.length ≥ 2
          ∧ ¬ h.m_mqttClient.m_readBuffer.length
              < 2 + toChar (h.m_mqttClient.m_readBuffer.getD 1 0) := by
        unfold Incomplete at hi
        omega
      obtain ⟨k, hk⟩ : ∃ k, h.m_mqttClient.m_readBuffer.length = k + 1 :=
        ⟨h.m_mqttClient.m_readBuffer.length - 1, by omega⟩
      obtain ⟨k', hk'⟩ : ∃ k', (h.m_mqttClient.m_readBuffer ++ x).length = k' + 1 :=
        ⟨(h.m_mqttClient.m_readBuffer ++ x).length - 1, by rw [List.length_append]; omega⟩
      have hg0 : (h.m_mqttClient.m_readBuffer ++ x).getD 0 0
          = h.m_mqttClient.m_readBuffer.getD 0 0 := getD_append_left _ _ _ (by omega)
      have hg1 : (h.m_mqttClient.m_readBuffer ++ x).getD 1 0
          = h.m_mqttClient.m_readBuffer.getD 1 0 := getD_append_left _ _ _ (by omega)
      have hi' : ¬ Incomplete
          (h.setReadBuffer (h.m_mqttClient.m_readBuffer ++ x)).m_mqttClient.m_readBuffer := by
        show ¬ Incomplete (h.m_mqttClient.m_readBuffer ++ x)
        unfold Incomplete
        rw [hg1, List.length_append]
        omega
      have hL := readLoop_complete qt now k'
        (h.setReadBuffer (h.m_mqttClient.m_readBuffer ++ x)) hi'
      have hbuf : (h.setReadBuffer (h.m_mqttClient.m_readBuffer ++ x)).m_mqttClient.m_readBuffer
          = h.m_mqttClient.m_readBuffer ++ x := rfl
      rw [hbuf, hg0, hg1, mid_append _ _ _ (by omega), consumeFrame_setReadBuffer,
        dispatchFrame_setReadBuffer,
        List.drop_append_of_le_length (by omega)] at hL
      rw [hk', hL, hk, readLoop_complete qt now k h hi]
      cases hd : dispatchFrame qt now
          (consumeFrame h (toChar (h.m_mqttClient.m_readBuffer.getD 1 0)))
          (toChar (h.m_mqttClient.m_readBuffer.getD 0 0))
          (QByteArray.mid h.m_mqttClient.m_readBuffer 2
            (toChar (h.m_mqttClient.m_readBuffer.getD 1 0))) with
      | ok g =>
        have hb := dispatchFrame_consumeFrame_buffer qt now h g _ _ _ hd
        have hl : g.m_mqttClient.m_readBuffer.length + 2
            ≤ h.m_mqttClient.m_readBuffer.length := by
          rw [hb, List.length_drop]
          omega
        show readLoop qt now k' (g.setReadBuffer
            (List.drop (2 + toChar (h.m_mqttClient.m_readBuffer.getD 1 0))
              h.m_mqttClient.m_readBuffer ++ x))
          = match readLoop qt now k g with
            | Outcome.ok h' =>
              readLoop qt now (h'.m_mqttClient.m_readBuffer ++ x).length
                (h'.setReadBuffer (h'.m_mqttClient.m_readBuffer ++ x))
            | o => o
        rw [← hb]
        have e1 : readLoop qt now k' (g.setReadBuffer (g.m_mqttClient.m_readBuffer ++ x))
            = readLoop qt now (g.m_mqttClient.m_readBuffer ++ x).length
                (g.setReadBuffer (g.m_mqttClient.m_readBuffer ++ x)) := by
          have hlen : (g.setReadBuffer
              (g.m_mqttClient.m_readBuffer ++ x)).m_mqttClient.m_readBuffer.length
              = (g.m_mqttClient.m_readBuffer ++ x).length := rfl
          rw [List.length_append] at hk'
          exact readLoop_fuel_eq qt now _ _ _ _ (Nat.le_refl _)
            (by rw [hlen, List.length_append]; omega) (by rw [hlen]; omega)
        have e2 : readLoop qt now k g = readLoop qt now g.m_mqttClient.m_readBuffer.length g :=
          readLoop_fuel_eq qt now _ _ _ _ (Nat.le_refl _) (by omega) (by omega)
        rw [e1, e2]
        exact ih g (by omega)
      | outOfRange => rfl
      | outOfFuel => rfl

theorem setReadBuffer_self (h : MqttMessageHandler) :
    h.setReadBuffer h.m_mqttClient.m_readBuffer = h := by
  obtain ⟨c, a1, a2, a3, a4, a5⟩ := h
  cases c
  rfl

theorem onReadyRead_eq (qt : QtLib) (now : QDateTime) (h : MqttMessageHandler)
    (bytes : QByteArray) :
    onReadyRead qt now h bytes
      = readLoop qt now (h.m_mqttClient.m_readBuffer ++ bytes).length
          (h.setReadBuffer (h.m_mqttClient.m_readBuffer ++ bytes)) := rfl

/-- Reading two chunks one after the other is reading their concatenation at once. -/
theorem onReadyRead_append (qt : QtLib) (now : QDateTime) (h : MqttMessageHandler)
    (chunk rest : QByteArray) :
    onReadyRead qt now h (chunk ++ rest)
      = match onReadyRead qt now h chunk with
        | Outcome.ok h' => onReadyRead qt now h' rest
        | o => o := by
  have key := readLoop_append qt now rest _
    (h.setReadBuffer (h.m_mqttClient.m_readBuffer ++ chunk)) (Nat.le_refl _)
  rw [onReadyRead_eq, ← List.append_assoc]
  exact key

/-- Reading the chunks one by one is reading their concatenation at once, when the loop had
stopped on the buffer before. -/
theorem feedChunks_eq (qt : QtLib) (now : QDateTime) (chunks : List QByteArray) :
    ∀ h : MqttMessageHandler, Incomplete h.m_mqttClient.m_readBuffer →
      feedChunks qt now chunks h = onReadyRead qt now h chunks.flatten := by
  induction chunks with
  | nil =>
    intro h hi
    rw [onReadyRead_eq]
    simp only [List.flatten_nil, List.append_nil]
    rw [setReadBuffer_self, readLoop_incomplete qt now _ h hi (Nat.le_succ _)]
    rfl
  | cons chunk chunks ih =>
    intro h _
    rw [List.flatten_cons, onReadyRead_append]
    show (match onReadyRead qt now h chunk with
      | Outcome.ok h' => feedChunks qt now chunks h'
      | o => o) = _
    cases hr : onReadyRead qt now h chunk with
    | ok h' => exact ih h' (readLoop_residual qt now _ _ h' hr)
    | outOfRange => rfl
    | outOfFuel => rfl

end MqttClient


namespace MqttClient

theorem splitFrames_incomplete (fuel : Nat) (buf : QByteArray) (hi : Incomplete buf) :
    splitFrames fuel buf = ([], buf) := by
  cases fuel with
  | zero => rfl
  | succ n =>
    unfold splitFrames
    by_cases h2 : buf.length ≥ 2
    · have h3 : buf.length < 2 + toChar (buf.getD 1 0) := by
        rcases hi with hi | hi
        · omega
        · exact hi
      simp only [h2, if_true, h3]
    · simp only [h2, if_false]

theorem splitFrames_complete (fuel : Nat) (buf : QByteArray) (hc : ¬ Incomplete buf) :
    splitFrames (fuel + 1) buf
      = ((toChar (buf.getD 0 0), QByteArray.mid buf 2 (toChar (buf.getD 1 0)))
          :: (splitFrames fuel (buf.drop (2 + toChar (buf.getD 1 0)))).1,
         (splitFrames fuel (buf.drop (2 + toChar (buf.getD 1 0)))).2) := by
  unfold Incomplete at hc
  have h2 : buf.length ≥ 2 := by omega
  have h3 : ¬ buf.length < 2 + toChar (buf.getD 1 0) := by omega
  rw [splitFrames]
  simp only [h2, if_true, h3, if_false, QByteArray.midFrom]

theorem mid_length (buf : QByteArray) (n : Nat) (hn : 2 + n ≤ buf.length) :
    (QByteArray.mid buf 2 n).length = n := by
  unfold QByteArray.mid
  rw [List.length_take, List.length_drop]
  omega

/-- The loop of `onReadyRead` dispatches the frames of `splitFrames`, in their order. -/
theorem readLoop_eq_dispatchFrames (qt : QtLib) (now : QDateTime) (fuel : Nat) :
    ∀ h : MqttMessageHandler, h.m_mqttClient.m_readBuffer.length ≤ fuel + 1 →
      readLoop qt now fuel h
        = dispatchFrames qt now (splitFrames fuel h.m_mqttClient.m_readBuffer).1 h := by
  induction fuel with
  | zero =>
    intro h hf
    rw [readLoop_short qt now 0 h (by omega)]
    rfl
  | succ n ih =>
    intro h hf
    by_cases hi : Incomplete h.m_mqttClient.m_readBuffer
    · rw [readLoop_incomplete qt now _ h hi hf, splitFrames_incomplete _ _ hi]
      rfl
    · have hc : 2 + toChar (h.m_mqttClient.m_readBuffer.getD 1 0)
          ≤ h.m_mqttClient.m_readBuffer.length := by
        unfold Incomplete at hi
        omega
      rw [readLoop_complete qt now n h hi, splitFrames_complete n _ hi]
      simp only [dispatchFrames, mid_length _ _ hc]
      cases hd : dispatchFrame qt now
          (consumeFrame h (toChar (h.m_mqttClient.m_readBuffer.getD 1 0)))
          (toChar (h.m_mqttClient.m_readBuffer.getD 0 0))
          (QByteArray.mid h.m_mqttClient.m_readBuffer 2
            (toChar (h.m_mqttClient.m_readBuffer.getD 1 0))) with
      | ok g =>
        have hb := dispatchFrame_consumeFrame_buffer qt now h g _ _ _ hd
        simp only []
        rw [← hb]
        exact ih g (by rw [hb, List.length_drop]; omega)
      | outOfRange => rfl
      | outOfFuel => rfl

/-- When the loop returns, it leaves in the buffer what `splitFrames` leaves. -/
theorem readLoop_buffer (qt : QtLib) (now : QDateTime) (fuel : Nat) :
    ∀ h h' : MqttMessageHandler, h.m_mqttClient.m_readBuffer.length ≤ fuel + 1 →
      readLoop qt now fuel h = Outcome.ok h' →
      h'.m_mqttClient.m_readBuffer = (splitFrames fuel h.m_mqttClient.m_readBuffer).2 := by
  induction fuel with
  | zero =>
    intro h h' hf hr
    rw [readLoop_short qt now 0 h (by omega)] at hr
    cases hr
    rfl
  | succ n ih =>
    intro h h' hf hr
    by_cases hi : Incomplete h.m_mqttClient.m_readBuffer
    · rw [readLoop_incomplete qt now _ h hi hf] at hr
      cases hr
      rw [splitFrames_incomplete _ _ hi]
    · rw [readLoop_complete qt now n h hi] at hr
      rw [splitFrames_complete n _ hi]
      cases hd : dispatchFrame qt now
          (consumeFrame h (toChar (h.m_mqttClient.m_readBuffer.getD 1 0)))
          (toChar (h.m_mqttClient.m_readBuffer.getD 0 0))
          (QByteArray.mid h.m_mqttClient.m_readBuffer 2
            (toChar (h.m_mqttClient.m_readBuffer.getD 1 0))) with
      | ok g =>
        rw [hd] at hr
        have hb := dispatchFrame_consumeFrame_buffer qt now h g _ _ _ hd
        simp only []
        rw [← hb]
        exact ih g h' (by rw [hb, List.length_drop]; omega) hr
      | outOfRange =>
        rw [hd] at hr
        cases hr
      | outOfFuel =>
        rw [hd] at hr
        cases hr

theorem splitFrames_residual (fuel : Nat) :
    ∀ buf : QByteArray, buf.length ≤ fuel + 1 → Incomplete (splitFrames fuel buf).2 := by
  induction fuel with
  | zero =>
    intro buf hf
    exact Or.inl (by show buf.length < 2; omega)
  | succ n ih =>
    intro buf hf
    by_cases hi : Incomplete buf
    · rw [splitFrames_incomplete _ _ hi]
      exact hi
    · rw [splitFrames_complete n _ hi]
      exact ih _ (by rw [List.length_drop]; unfold Incomplete at hi; omega)

/-- The frames lie in the buffer one after the other: dropping, for every frame, its two header
bytes and its body leaves what `splitFrames` leaves. -/
theorem splitFrames_drop (fuel : Nat) :
    ∀ buf : QByteArray,
      buf.drop (((splitFrames fuel buf).1.map (fun f => 2 + f.2.length)).sum)
        = (splitFrames fuel buf).2 := by
  induction fuel with
  | zero =>
    intro buf
    rfl
  | succ n ih =>
    intro buf
    by_cases hi : Incomplete buf
    · rw [splitFrames_incomplete _ _ hi]
      rfl
    · have hc : 2 + toChar (buf.getD 1 0) ≤ buf.length := by
        unfold Incomplete at hi
        omega
      rw [splitFrames_complete n _ hi]
      simp only [List.map_cons, List.sum_cons, mid_length _ _ hc]
      rw [← ih (buf.drop (2 + toChar (buf.getD 1 0))), List.drop_drop]

theorem splitFrames_fuel_eq (n : Nat) :
    ∀ (f1 f2 : Nat) (buf : QByteArray), buf.length ≤ n → buf.length ≤ f1 + 1 →
      buf.length ≤ f2 + 1 → splitFrames f1 buf = splitFrames f2 buf := by
  induction n with
  | zero =>
    intro f1 f2 buf hn _ _
    rw [splitFrames_incomplete f1 buf (Or.inl (by omega)),
      splitFrames_incomplete f2 buf (Or.inl (by omega))]
  | succ n ih =>
    intro f1 f2 buf hn h1 h2
    by_cases hi : Incomplete buf
    · rw [splitFrames_incomplete f1 buf hi, splitFrames_incomplete f2 buf hi]
    · have hlen : buf.length ≥ 2 := by
        unfold Incomplete at hi
        omega
      cases f1 with
      | zero => omega
      | succ a =>
        cases f2 with
        | zero => omega
        | succ b =>
          rw [splitFrames_complete a buf hi, splitFrames_complete b buf hi,
            ih a b (buf.drop (2 + toChar (buf.getD 1 0))) (by rw [List.length_drop]; omega)
              (by rw [List.length_drop]; omega) (by rw [List.length_drop]; omega)]

/-- Bytes appended behind a buffer do not change the frames taken from the buffer: the frames of
the longer buffer are the frames of the buffer, followed by the frames of what was left with the
bytes appended. -/
theorem splitFrames_append (x : QByteArray) (n : Nat) :
    ∀ buf : QByteArray, buf.length ≤ n →
      splitFrames (buf ++ x).length (buf ++ x)
        = ((splitFrames buf.length buf).1
            ++ (splitFrames ((splitFrames buf.length buf).2 ++ x).length
                ((splitFrames buf.length buf).2 ++ x)).1,
           (splitFrames ((splitFrames buf.length buf).2 ++ x).length
                ((splitFrames buf.length buf).2 ++ x)).2) := by
  induction n with
  | zero =>
    intro buf hn
    rw [splitFrames_incomplete buf.length buf (Or.inl (by omega))]
    rfl
  | succ n ih =>
    intro buf hn
    by_cases hi : Incomplete buf
    · rw [splitFrames_incomplete buf.length buf hi]
      rfl
    · have hc : buf.length ≥ 2 ∧ 2 + toChar (buf.getD 1 0) ≤ buf.length := by
        unfold Incomplete at hi
        omega
      obtain ⟨k, hk⟩ : ∃ k, buf.length = k + 1 := ⟨buf.length - 1, by omega⟩
      obtain ⟨k', hk'⟩ : ∃ k', (buf ++ x).length = k' + 1 :=
        ⟨(buf ++ x).length - 1, by rw [List.length_append]; omega⟩
      have hg0 : (buf ++ x).getD 0 0 = buf.getD 0 0 := getD_append_left _ _ _ (by omega)
      have hg1 : (buf ++ x).getD 1 0 = buf.getD 1 0 := getD_append_left _ _ _ (by omega)
      have hi' : ¬ Incomplete (buf ++ x) := by
        unfold Incomplete
        rw [hg1, List.length_append]
        omega
      have hd : (buf.drop (2 + toChar (buf.getD 1 0))).length + 2 ≤ buf.length := by
        rw [List.length_drop]
        omega
      rw [List.length_append] at hk'
      have e1 : splitFrames k' (buf.drop (2 + toChar (buf.getD 1 0)) ++ x)
          = splitFrames (buf.drop (2 + toChar (buf.getD 1 0)) ++ x).length
              (buf.drop (2 + toChar (buf.getD 1 0)) ++ x) :=
        splitFrames_fuel_eq _ _ _ _ (Nat.le_refl _) (by rw [List.length_append]; omega)
          (Nat.le_succ _)
      have e2 : splitFrames k (buf.drop (2 + toChar (buf.getD 1 0)))
          = splitFrames (buf.drop (2 + toChar (buf.getD 1 0))).length
              (buf.drop (2 + toChar (buf.getD 1 0))) :=
        splitFrames_fuel_eq _ _ _ _ (Nat.le_refl _) (by omega) (Nat.le_succ _)
      rw [List.length_append, hk', splitFrames_complete k' _ hi', hg0, hg1,
        mid_append _ _ _ hc.2, List.drop_append_of_le_length hc.2, e1,
        ih (buf.drop (2 + toChar (buf.getD 1 0))) (by omega)]
      rw [hk, splitFrames_complete k _ hi, e2]
      rfl

/-- The frames taken when the chunks arrive one by one, and the bytes left at the end, are those
taken from the concatenation of the chunks. -/
theorem splitChunks_eq (chunks : List QByteArray) :
    ∀ buf : QByteArray, Incomplete buf →
      splitChunks chunks buf
        = splitFrames (buf ++ chunks.flatten).length (buf ++ chunks.flatten) := by
  induction chunks with
  | nil =>
    intro buf hi
    simp only [List.flatten_nil, List.append_nil]
    rw [splitFrames_incomplete _ _ hi]
    rfl
  | cons chunk chunks ih =>
    intro buf _
    have hres := splitFrames_residual (buf ++ chunk).length (buf ++ chunk) (Nat.le_succ _)
    rw [List.flatten_cons, ← List.append_assoc,
      splitFrames_append chunks.flatten _ (buf ++ chunk) (Nat.le_refl _),
      ← ih _ hres]
    rfl

end MqttClient


/-- C29: let the loop of `onReadyRead` have stopped on the read buffer (it is empty, say), and let
the socket deliver a byte sequence in any number of consecutive chunks. Running `onReadyRead` once
per chunk gives the same result as running it once on the whole sequence: the same handler and
client, so the same frames dispatched in the same order and the same bytes left in the buffer, or
the same stop at an out-of-range index. The frames taken chunk by chunk (type byte and body) and
the bytes left are those taken from the whole sequence; `onReadyRead` dispatches exactly these
frames, oldest first, and never uses up its iteration bound; every frame takes its two header
bytes and as many body bytes as its length byte declares from the front of the buffer; and the
bytes left are fewer than two or an incomplete frame. -/
theorem C29_reassembly_independent_of_chunking (qt : QtLib) (now : QDateTime)
    (h : MqttMessageHandler) (chunks : List QByteArray)
    (hres : MqttClient.Incomplete h.m_mqttClient.m_readBuffer) :
    MqttClient.feedChunks qt now chunks h = MqttClient.onReadyRead qt now h chunks.flatten
    ∧ MqttClient.splitChunks chunks h.m_mqttClient.m_readBuffer
        = MqttClient.splitFrames (h.m_mqttClient.m_readBuffer ++ chunks.flatten).length
            (h.m_mqttClient.m_readBuffer ++ chunks.flatten)
    ∧ MqttClient.onReadyRead qt now h chunks.flatten
        = MqttClient.dispatchFrames qt now
            (MqttClient.splitFrames (h.m_mqttClient.m_readBuffer ++ chunks.flatten).length
              (h.m_mqttClient.m_readBuffer ++ chunks.flatten)).1
            (h.setReadBuffer (h.m_mqttClient.m_readBuffer ++ chunks.flatten))
    ∧ MqttClient.onReadyRead qt now h chunks.flatten ≠ Outcome.outOfFuel
    ∧ MqttClient.feedChunks qt now chunks h ≠ Outcome.outOfFuel
    ∧ (∀ h', MqttClient.onReadyRead qt now h chunks.flatten = Outcome.ok h' →
        h'.m_mqttClient.m_readBuffer
          = (MqttClient.splitFrames (h.m_mqttClient.m_readBuffer ++ chunks.flatten).length
              (h.m_mqttClient.m_readBuffer ++ chunks.flatten)).2)
    ∧ (h.m_mqttClient.m_readBuffer ++ chunks.flatten).drop
          (((MqttClient.splitFrames (h.m_mqttClient.m_readBuffer ++ chunks.flatten).length
              (h.m_mqttClient.m_readBuffer ++ chunks.flatten)).1.map
            (fun f => 2 + f.2.length)).sum)
        = (MqttClient.splitFrames (h.m_mqttClient.m_readBuffer ++ chunks.flatten).length
            (h.m_mqttClient.m_readBuffer ++ chunks.flatten)).2
    ∧ MqttClient.Incomplete
        (MqttClient.splitFrames (h.m_mqttClient.m_readBuffer ++ chunks.flatten).length
          (h.m_mqttClient.m_readBuffer ++ chunks.flatten)).2 := by
  have hfeed := MqttClient.feedChunks_eq qt now chunks h hres
  refine ⟨hfeed, MqttClient.splitChunks_eq chunks _ hres, ?_,
    MqttClient.onReadyRead_fuel qt now h _, ?_, ?_, MqttClient.splitFrames_drop _ _,
    MqttClient.splitFrames_residual _ _ (Nat.le_succ _)⟩
  · rw [MqttClient.onReadyRead_eq]
    exact MqttClient.readLoop_eq_dispatchFrames qt now _
      (h.setReadBuffer (h.m_mqttClient.m_readBuffer ++ chunks.flatten)) (Nat.le_succ _)
  · rw [hfeed]
    exact MqttClient.onReadyRead_fuel qt now h _
  · intro h' hr
    rw [MqttClient.onReadyRead_eq] at hr
    exact MqttClient.readLoop_buffer qt now _
      (h.setReadBuffer (h.m_mqttClient.m_readBuffer ++ chunks.flatten)) h' (Nat.le_succ _) hr

theorem C29_reassembly_independent_of_chunking_witness :
    MqttClient.feedChunks stdQt none
        [[0x30], [0x05, 0x00, 0x01], [0x41, 0x68, 0x69, 0xD0], [0x00, 0x30]]
        (MqttMessageHandler.new MqttClient.new)
      = MqttClient.onReadyRead stdQt none (MqttMessageHandler.new MqttClient.new)
          [0x30, 0x05, 0x00, 0x01, 0x41, 0x68, 0x69, 0xD0, 0x00, 0x30]
    ∧ MqttClient.splitChunks [[0x30], [0x05, 0x00, 0x01], [0x41, 0x68, 0x69, 0xD0], [0x00, 0x30]]
        []
      = ([(0x30, [0x00, 0x01, 0x41, 0x68, 0x69]), (0xD0, [])], [0x30]) :=
  ⟨(C29_reassembly_independent_of_chunking stdQt none (MqttMessageHandler.new MqttClient.new)
      [[0x30], [0x05, 0x00, 0x01], [0x41, 0x68, 0x69, 0xD0], [0x00, 0x30]]
      (Or.inl (by decide))).1,
    by decide⟩


/-! ## C16 and C17: what the payload decides -/

theorem Message.fromJson_threadUid (qt : QtLib) (now : QDateTime) (json : QJsonObject) :
    (Message.fromJson qt now json).m_threadUid = (json.get "threadUid").toQString := by
  unfold Message.fromJson
  simp only [Message.setContentJson]
  split <;> split <;> rfl

theorem Message.fromJson_userUid (qt : QtLib) (now : QDateTime) (json : QJsonObject) :
    (Message.fromJson qt now json).m_userUid = (json.get "userUid").toQString := by
  unfold Message.fromJson
  simp only [Message.setContentJson]
  split <;> split <;> rfl

theorem Message.fromJson_type (qt : QtLib) (now : QDateTime) (json : QJsonObject) :
    (Message.fromJson qt now json).m_type = Message.stringToType (json.get "type").toQString := by
  unfold Message.fromJson
  simp only [Message.setContentJson]
  split <;> split <;> rfl

theorem MqttMessageHandler.deserializeMessage_some (qt : QtLib) (now : QDateTime)
    (payload : QByteArray) (doc : QJsonValue) (hp : qt.jsonParse payload = some doc) :
    MqttMessageHandler.deserializeMessage qt now payload = Message.fromJson qt now doc.toObject := by
  simp only [MqttMessageHandler.deserializeMessage, hp]

theorem MqttMessageHandler.deserializeMessage_none (qt : QtLib) (now : QDateTime)
    (payload : QByteArray) (hp : qt.jsonParse payload = none) :
    MqttMessageHandler.deserializeMessage qt now payload = Message.new now := by
  simp only [MqttMessageHandler.deserializeMessage, hp]

/-- C16 (amended): the payload alone decides what an inbound message emits. For every payload
there is one list of events that `onMqttMessageReceived` appends for every state of the handler
(whatever its registry holds) and every topic: no event when the payload does not parse or its
"uid" member is missing, not a string or empty, and otherwise exactly one event, whose
conversation id is the "threadUid" member of the payload (the empty string when that member is
missing or not a string). -/
theorem C16_conversation_id_from_payload (qt : QtLib) (now : QDateTime) (payload : QByteArray) :
    ∃ events : List HandlerSignal,
      (∀ (h : MqttMessageHandler) (topic : QString),
        MqttMessageHandler.onMqttMessageReceived qt now h topic payload
          = { h with emitted := h.emitted ++ events })
      ∧ events.map HandlerSignal.threadUid
          = (match qt.jsonParse payload with
             | none => []
             | some doc =>
               if (doc.toObject.get "uid").toQString = "" then []
               else [(doc.toObject.get "threadUid").toQString]) := by
  cases hp : qt.jsonParse payload with
  | none =>
    refine ⟨[], fun h topic => ?_, rfl⟩
    rw [MqttMessageHandler.onMqttMessageReceived_eq,
      MqttMessageHandler.deserializeMessage_none qt now payload hp]
    simp [Message.new]
  | some doc =>
    have hd := MqttMessageHandler.deserializeMessage_some qt now payload doc hp
    by_cases hu : (doc.toObject.get "uid").toQString = ""
    · refine ⟨[], fun h topic => ?_, by simp [hu]⟩
      rw [MqttMessageHandler.onMqttMessageReceived_eq, hd, Message.fromJson_uid]
      simp [hu]
    · refine ⟨[match (Message.fromJson qt now doc.toObject).m_type with
          | MessageType.TYPING =>
            HandlerSignal.typingReceived (Message.fromJson qt now doc.toObject).m_threadUid
              (Message.fromJson qt now doc.toObject).m_userUid
          | MessageType.READ =>
            HandlerSignal.readReceiptReceived (Message.fromJson qt now doc.toObject).m_threadUid
              ((Message.fromJson qt now doc.toObject).getContentString qt)
          | MessageType.DELIVERED =>
            HandlerSignal.deliveredReceiptReceived
              (Message.fromJson qt now doc.toObject).m_threadUid
              ((Message.fromJson qt now doc.toObject).getContentString qt)
          | MessageType.NOTICE =>
            HandlerSignal.noticeReceived (Message.fromJson qt now doc.toObject).m_threadUid
              ((Message.fromJson qt now doc.toObject).getContentString qt)
          | _ => HandlerSignal.messageReceived (Message.fromJson qt now doc.toObject)],
        fun h topic => ?_, ?_⟩
      · rw [MqttMessageHandler.onMqttMessageReceived_eq, hd, Message.fromJson_uid, if_neg hu]
        rfl
      · simp only [hu, if_false, List.map_cons, List.map_nil]
        rw [← Message.fromJson_threadUid qt now doc.toObject]
        cases (Message.fromJson qt now doc.toObject).m_type <;> rfl


/-- C17: for every inbound payload that parses and whose "uid" member is a non-empty string, the
slot emits exactly one signal and changes nothing else, and the "type" member of the payload alone
selects the signal: "TYPING" gives `typingReceived` with the payload's "threadUid" and "userUid"
members, "NOTICE" gives `noticeReceived`, "READ" and "DELIVERED" give the read and the delivered
receipt signal, each with the payload's "threadUid" member and the content string of the
deserialized message, and every other type string, the seven other names `stringToType` knows as
well as any string it does not know (or a missing "type" member), gives `messageReceived` with the
whole deserialized message. -/
theorem C17_inbound_dispatch_by_kind (qt : QtLib) (now : QDateTime) (h : MqttMessageHandler)
    (topic : QString) (payload : QByteArray) (doc : QJsonValue)
    (hp : qt.jsonParse payload = some doc)
    (huid : (doc.toObject.get "uid").toQString ≠ "") :
    ((doc.toObject.get "type").toQString = "TYPING" →
      MqttMessageHandler.onMqttMessageReceived qt now h topic payload
        = { h with emitted := h.emitted ++ [HandlerSignal.typingReceived
            (doc.toObject.get "threadUid").toQString (doc.toObject.get "userUid").toQString] })
    ∧ ((doc.toObject.get "type").toQString = "NOTICE" →
      MqttMessageHandler.onMqttMessageReceived qt now h topic payload
        = { h with emitted := h.emitted ++ [HandlerSignal.noticeReceived
            (doc.toObject.get "threadUid").toQString
            ((Message.fromJson qt now doc.toObject).getContentString qt)] })
    ∧ ((doc.toObject.get "type").toQString = "READ" →
      MqttMessageHandler.onMqttMessageReceived qt now h topic payload
        = { h with emitted := h.emitted ++ [HandlerSignal.readReceiptReceived
            (doc.toObject.get "threadUid").toQString
            ((Message.fromJson qt now doc.toObject).getContentString qt)] })
    ∧ ((doc.toObject.get "type").toQString = "DELIVERED" →
      MqttMessageHandler.onMqttMessageReceived qt now h topic payload
        = { h with emitted := h.emitted ++ [HandlerSignal.deliveredReceiptReceived
            (doc.toObject.get "threadUid").toQString
            ((Message.fromJson qt now doc.toObject).getContentString qt)] })
    ∧ ((doc.toObject.get "type").toQString
          ∈ ["TEXT", "IMAGE", "FILE", "VIDEO", "VOICE", "RECALL", "CUSTOM"]
        ∨ (doc.toObject.get "type").toQString ∉ Message.knownTypeStrings →
      MqttMessageHandler.onMqttMessageReceived qt now h topic payload
        = { h with emitted := h.emitted ++ [HandlerSignal.messageReceived
            (Message.fromJson qt now doc.toObject)] })
    ∧ (Message.fromJson qt now doc.toObject).m_uid = (doc.toObject.get "uid").toQString
    ∧ (Message.fromJson qt now doc.toObject).m_threadUid
        = (doc.toObject.get "threadUid").toQString
    ∧ (Message.fromJson qt now doc.toObject).m_type
        = Message.stringToType (doc.toObject.get "type").toQString := by
  have hd := MqttMessageHandler.deserializeMessage_some qt now payload doc hp
  have huid' : (MqttMessageHandler.deserializeMessage qt now payload).m_uid ≠ "" := by
    rw [hd, Message.fromJson_uid]
    exact huid
  obtain ⟨k1, k2, k3, k4, k5, k6⟩ :=
    MqttMessageHandler.onMqttMessageReceived_by_type qt now h topic payload huid'
  rw [hd] at k1 k2 k3 k4 k5
  rw [Message.fromJson_type, Message.fromJson_threadUid] at k1 k2 k3 k4
  rw [Message.fromJson_userUid] at k1
  rw [Message.fromJson_type] at k5
  refine ⟨fun ht => k1 (by rw [ht]; rfl), fun ht => k2 (by rw [ht]; rfl),
    fun ht => k3 (by rw [ht]; rfl), fun ht => k4 (by rw [ht]; rfl), fun ht => k5 ?_,
    Message.fromJson_uid qt now _, Message.fromJson_threadUid qt now _,
    Message.fromJson_type qt now _⟩
  rcases ht with ht | ht
  · simp only [List.mem_cons, List.mem_singleton, List.mem_nil_iff, or_false] at ht
    rcases ht with ht | ht | ht | ht | ht | ht | ht <;> rw [ht] <;> decide
  · rw [k6 _ ht]
    decide

theorem C17_inbound_dispatch_by_kind_witness :
    MqttMessageHandler.onMqttMessageReceived stdQt none (MqttMessageHandler.new MqttClient.new)
        "org/workgroup/55"
        (stdQt.toUtf8 "\x7b\"uid\":\"t1\",\"type\":\"TYPING\",\"threadUid\":\"conv1\",\"userUid\":\"u2\"\x7d")
      = { MqttMessageHandler.new MqttClient.new with
          emitted := (MqttMessageHandler.new MqttClient.new).emitted
            ++ [HandlerSignal.typingReceived "conv1" "u2"] }
    ∧ MqttMessageHandler.onMqttMessageReceived stdQt none (MqttMessageHandler.new MqttClient.new)
        "org/workgroup/55"
        (stdQt.toUtf8 "\x7b\"uid\":\"n1\",\"type\":\"NOTICE\",\"threadUid\":\"conv2\"\x7d")
      = { MqttMessageHandler.new MqttClient.new with
          emitted := (MqttMessageHandler.new MqttClient.new).emitted
            ++ [HandlerSignal.noticeReceived "conv2"
                ((Message.fromJson stdQt none
                  [("uid", QJsonValue.string "n1"), ("type", QJsonValue.string "NOTICE"),
                    ("threadUid", QJsonValue.string "conv2")]).getContentString stdQt)] } :=
  ⟨(C17_inbound_dispatch_by_kind stdQt none (MqttMessageHandler.new MqttClient.new)
      "org/workgroup/55"
      (stdQt.toUtf8 "\x7b\"uid\":\"t1\",\"type\":\"TYPING\",\"threadUid\":\"conv1\",\"userUid\":\"u2\"\x7d")
      (QJsonValue.object [("uid", QJsonValue.string "t1"), ("type", QJsonValue.string "TYPING"),
        ("threadUid", QJsonValue.string "conv1"), ("userUid", QJsonValue.string "u2")])
      rfl (by decide)).1 (by decide),
   (C17_inbound_dispatch_by_kind stdQt none (MqttMessageHandler.new MqttClient.new)
      "org/workgroup/55"
      (stdQt.toUtf8 "\x7b\"uid\":\"n1\",\"type\":\"NOTICE\",\"threadUid\":\"conv2\"\x7d")
      (QJsonValue.object [("uid", QJsonValue.string "n1"), ("type", QJsonValue.string "NOTICE"),
        ("threadUid", QJsonValue.string "conv2")])
      rfl (by decide)).2.1 (by decide)⟩

end Bytedesk
